import Mathlib

/-!
# CP2130 host driver: descriptor codec, chunked SPI transport, transfer primitives

A shallow embedding of `cp2130.cpp` / `cp2130.h` (class `CP2130`, version 1.2.6).

Conventions of the embedding:

* bytes (`unsigned char`, `uint8_t`) and UTF-16 code units (`char16_t`) are natural
  numbers; every narrowing conversion of the source is an explicit `% 256`,
  `% 65536` or `% 2 ^ 32`;
* the caller's error accumulator (`int &errcnt`, `std::string &errstr`) travels in
  the state record next to the private members of the object; `State.errcnt` counts
  the failure events as an unbounded integer, and the `int` of the caller holds
  `wrapInt32` of it: the two agree as long as the count stays at most `INT_MAX`
  (incrementing an `int` past `INT_MAX` is undefined in C++ and wraps on the usual
  targets);
* libusb is the environment: `World.reply` answers every control and bulk transfer
  as a function of the transfers issued so far and of the current one, and
  `World.uninit` supplies the indeterminate content of buffers that the source
  leaves uninitialised;
* every transfer handed to libusb is appended to `State.trace`.
-/

namespace CP2130

/-! ## Constants -/

/-- Descriptor table size, including preamble. -/
def DESC_TBLSIZE : Nat := 0x0040
/-- Maximum usable index. -/
def DESC_MAXIDX : Nat := DESC_TBLSIZE - 2
/-- Index increment or step between table preambles. -/
def DESC_IDXINCR : Nat := DESC_TBLSIZE - 1

def SUCCESS : Int := 0
def ERROR_INIT : Int := 1
def ERROR_NOT_FOUND : Int := 2
def ERROR_BUSY : Int := 3

def DESCMXL_MANUFACTURER : Nat := 62
def DESCMXL_PRODUCT : Nat := 62
def DESCMXL_SERIAL : Nat := 30

def PROM_BLOCKS : Nat := 8
def PROM_BLOCK_SIZE : Nat := 64
def PROM_WRITE_KEY : Nat := 0xa5f1

def READ : Nat := 0x00
def WRITE : Nat := 0x01
def WRITEREAD : Nat := 0x02

def GET : Nat := 0xc0
def SET : Nat := 0x40
def RESET_DEVICE : Nat := 0x10
def RESET_DEVICE_WLEN : Nat := 0x0000
def GET_READONLY_VERSION : Nat := 0x11
def GET_READONLY_VERSION_WLEN : Nat := 0x0002
def GET_GPIO_VALUES : Nat := 0x20
def GET_GPIO_VALUES_WLEN : Nat := 0x0002
def SET_GPIO_VALUES : Nat := 0x21
def SET_GPIO_VALUES_WLEN : Nat := 0x0004
def SET_GPIO_MODE_AND_LEVEL : Nat := 0x23
def SET_GPIO_MODE_AND_LEVEL_WLEN : Nat := 0x0003
def GET_GPIO_CHIP_SELECT : Nat := 0x24
def GET_GPIO_CHIP_SELECT_WLEN : Nat := 0x0004
def SET_GPIO_CHIP_SELECT : Nat := 0x25
def SET_GPIO_CHIP_SELECT_WLEN : Nat := 0x0002
def GET_SPI_WORD : Nat := 0x30
def GET_SPI_WORD_WLEN : Nat := 0x000b
def SET_SPI_WORD : Nat := 0x31
def SET_SPI_WORD_WLEN : Nat := 0x0002
def GET_SPI_DELAY : Nat := 0x32
def GET_SPI_DELAY_WLEN : Nat := 0x0008
def SET_SPI_DELAY : Nat := 0x33
def SET_SPI_DELAY_WLEN : Nat := 0x0008
def GET_FULL_THRESHOLD : Nat := 0x34
def GET_FULL_THRESHOLD_WLEN : Nat := 0x0001
def SET_FULL_THRESHOLD : Nat := 0x35
def SET_FULL_THRESHOLD_WLEN : Nat := 0x0001
def GET_RTR_STATE : Nat := 0x36
def GET_RTR_STATE_WLEN : Nat := 0x0001
def SET_RTR_STOP : Nat := 0x37
def SET_RTR_STOP_WLEN : Nat := 0x0001
def GET_EVENT_COUNTER : Nat := 0x44
def GET_EVENT_COUNTER_WLEN : Nat := 0x0003
def SET_EVENT_COUNTER : Nat := 0x45
def SET_EVENT_COUNTER_WLEN : Nat := 0x0003
def GET_CLOCK_DIVIDER : Nat := 0x46
def GET_CLOCK_DIVIDER_WLEN : Nat := 0x0001
def SET_CLOCK_DIVIDER : Nat := 0x47
def SET_CLOCK_DIVIDER_WLEN : Nat := 0x0001
def GET_USB_CONFIG : Nat := 0x60
def GET_USB_CONFIG_WLEN : Nat := 0x0009
def SET_USB_CONFIG : Nat := 0x61
def SET_USB_CONFIG_WLEN : Nat := 0x000a
def GET_MANUFACTURING_STRING_1 : Nat := 0x62
def SET_MANUFACTURING_STRING_1 : Nat := 0x63
def GET_MANUFACTURING_STRING_2 : Nat := 0x64
def SET_MANUFACTURING_STRING_2 : Nat := 0x65
def GET_PRODUCT_STRING_1 : Nat := 0x66
def SET_PRODUCT_STRING_1 : Nat := 0x67
def GET_PRODUCT_STRING_2 : Nat := 0x68
def SET_PRODUCT_STRING_2 : Nat := 0x69
def GET_SERIAL_STRING : Nat := 0x6a
def SET_SERIAL_STRING : Nat := 0x6b
def GET_PIN_CONFIG : Nat := 0x6c
def GET_PIN_CONFIG_WLEN : Nat := 0x0014
def SET_PIN_CONFIG : Nat := 0x6d
def SET_PIN_CONFIG_WLEN : Nat := 0x0014
def GET_LOCK_BYTE : Nat := 0x6e
def GET_LOCK_BYTE_WLEN : Nat := 0x0002
def SET_LOCK_BYTE : Nat := 0x6f
def SET_LOCK_BYTE_WLEN : Nat := 0x0002
def GET_PROM_CONFIG : Nat := 0x70
def GET_PROM_CONFIG_WLEN : Nat := 0x0040
def SET_PROM_CONFIG : Nat := 0x71
def SET_PROM_CONFIG_WLEN : Nat := 0x0040

def LWALL : Nat := 0x0fff

def BMGPIO0 : Nat := 0x0008
def BMGPIO1 : Nat := 0x0010
def BMGPIO2 : Nat := 0x0020
def BMGPIO3 : Nat := 0x0040
def BMGPIO4 : Nat := 0x0080
def BMGPIO5 : Nat := 0x0100
def BMGPIO6 : Nat := 0x0400
def BMGPIO7 : Nat := 0x0800
def BMGPIO8 : Nat := 0x1000
def BMGPIO9 : Nat := 0x2000
def BMGPIO10 : Nat := 0x4000
def BMGPIOS : Nat := 0x7df8

def PRIOREAD : Nat := 0x00
def PRIOWRITE : Nat := 0x01

/-- The libusb return code for an input/output error (`libusb.h`). -/
def LIBUSB_ERROR_IO : Int := -1
/-- The libusb return code for a device that is gone (`libusb.h`). -/
def LIBUSB_ERROR_NO_DEVICE : Int := -4
/-- The libusb return code for a timed-out transfer (`libusb.h`). -/
def LIBUSB_ERROR_TIMEOUT : Int := -7
/-- The libusb return code for a stalled endpoint (`libusb.h`). -/
def LIBUSB_ERROR_PIPE : Int := -9

/-! ## Environment and state -/

/-- A transfer handed to libusb: the arguments of `libusb_control_transfer` or of
`libusb_bulk_transfer` (`wantCount` tells whether `transferred` is non-null). -/
inductive UsbCall where
  | control (bmRequestType bRequest wValue wIndex : Nat) (data : List Nat) (wLength : Nat)
  | bulk (endpointAddr : Nat) (data : List Nat) (length : Int) (wantCount : Bool)
deriving DecidableEq, Repr

/-- What libusb answers to one transfer: its return value, the number of bytes
that really moved, and (for a device-to-host transfer) the bytes received. -/
structure Reply where
  result : Int
  transferred : Nat
  data : Nat → Nat

/-- The environment of the driver. -/
structure World where
  /-- The answer to a transfer, given the transfers issued before it. -/
  reply : List UsbCall → UsbCall → Reply
  /-- The indeterminate byte at an index of a buffer that is not initialised. -/
  uninit : List UsbCall → Nat → Nat
  /-- The macro `LIBUSB_API_VERSION` of the libusb headers the driver is built with. -/
  LIBUSB_API_VERSION : Nat
  /-- Whether the compiler evaluates the arguments of a call from left to right
  (the order is unspecified in C++). -/
  leftToRight : Bool

/-- The private members of the object (`handle_` is kept as "is not null"; the
libusb context has no observable content) and the caller's accumulator. -/
structure State where
  handle_ : Bool
  disconnected_ : Bool
  kernelWasAttached_ : Bool
  errcnt : Int
  errstr : String
  trace : List UsbCall
deriving DecidableEq, Repr

/-- The state of a freshly constructed object, with an empty accumulator. -/
def State.init : State :=
  ⟨false, false, false, 0, "", []⟩

/-- Diagnostic function used to verify if the device has been disconnected. -/
def disconnected (s : State) : Bool := s.disconnected_

/-- Checks if the device is open. -/
def isOpen (s : State) : Bool := s.handle_

/-! ## Helpers for the C++ constructs -/

/-- The values taken by `i` in `for (i = start; i < stop; i += step)`, in order. -/
def forRange (start stop step : Nat) : List Nat :=
  (List.range stop).filter (fun i => decide (start ≤ i ∧ (i - start) % step = 0))

/-- A buffer after libusb stored the first `moved` received bytes in it. -/
def received (data : List Nat) (moved : Nat) (src : Nat → Nat) : List Nat :=
  (List.range data.length).map (fun i => if i < moved then src i % 256 else data.getD i 0)

/-- An uninitialised buffer of `n` bytes. -/
def uninitBuffer (w : World) (s : State) (n : Nat) : List Nat :=
  (List.range n).map (fun i => w.uninit s.trace i % 256)

/-- One hexadecimal digit, lower case. -/
def hexDigit (d : Nat) : Char :=
  if d < 10 then Char.ofNat (48 + d) else Char.ofNat (87 + d)

/-- The text `std::hex << std::setfill('0') << std::setw(2)` gives for an 8-bit value. -/
def hex2 (b : Nat) : String :=
  String.mk [hexDigit (b / 16 % 16), hexDigit (b % 16)]

/-- Adds one failure event to the accumulator. -/
def State.fail (s : State) (msg : String) : State :=
  { s with errcnt := s.errcnt + 1, errstr := s.errstr ++ msg }

/-- The message of a failed control transfer. -/
def controlMessage (bmRequestType bRequest : Nat) : String :=
  "Failed control transfer (0x" ++ hex2 bmRequestType ++ ", 0x" ++ hex2 bRequest ++ ").\n"

/-- The message of a failed bulk transfer. -/
def bulkMessage (endpointAddr : Nat) : String :=
  if endpointAddr < 0x80 then
    "Failed bulk OUT transfer to endpoint " ++ toString (0x0f &&& endpointAddr)
      ++ " (address 0x" ++ hex2 endpointAddr ++ ").\n"
  else
    "Failed bulk IN transfer from endpoint " ++ toString (0x0f &&& endpointAddr)
      ++ " (address 0x" ++ hex2 endpointAddr ++ ").\n"

/-! ## Transfer primitives -/

/-- Safe control transfer. Returns the buffer after the call and the new state. -/
def controlTransfer (w : World) (bmRequestType bRequest wValue wIndex : Nat) (data : List Nat)
    (wLength : Nat) (s : State) : List Nat × State :=
  if ¬ isOpen s then
    (data, s.fail "In controlTransfer(): device is not open.\n")
  else
    let call := UsbCall.control bmRequestType bRequest wValue wIndex data wLength
    let r := w.reply s.trace call
    let data1 := if bmRequestType &&& 0x80 ≠ 0 then received data (min r.transferred wLength) r.data
      else data
    let s1 := { s with trace := s.trace ++ [call] }
    if r.result ≠ (wLength : Int) then
      let s2 := s1.fail (controlMessage bmRequestType bRequest)
      if r.result = LIBUSB_ERROR_NO_DEVICE ∨ r.result = LIBUSB_ERROR_IO
          ∨ r.result = LIBUSB_ERROR_PIPE then
        (data1, { s2 with disconnected_ := true })
      else
        (data1, s2)
    else
      (data1, s1)

/-- Safe bulk transfer. `transferred` is `none` for a null pointer and otherwise the
value stored at the location; returns the buffer, the location and the new state. -/
def bulkTransfer (w : World) (endpointAddr : Nat) (data : List Nat) (length : Int)
    (transferred : Option Int) (s : State) : List Nat × Option Int × State :=
  if ¬ isOpen s then
    (data, transferred, s.fail "In bulkTransfer(): device is not open.\n")
  else
    let call := UsbCall.bulk endpointAddr data length transferred.isSome
    let r := w.reply s.trace call
    let moved := min r.transferred length.toNat
    let data1 := if endpointAddr &&& 0x80 ≠ 0 then received data moved r.data else data
    let transferred1 : Option Int := transferred.map (fun _ => (moved : Int))
    let s1 := { s with trace := s.trace ++ [call] }
    if r.result ≠ 0 ∨ (transferred1.isSome ∧ transferred1 ≠ some length) then
      let s2 := s1.fail (bulkMessage endpointAddr)
      if r.result = LIBUSB_ERROR_NO_DEVICE ∨ r.result = LIBUSB_ERROR_IO then
        (data1, transferred1, { s2 with disconnected_ := true })
      else
        (data1, transferred1, s2)
    else
      (data1, transferred1, s1)

/-! ## Descriptor codec -/

/-- The body of both decoding loops of `getDescGeneric`: appends the code unit stored
at `i`, `i + 1` unless both bytes are zero. -/
def decodeUnit (controlBufferIn : List Nat) (descriptor : List Nat) (i : Nat) : List Nat :=
  if controlBufferIn.getD i 0 ≠ 0 ∨ controlBufferIn.getD (i + 1) 0 ≠ 0 then
    descriptor ++ [(controlBufferIn.getD (i + 1) 0 <<< 8 ||| controlBufferIn.getD i 0) % 65536]
  else
    descriptor

/-- Private generic procedure used to get any descriptor. A read past the end of the
64-byte buffer yields 0 here; which indices are read is a separate matter. -/
def getDescGeneric (w : World) (command : Nat) (s : State) : List Nat × State :=
  let controlBufferIn := uninitBuffer w s DESC_TBLSIZE
  let t1 := controlTransfer w GET command 0x0000 0x0000 controlBufferIn DESC_TBLSIZE s
  let length := t1.1.getD 0 0
  let end1 := if length > DESC_MAXIDX then DESC_MAXIDX else length
  let descriptor1 := (forRange 2 end1 2).foldl (decodeUnit t1.1) []
  if (command = GET_MANUFACTURING_STRING_1 ∨ command = GET_PRODUCT_STRING_1)
      ∧ length > DESC_MAXIDX then
    let midchar0 := t1.1.getD DESC_MAXIDX 0
    let t2 := controlTransfer w GET ((command + 2) % 256) 0x0000 0x0000 t1.1 DESC_TBLSIZE t1.2
    let midchar := (t2.1.getD 0 0 <<< 8 ||| midchar0) % 65536
    let descriptor2 := if midchar ≠ 0x0000 then descriptor1 ++ [midchar] else descriptor1
    let end2 := length - DESC_IDXINCR
    ((forRange 1 end2 2).foldl (decodeUnit t2.1) descriptor2, t2.2)
  else
    (descriptor1, t1.2)

/-- The byte `writeDescGeneric` stores at index `j` of table `i`. -/
def descByte (descriptor : List Nat) (length i j : Nat) : Nat :=
  let offset := DESC_IDXINCR * i
  if offset + j < length then
    (descriptor.getD ((offset + j - 2) / 2) 0 >>> (if (i + j) % 2 = 0 then 0 else 8)) % 256
  else
    0x00

/-- The inner loop of `writeDescGeneric` for table `i`. -/
def fillTable (descriptor : List Nat) (length i : Nat) (controlBufferOut : List Nat) : List Nat :=
  let start := if i = 0 then 2 else 0
  (forRange start DESC_IDXINCR 1).foldl
    (fun buf j => buf.set j (descByte descriptor length i j)) controlBufferOut

/-- The body of the outer loop of `writeDescGeneric`: fills table `i` and sends it. -/
def writeTable (w : World) (descriptor : List Nat) (command length : Nat)
    (acc : List Nat × State) (i : Nat) : List Nat × State :=
  controlTransfer w SET ((command + 2 * i) % 256) PROM_WRITE_KEY 0x0000
    (fillTable descriptor length i acc.1) DESC_TBLSIZE acc.2

/-- Private generic procedure used to write any descriptor. -/
def writeDescGeneric (w : World) (descriptor : List Nat) (command : Nat) (s : State) : State :=
  let length := 2 * descriptor.length + 2
  let controlBufferOut := [length % 256, 0x03] ++ List.replicate (DESC_TBLSIZE - 2) 0
  let ntables := if command = SET_MANUFACTURING_STRING_1 ∨ command = SET_PRODUCT_STRING_1
    then 2 else 1
  ((forRange 0 ntables 1).foldl (writeTable w descriptor command length)
    (controlBufferOut, s)).2

/-- Gets the manufacturer descriptor from the CP2130 OTP ROM. -/
def getManufacturerDesc (w : World) (s : State) : List Nat × State :=
  getDescGeneric w GET_MANUFACTURING_STRING_1 s

/-- Gets the product descriptor from the CP2130 OTP ROM. -/
def getProductDesc (w : World) (s : State) : List Nat × State :=
  getDescGeneric w GET_PRODUCT_STRING_1 s

/-- Gets the serial descriptor from the CP2130 OTP ROM. -/
def getSerialDesc (w : World) (s : State) : List Nat × State :=
  getDescGeneric w GET_SERIAL_STRING s

/-- Writes the manufacturer descriptor to the CP2130 OTP ROM. -/
def writeManufacturerDesc (w : World) (manufacturer : List Nat) (s : State) : State :=
  if manufacturer.length > DESCMXL_MANUFACTURER then
    s.fail "In writeManufacturerDesc(): manufacturer descriptor string cannot be longer than 62 characters.\n"
  else
    writeDescGeneric w manufacturer SET_MANUFACTURING_STRING_1 s

/-- Writes the product descriptor to the CP2130 OTP ROM. -/
def writeProductDesc (w : World) (product : List Nat) (s : State) : State :=
  if product.length > DESCMXL_PRODUCT then
    s.fail "In writeProductDesc(): product descriptor string cannot be longer than 62 characters.\n"
  else
    writeDescGeneric w product SET_PRODUCT_STRING_1 s

/-- Writes the serial descriptor to the CP2130 OTP ROM. -/
def writeSerialDesc (w : World) (serial : List Nat) (s : State) : State :=
  if serial.length > DESCMXL_SERIAL then
    s.fail "In writeSerialDesc(): serial descriptor string cannot be longer than 30 characters.\n"
  else
    writeDescGeneric w serial SET_SERIAL_STRING s

/-- The data buffers of the control transfers recorded after the first `n` entries
of a trace. -/
def sentTables (n : Nat) (trace : List UsbCall) : List (List Nat) :=
  (trace.drop n).filterMap (fun c =>
    match c with
    | UsbCall.control _ _ _ _ data _ => some data
    | UsbCall.bulk _ _ _ _ => none)

/-- The content of the buffer when `writeDescGeneric` sends table `i`: the initialised
array after the inner loop has run for the tables `0` to `i`. -/
def sentTable (descriptor : List Nat) : Nat → List Nat
  | 0 => fillTable descriptor (2 * descriptor.length + 2) 0
      ([(2 * descriptor.length + 2) % 256, 0x03] ++ List.replicate (DESC_TBLSIZE - 2) 0)
  | i + 1 => fillTable descriptor (2 * descriptor.length + 2) (i + 1) (sentTable descriptor i)

/-- A world whose device answers the GET of table `i` of the field read with request
code `command` by the `i`-th of the given tables, and accepts every other transfer. -/
def promWorld (command : Nat) (tables : List (List Nat)) : World where
  reply := fun _ call =>
    match call with
    | UsbCall.control _ bRequest _ _ _ wLength =>
      ⟨wLength, wLength, fun j => (tables.getD ((bRequest - command) / 2) []).getD j 0⟩
    | UsbCall.bulk _ _ length _ => ⟨0, length.toNat, fun _ => 0⟩
  uninit := fun _ _ => 0
  LIBUSB_API_VERSION := 0x01000109
  leftToRight := true

/-- A world whose device lets every transfer time out. -/
def timeoutWorld : World where
  reply := fun _ _ => ⟨LIBUSB_ERROR_TIMEOUT, 0, fun _ => 0⟩
  uninit := fun _ _ => 0
  LIBUSB_API_VERSION := 0x01000109
  leftToRight := true

/-- An open session with an empty accumulator and no transfer issued yet. -/
def State.opened : State :=
  ⟨true, false, false, 0, "", []⟩

/-! ## Chunked SPI transport -/

/-- The conversion of a 32-bit unsigned value to `int`. -/
def toInt32 (n : Nat) : Int :=
  if n % 2 ^ 32 < 2 ^ 31 then ((n % 2 ^ 32 : Nat) : Int) else ((n % 2 ^ 32 : Nat) : Int) - 2 ^ 32

/-- The 8-byte command header: reserved bytes, opcode, and the little-endian length. -/
def commandHeader (opcode n : Nat) : List Nat :=
  [0x00, 0x00, opcode, 0x00, n % 256, (n >>> 8) % 256, (n >>> 16) % 256, (n >>> 24) % 256]

/-- The `transferred` argument of the bulk OUT transfer of a command: a null pointer
with a recent libusb, and the address of the uninitialised `bytesWritten` otherwise. -/
def bytesWrittenArg (w : World) (s : State) : Option Int :=
  if w.LIBUSB_API_VERSION ≥ 0x01000105 then none else some (w.uninit s.trace 0 : Int)

/-- The loop `for (i = 0; i < n; ++i) dst[off + i] = src i`. -/
def copyLoop (off n : Nat) (src : Nat → Nat) (dst : List Nat) : List Nat :=
  (forRange 0 n 1).foldl (fun buf i => buf.set (off + i) (src i)) dst

/-- Requests and reads the given number of bytes from the SPI bus, and then returns a
vector (`bytesToRead` is a `uint32_t`). -/
def spiRead (w : World) (bytesToRead endpointInAddr endpointOutAddr : Nat) (s : State) :
    List Nat × State :=
  let readCommandBuffer := commandHeader READ bytesToRead
  let t1 := bulkTransfer w endpointOutAddr readCommandBuffer 8 (bytesWrittenArg w s) s
  let readInputBuffer := uninitBuffer w t1.2.2 bytesToRead
  let t2 := bulkTransfer w endpointInAddr readInputBuffer (toInt32 bytesToRead) (some 0) t1.2.2
  let bytesRead := (t2.2.1.getD 0).toNat
  (copyLoop 0 bytesRead (fun i => t2.1.getD i 0) (List.replicate bytesRead 0), t2.2.2)

/-- The state a call leaves behind, whether it returned or threw. -/
def afterCall : Except State State → State
  | Except.ok s => s
  | Except.error s => s

/-- Writes to the SPI bus, using the given vector. The array `new` has eight
initialisers: when `bufSize` is below 8 (a vector of `2 ^ 31 - 8` bytes or more makes it
negative) the allocation throws `std::bad_array_new_length` before any transfer, which is
`Except.error` with the state as it was. -/
def spiWrite (w : World) (data : List Nat) (endpointOutAddr : Nat) (s : State) :
    Except State State :=
  let bytesToWrite := data.length % 2 ^ 32
  let bufSize := toInt32 (bytesToWrite + 8)
  if bufSize < 8 then
    Except.error s
  else
    let writeCommandBuffer := copyLoop 8 bytesToWrite (fun i => data.getD i 0)
      (commandHeader WRITE bytesToWrite ++ List.replicate (bufSize.toNat - 8) 0)
    Except.ok
      (bulkTransfer w endpointOutAddr writeCommandBuffer bufSize (bytesWrittenArg w s) s).2.2

/-- One iteration of the loop of `spiWriteRead`, from `bytesProcessed` and `retdata`
to their next values. -/
def spiWriteReadBody (w : World) (data : List Nat) (endpointInAddr endpointOutAddr : Nat)
    (bytesProcessed : Nat) (retdata : List Nat) (s : State) : Nat × List Nat × State :=
  let bytesRemaining := data.length - bytesProcessed
  let payload := (if bytesRemaining > 56 then 56 else bytesRemaining) % 2 ^ 32
  let bufSize := toInt32 (payload + 8)
  let writeReadCommandBuffer := copyLoop 8 payload (fun i => data.getD (bytesProcessed + i) 0)
    (commandHeader WRITEREAD payload ++ List.replicate (bufSize.toNat - 8) 0)
  let t1 := bulkTransfer w endpointOutAddr writeReadCommandBuffer bufSize (bytesWrittenArg w s) s
  let writeReadInputBuffer := uninitBuffer w t1.2.2 payload
  let t2 := bulkTransfer w endpointInAddr writeReadInputBuffer (toInt32 payload) (some 0) t1.2.2
  let bytesRead := (t2.2.1.getD 0).toNat
  let prevretdataSize := retdata.length
  let resized := retdata ++ List.replicate bytesRead 0
  (bytesProcessed + payload,
    copyLoop prevretdataSize bytesRead (fun i => t2.1.getD i 0) resized, t2.2.2)

/-- The `while` loop of `spiWriteRead`; the first argument bounds the number of
iterations (every iteration processes at least one byte, so `data.length` is enough). -/
def spiWriteReadLoop (w : World) (data : List Nat) (endpointInAddr endpointOutAddr : Nat)
    (preverrcnt : Int) : Nat → Nat → List Nat → State → List Nat × State
  | 0, _, retdata, s => (retdata, s)
  | fuel + 1, bytesProcessed, retdata, s =>
    if bytesProcessed < data.length ∧ preverrcnt = s.errcnt then
      let t := spiWriteReadBody w data endpointInAddr endpointOutAddr bytesProcessed retdata s
      spiWriteReadLoop w data endpointInAddr endpointOutAddr preverrcnt fuel t.1 t.2.1 t.2.2
    else
      (retdata, s)

/-- Writes to the SPI bus while reading back, returning a vector. -/
def spiWriteRead (w : World) (data : List Nat) (endpointInAddr endpointOutAddr : Nat)
    (s : State) : List Nat × State :=
  spiWriteReadLoop w data endpointInAddr endpointOutAddr s.errcnt data.length 0 [] s

/-- A world whose device accepts every OUT frame whole and answers every IN read with
the payload of the frame sent just before it. -/
def echoWorld : World where
  reply := fun hist call =>
    match call with
    | UsbCall.control _ _ _ _ _ wLength => ⟨wLength, wLength, fun _ => 0⟩
    | UsbCall.bulk endpointAddr _ length _ =>
      if endpointAddr < 0x80 then ⟨0, length.toNat, fun _ => 0⟩
      else
        match hist.getLast? with
        | some (UsbCall.bulk _ frame _ _) => ⟨0, frame.length - 8, fun i => frame.getD (8 + i) 0⟩
        | _ => ⟨0, 0, fun _ => 0⟩
  uninit := fun _ _ => 0
  LIBUSB_API_VERSION := 0x01000109
  leftToRight := true

/-! ## Register accessors -/

structure EventCounter where
  overflow : Bool
  mode : Nat
  value : Nat
deriving DecidableEq, Repr

structure PinConfig where
  gpio0 : Nat
  gpio1 : Nat
  gpio2 : Nat
  gpio3 : Nat
  gpio4 : Nat
  gpio5 : Nat
  gpio6 : Nat
  gpio7 : Nat
  gpio8 : Nat
  gpio9 : Nat
  gpio10 : Nat
  sspndlvl : Nat
  sspndmode : Nat
  wkupmask : Nat
  wkupmatch : Nat
  divider : Nat
deriving DecidableEq, Repr

structure PROMConfig where
  blocks : List (List Nat)
deriving DecidableEq, Repr

structure SiliconVersion where
  maj : Nat
  min : Nat
deriving DecidableEq, Repr

structure SPIDelays where
  cstglen : Bool
  prdasten : Bool
  pstasten : Bool
  itbyten : Bool
  prdastdly : Nat
  pstastdly : Nat
  itbytdly : Nat
deriving DecidableEq, Repr

structure SPIMode where
  csmode : Bool
  cfrq : Nat
  cpol : Bool
  cpha : Bool
deriving DecidableEq, Repr

structure USBConfig where
  vid : Nat
  pid : Nat
  majrel : Nat
  minrel : Nat
  maxpow : Nat
  powmode : Nat
  trfprio : Nat
deriving DecidableEq, Repr

/-- The integer value of a `bool`. -/
def boolToNat (b : Bool) : Nat := if b then 1 else 0

/-- Configures the pin mode and value for a given GPIO pin. -/
def configureGPIO (w : World) (pin mode : Nat) (value : Bool) (s : State) : State :=
  if pin > 10 then
    s.fail "In configureGPIO(): Pin number must be between 0 and 10.\n"
  else
    let controlBufferOut := [pin, mode, boolToNat value]
    (controlTransfer w SET SET_GPIO_MODE_AND_LEVEL 0x0000 0x0000 controlBufferOut
      SET_GPIO_MODE_AND_LEVEL_WLEN s).2

/-- Configures delays for a given SPI channel. -/
def configureSPIDelays (w : World) (channel : Nat) (delays : SPIDelays) (s : State) : State :=
  if channel > 10 then
    s.fail "In configureSPIDelays(): SPI channel value must be between 0 and 10.\n"
  else
    let controlBufferOut := [channel,
      (boolToNat delays.cstglen <<< 3 ||| boolToNat delays.prdasten <<< 2
        ||| boolToNat delays.pstasten <<< 1 ||| boolToNat delays.itbyten) % 256,
      (delays.itbytdly >>> 8) % 256, delays.itbytdly % 256,
      (delays.pstastdly >>> 8) % 256, delays.pstastdly % 256,
      (delays.prdastdly >>> 8) % 256, delays.prdastdly % 256]
    (controlTransfer w SET SET_SPI_DELAY 0x0000 0x0000 controlBufferOut SET_SPI_DELAY_WLEN s).2

/-- Configures the given SPI channel in respect to its chip select mode, clock
frequency, polarity and phase. -/
def configureSPIMode (w : World) (channel : Nat) (mode : SPIMode) (s : State) : State :=
  if channel > 10 then
    s.fail "In configureSPIMode(): SPI channel value must be between 0 and 10.\n"
  else
    let controlBufferOut := [channel,
      (boolToNat mode.cpha <<< 5 ||| boolToNat mode.cpol <<< 4 ||| boolToNat mode.csmode <<< 3
        ||| (0x07 &&& mode.cfrq)) % 256]
    (controlTransfer w SET SET_SPI_WORD 0x0000 0x0000 controlBufferOut SET_SPI_WORD_WLEN s).2

/-- Disables the chip select of the target channel. -/
def disableCS (w : World) (channel : Nat) (s : State) : State :=
  if channel > 10 then
    s.fail "In disableCS(): SPI channel value must be between 0 and 10.\n"
  else
    let controlBufferOut := [channel, 0x00]
    (controlTransfer w SET SET_GPIO_CHIP_SELECT 0x0000 0x0000 controlBufferOut
      SET_GPIO_CHIP_SELECT_WLEN s).2

/-- Disables all SPI delays for a given channel. -/
def disableSPIDelays (w : World) (channel : Nat) (s : State) : State :=
  if channel > 10 then
    s.fail "In disableSPIDelays(): SPI channel value must be between 0 and 10.\n"
  else
    let controlBufferOut := [channel, 0x00, 0x00, 0x00, 0x00, 0x00, 0x00, 0x00]
    (controlTransfer w SET SET_SPI_DELAY 0x0000 0x0000 controlBufferOut SET_SPI_DELAY_WLEN s).2

/-- Enables the chip select of the target channel. -/
def enableCS (w : World) (channel : Nat) (s : State) : State :=
  if channel > 10 then
    s.fail "In enableCS(): SPI channel value must be between 0 and 10.\n"
  else
    let controlBufferOut := [channel, 0x01]
    (controlTransfer w SET SET_GPIO_CHIP_SELECT 0x0000 0x0000 controlBufferOut
      SET_GPIO_CHIP_SELECT_WLEN s).2

/-- Returns the current clock divider value. -/
def getClockDivider (w : World) (s : State) : Nat × State :=
  let t := controlTransfer w GET GET_CLOCK_DIVIDER 0x0000 0x0000
    (uninitBuffer w s GET_CLOCK_DIVIDER_WLEN) GET_CLOCK_DIVIDER_WLEN s
  (t.1.getD 0 0, t.2)

/-- Returns the chip select status for a given channel. -/
def getCS (w : World) (channel : Nat) (s : State) : Bool × State :=
  if channel > 10 then
    (false, s.fail "In getCS(): SPI channel value must be between 0 and 10.\n")
  else
    let t := controlTransfer w GET GET_GPIO_CHIP_SELECT 0x0000 0x0000
      (uninitBuffer w s GET_GPIO_CHIP_SELECT_WLEN) GET_GPIO_CHIP_SELECT_WLEN s
    (decide ((0x0001 <<< channel) &&& (t.1.getD 0 0 <<< 8 ||| t.1.getD 1 0) ≠ 0x0000), t.2)

/-- Gets the USB configuration, including VID, PID, major and minor release versions,
from the CP2130 OTP ROM. -/
def getUSBConfig (w : World) (s : State) : USBConfig × State :=
  let t := controlTransfer w GET GET_USB_CONFIG 0x0000 0x0000
    (uninitBuffer w s GET_USB_CONFIG_WLEN) GET_USB_CONFIG_WLEN s
  ({ vid := (t.1.getD 1 0 <<< 8 ||| t.1.getD 0 0) % 65536
     pid := (t.1.getD 3 0 <<< 8 ||| t.1.getD 2 0) % 65536
     majrel := t.1.getD 6 0
     minrel := t.1.getD 7 0
     maxpow := t.1.getD 4 0
     powmode := t.1.getD 5 0
     trfprio := t.1.getD 8 0 }, t.2)

/-- Returns the transfer priority from the CP2130 OTP ROM. -/
def getTransferPriority (w : World) (s : State) : Nat × State :=
  let t := getUSBConfig w s
  (t.1.trfprio, t.2)

/-- Returns the address of the endpoint assuming the IN direction. -/
def getEndpointInAddr (w : World) (s : State) : Nat × State :=
  let t := getTransferPriority w s
  (if t.1 = PRIOWRITE then 0x82 else 0x81, t.2)

/-- Returns the address of the endpoint assuming the OUT direction. -/
def getEndpointOutAddr (w : World) (s : State) : Nat × State :=
  let t := getTransferPriority w s
  (if t.1 = PRIOWRITE then 0x01 else 0x02, t.2)

/-- Gets the event counter, including mode and value. -/
def getEventCounter (w : World) (s : State) : EventCounter × State :=
  let t := controlTransfer w GET GET_EVENT_COUNTER 0x0000 0x0000
    (uninitBuffer w s GET_EVENT_COUNTER_WLEN) GET_EVENT_COUNTER_WLEN s
  ({ overflow := decide (0x80 &&& t.1.getD 0 0 ≠ 0x00)
     mode := (0x07 &&& t.1.getD 0 0) % 256
     value := (t.1.getD 1 0 <<< 8 ||| t.1.getD 2 0) % 65536 }, t.2)

/-- Gets the full FIFO threshold. -/
def getFIFOThreshold (w : World) (s : State) : Nat × State :=
  let t := controlTransfer w GET GET_FULL_THRESHOLD 0x0000 0x0000
    (uninitBuffer w s GET_FULL_THRESHOLD_WLEN) GET_FULL_THRESHOLD_WLEN s
  (t.1.getD 0 0, t.2)

/-- Returns the value of all GPIO pins on the CP2130, in bitmap format. -/
def getGPIOs (w : World) (s : State) : Nat × State :=
  let t := controlTransfer w GET GET_GPIO_VALUES 0x0000 0x0000
    (uninitBuffer w s GET_GPIO_VALUES_WLEN) GET_GPIO_VALUES_WLEN s
  ((BMGPIOS &&& (t.1.getD 0 0 <<< 8 ||| t.1.getD 1 0)) % 65536, t.2)

/-- The shared shape of `getGPIO0` to `getGPIO10`: tests one bit of `getGPIOs`. -/
def getGPIOBit (w : World) (bm : Nat) (s : State) : Bool × State :=
  let t := getGPIOs w s
  (decide (bm &&& t.1 ≠ 0x0000), t.2)

def getGPIO0 (w : World) (s : State) : Bool × State := getGPIOBit w BMGPIO0 s
def getGPIO1 (w : World) (s : State) : Bool × State := getGPIOBit w BMGPIO1 s
def getGPIO2 (w : World) (s : State) : Bool × State := getGPIOBit w BMGPIO2 s
def getGPIO3 (w : World) (s : State) : Bool × State := getGPIOBit w BMGPIO3 s
def getGPIO4 (w : World) (s : State) : Bool × State := getGPIOBit w BMGPIO4 s
def getGPIO5 (w : World) (s : State) : Bool × State := getGPIOBit w BMGPIO5 s
def getGPIO6 (w : World) (s : State) : Bool × State := getGPIOBit w BMGPIO6 s
def getGPIO7 (w : World) (s : State) : Bool × State := getGPIOBit w BMGPIO7 s
def getGPIO8 (w : World) (s : State) : Bool × State := getGPIOBit w BMGPIO8 s
def getGPIO9 (w : World) (s : State) : Bool × State := getGPIOBit w BMGPIO9 s
def getGPIO10 (w : World) (s : State) : Bool × State := getGPIOBit w BMGPIO10 s

/-- Returns the lock word from the CP2130 OTP ROM. -/
def getLockWord (w : World) (s : State) : Nat × State :=
  let t := controlTransfer w GET GET_LOCK_BYTE 0x0000 0x0000
    (uninitBuffer w s GET_LOCK_BYTE_WLEN) GET_LOCK_BYTE_WLEN s
  ((t.1.getD 1 0 <<< 8 ||| t.1.getD 0 0) % 65536, t.2)

/-- Gets the pin configuration from the CP2130 OTP ROM. -/
def getPinConfig (w : World) (s : State) : PinConfig × State :=
  let t := controlTransfer w GET GET_PIN_CONFIG 0x0000 0x0000
    (uninitBuffer w s GET_PIN_CONFIG_WLEN) GET_PIN_CONFIG_WLEN s
  ({ gpio0 := t.1.getD 0 0
     gpio1 := t.1.getD 1 0
     gpio2 := t.1.getD 2 0
     gpio3 := t.1.getD 3 0
     gpio4 := t.1.getD 4 0
     gpio5 := t.1.getD 5 0
     gpio6 := t.1.getD 6 0
     gpio7 := t.1.getD 7 0
     gpio8 := t.1.getD 8 0
     gpio9 := t.1.getD 9 0
     gpio10 := t.1.getD 10 0
     sspndlvl := (t.1.getD 11 0 <<< 8 ||| t.1.getD 12 0) % 65536
     sspndmode := (t.1.getD 13 0 <<< 8 ||| t.1.getD 14 0) % 65536
     wkupmask := (t.1.getD 15 0 <<< 8 ||| t.1.getD 16 0) % 65536
     wkupmatch := (t.1.getD 17 0 <<< 8 ||| t.1.getD 18 0) % 65536
     divider := t.1.getD 19 0 }, t.2)

/-- The body of the loop of `getPROMConfig`: reads block `i`. -/
def readBlock (w : World) (acc : List (List Nat) × State) (i : Nat) : List (List Nat) × State :=
  let t := controlTransfer w GET GET_PROM_CONFIG 0x0000 (i % 65536)
    (uninitBuffer w acc.2 GET_PROM_CONFIG_WLEN) GET_PROM_CONFIG_WLEN acc.2
  (acc.1.set i ((forRange 0 PROM_BLOCK_SIZE 1).map (fun j => t.1.getD j 0)), t.2)

/-- Gets the entire CP2130 OTP ROM content as a structure of eight 64-byte blocks. -/
def getPROMConfig (w : World) (s : State) : PROMConfig × State :=
  let t := (forRange 0 PROM_BLOCKS 1).foldl (readBlock w)
    ((forRange 0 PROM_BLOCKS 1).map (fun _ => uninitBuffer w s PROM_BLOCK_SIZE), s)
  (⟨t.1⟩, t.2)

/-- Returns the CP2130 silicon, read-only version. -/
def getSiliconVersion (w : World) (s : State) : SiliconVersion × State :=
  let t := controlTransfer w GET GET_READONLY_VERSION 0x0000 0x0000
    (uninitBuffer w s GET_READONLY_VERSION_WLEN) GET_READONLY_VERSION_WLEN s
  ({ maj := t.1.getD 0 0, min := t.1.getD 1 0 }, t.2)

/-- Returns the SPI delays for a given channel. -/
def getSPIDelays (w : World) (channel : Nat) (s : State) : SPIDelays × State :=
  if channel > 10 then
    ({ cstglen := false, prdasten := false, pstasten := false, itbyten := false,
       itbytdly := 0x0000, pstastdly := 0x0000, prdastdly := 0x0000 },
      s.fail "In getSPIDelays(): SPI channel value must be between 0 and 10.\n")
  else
    let t := controlTransfer w GET GET_SPI_DELAY 0x0000 channel
      (uninitBuffer w s GET_SPI_DELAY_WLEN) GET_SPI_DELAY_WLEN s
    ({ cstglen := decide (0x08 &&& t.1.getD 1 0 ≠ 0x00)
       prdasten := decide (0x04 &&& t.1.getD 1 0 ≠ 0x00)
       pstasten := decide (0x02 &&& t.1.getD 1 0 ≠ 0x00)
       itbyten := decide (0x01 &&& t.1.getD 1 0 ≠ 0x00)
       itbytdly := (t.1.getD 2 0 <<< 8 ||| t.1.getD 3 0) % 65536
       pstastdly := (t.1.getD 4 0 <<< 8 ||| t.1.getD 5 0) % 65536
       prdastdly := (t.1.getD 6 0 <<< 8 ||| t.1.getD 7 0) % 65536 }, t.2)

/-- Returns the SPI mode for a given channel. -/
def getSPIMode (w : World) (channel : Nat) (s : State) : SPIMode × State :=
  if channel > 10 then
    ({ csmode := false, cfrq := 0x00, cpol := false, cpha := false },
      s.fail "In getSPIMode(): SPI channel value must be between 0 and 10.\n")
  else
    let t := controlTransfer w GET GET_SPI_WORD 0x0000 0x0000
      (uninitBuffer w s GET_SPI_WORD_WLEN) GET_SPI_WORD_WLEN s
    ({ csmode := decide (0x08 &&& t.1.getD channel 0 ≠ 0x00)
       cfrq := (0x07 &&& t.1.getD channel 0) % 256
       cpha := decide (0x20 &&& t.1.getD channel 0 ≠ 0x00)
       cpol := decide (0x10 &&& t.1.getD channel 0 ≠ 0x00) }, t.2)

/-- Returns true is the OTP ROM of the CP2130 was never written. -/
def isOTPBlank (w : World) (s : State) : Bool × State :=
  let t := getLockWord w s
  (decide (t.1 = 0xffff), t.2)

/-- Returns true is the OTP ROM of the CP2130 is locked. -/
def isOTPLocked (w : World) (s : State) : Bool × State :=
  let t := getLockWord w s
  (decide (LWALL &&& t.1 = 0x0000), t.2)

/-- Returns true if a ReadWithRTR command is currently active. -/
def isRTRActive (w : World) (s : State) : Bool × State :=
  let t := controlTransfer w GET GET_RTR_STATE 0x0000 0x0000
    (uninitBuffer w s GET_RTR_STATE_WLEN) GET_RTR_STATE_WLEN s
  (decide (t.1.getD 0 0 = 0x01), t.2)

/-- This procedure is used to lock fields in the CP2130 OTP ROM. -/
def writeLockWord (w : World) (word : Nat) (s : State) : State :=
  let controlBufferOut := [word % 256, (word >>> 8) % 256]
  (controlTransfer w SET SET_LOCK_BYTE PROM_WRITE_KEY 0x0000 controlBufferOut
    SET_LOCK_BYTE_WLEN s).2

/-- Locks the OTP ROM of the CP2130, preventing further changes. -/
def lockOTP (w : World) (s : State) : State :=
  writeLockWord w 0x0000 s

/-- Issues a reset to the CP2130 (the data pointer is null). -/
def reset (w : World) (s : State) : State :=
  (controlTransfer w SET RESET_DEVICE 0x0000 0x0000 [] RESET_DEVICE_WLEN s).2

/-- Enables the chip select of the target channel, disabling any others. -/
def selectCS (w : World) (channel : Nat) (s : State) : State :=
  if channel > 10 then
    s.fail "In selectCS(): SPI channel value must be between 0 and 10.\n"
  else
    let controlBufferOut := [channel, 0x02]
    (controlTransfer w SET SET_GPIO_CHIP_SELECT 0x0000 0x0000 controlBufferOut
      SET_GPIO_CHIP_SELECT_WLEN s).2

/-- Sets the clock divider value. -/
def setClockDivider (w : World) (value : Nat) (s : State) : State :=
  let controlBufferOut := [value]
  (controlTransfer w SET SET_CLOCK_DIVIDER 0x0000 0x0000 controlBufferOut
    SET_CLOCK_DIVIDER_WLEN s).2

/-- Sets the event counter. -/
def setEventCounter (w : World) (evcntr : EventCounter) (s : State) : State :=
  let controlBufferOut := [(0x07 &&& evcntr.mode) % 256, (evcntr.value >>> 8) % 256,
    evcntr.value % 256]
  (controlTransfer w SET SET_EVENT_COUNTER 0x0000 0x0000 controlBufferOut
    SET_EVENT_COUNTER_WLEN s).2

/-- Sets the full FIFO threshold. -/
def setFIFOThreshold (w : World) (threshold : Nat) (s : State) : State :=
  let controlBufferOut := [threshold]
  (controlTransfer w SET SET_FULL_THRESHOLD 0x0000 0x0000 controlBufferOut
    SET_FULL_THRESHOLD_WLEN s).2

/-- Sets one or more GPIO pins on the CP2130 to the intended values, according to the
values and mask bitmaps. -/
def setGPIOs (w : World) (bmValues bmMask : Nat) (s : State) : State :=
  let controlBufferOut := [((BMGPIOS &&& bmValues) >>> 8) % 256, (BMGPIOS &&& bmValues) % 256,
    ((BMGPIOS &&& bmMask) >>> 8) % 256, (BMGPIOS &&& bmMask) % 256]
  (controlTransfer w SET SET_GPIO_VALUES 0x0000 0x0000 controlBufferOut SET_GPIO_VALUES_WLEN s).2

def setGPIO0 (w : World) (value : Bool) (s : State) : State :=
  setGPIOs w ((BMGPIOS * boolToNat value) % 65536) BMGPIO0 s
def setGPIO1 (w : World) (value : Bool) (s : State) : State :=
  setGPIOs w ((BMGPIOS * boolToNat value) % 65536) BMGPIO1 s
def setGPIO2 (w : World) (value : Bool) (s : State) : State :=
  setGPIOs w ((BMGPIOS * boolToNat value) % 65536) BMGPIO2 s
def setGPIO3 (w : World) (value : Bool) (s : State) : State :=
  setGPIOs w ((BMGPIOS * boolToNat value) % 65536) BMGPIO3 s
def setGPIO4 (w : World) (value : Bool) (s : State) : State :=
  setGPIOs w ((BMGPIOS * boolToNat value) % 65536) BMGPIO4 s
def setGPIO5 (w : World) (value : Bool) (s : State) : State :=
  setGPIOs w ((BMGPIOS * boolToNat value) % 65536) BMGPIO5 s
def setGPIO6 (w : World) (value : Bool) (s : State) : State :=
  setGPIOs w ((BMGPIOS * boolToNat value) % 65536) BMGPIO6 s
def setGPIO7 (w : World) (value : Bool) (s : State) : State :=
  setGPIOs w ((BMGPIOS * boolToNat value) % 65536) BMGPIO7 s
def setGPIO8 (w : World) (value : Bool) (s : State) : State :=
  setGPIOs w ((BMGPIOS * boolToNat value) % 65536) BMGPIO8 s
def setGPIO9 (w : World) (value : Bool) (s : State) : State :=
  setGPIOs w ((BMGPIOS * boolToNat value) % 65536) BMGPIO9 s
def setGPIO10 (w : World) (value : Bool) (s : State) : State :=
  setGPIOs w ((BMGPIOS * boolToNat value) % 65536) BMGPIO10 s

/-- Aborts the current ReadWithRTR command. -/
def stopRTR (w : World) (s : State) : State :=
  let controlBufferOut := [0x01]
  (controlTransfer w SET SET_RTR_STOP 0x0000 0x0000 controlBufferOut SET_RTR_STOP_WLEN s).2

/-- Writes the pin configuration to the CP2130 OTP ROM. -/
def writePinConfig (w : World) (config : PinConfig) (s : State) : State :=
  let controlBufferOut := [config.gpio0, config.gpio1, config.gpio2, config.gpio3, config.gpio4,
    config.gpio5, config.gpio6, config.gpio7, config.gpio8, config.gpio9, config.gpio10,
    (0x7f &&& (config.sspndlvl >>> 8)) % 256, config.sspndlvl % 256,
    (config.sspndmode >>> 8) % 256, config.sspndmode % 256,
    (0x7f &&& (config.wkupmask >>> 8)) % 256, config.wkupmask % 256,
    (0x7f &&& (config.wkupmatch >>> 8)) % 256, config.wkupmatch % 256,
    config.divider]
  (controlTransfer w SET SET_PIN_CONFIG PROM_WRITE_KEY 0x0000 controlBufferOut
    SET_PIN_CONFIG_WLEN s).2

/-- The body of the loop of `writePROMConfig`: writes block `i`. -/
def writeBlock (w : World) (config : PROMConfig) (s : State) (i : Nat) : State :=
  let controlBufferOut := copyLoop 0 PROM_BLOCK_SIZE
    (fun j => (config.blocks.getD i []).getD j 0) (uninitBuffer w s SET_PROM_CONFIG_WLEN)
  (controlTransfer w SET SET_PROM_CONFIG PROM_WRITE_KEY (i % 65536) controlBufferOut
    SET_PROM_CONFIG_WLEN s).2

/-- Writes over the entire CP2130 OTP ROM. -/
def writePROMConfig (w : World) (config : PROMConfig) (s : State) : State :=
  (forRange 0 PROM_BLOCKS 1).foldl (writeBlock w config) s

/-- Writes the USB configuration to the CP2130 OTP ROM. -/
def writeUSBConfig (w : World) (config : USBConfig) (mask : Nat) (s : State) : State :=
  let controlBufferOut := [config.vid % 256, (config.vid >>> 8) % 256,
    config.pid % 256, (config.pid >>> 8) % 256,
    config.maxpow, config.powmode, config.majrel, config.minrel, config.trfprio, mask]
  (controlTransfer w SET SET_USB_CONFIG PROM_WRITE_KEY 0x0000 controlBufferOut
    SET_USB_CONFIG_WLEN s).2

/-! ## Endpoint-free overloads -/

/-- The two endpoint addresses as the arguments `getEndpointInAddr(...)`,
`getEndpointOutAddr(...)` of a call, evaluated in the order the compiler chose. -/
def endpointArgs (w : World) (s : State) : Nat × Nat × State :=
  if w.leftToRight then
    let a := getEndpointInAddr w s
    let b := getEndpointOutAddr w a.2
    (a.1, b.1, b.2)
  else
    let b := getEndpointOutAddr w s
    let a := getEndpointInAddr w b.2
    (a.1, b.1, a.2)

/-- The shorthand version of `spiRead` (both endpoint addresses are deduced). -/
def spiReadAuto (w : World) (bytesToRead : Nat) (s : State) : List Nat × State :=
  let e := endpointArgs w s
  spiRead w bytesToRead e.1 e.2.1 e.2.2

/-- The shorthand version of `spiWrite` (the endpoint OUT address is deduced). -/
def spiWriteAuto (w : World) (data : List Nat) (s : State) : Except State State :=
  let e := getEndpointOutAddr w s
  spiWrite w data e.1 e.2

/-- The shorthand version of `spiWriteRead` (both endpoint addresses are deduced). -/
def spiWriteReadAuto (w : World) (data : List Nat) (s : State) : List Nat × State :=
  let e := endpointArgs w s
  spiWriteRead w data e.1 e.2.1 e.2.2

/-! ## Session lifecycle -/

/-- The outcomes of the libusb calls made by `open`. -/
structure OpenEnv where
  /-- The value returned by `libusb_init`. -/
  initResult : Int
  /-- Whether `libusb_open_device_with_vid_pid` returns a handle. -/
  found : Nat → Nat → Bool
  /-- Whether `libusb_open_device_with_vid_pid_serial` returns a handle. -/
  foundSerial : Nat → Nat → String → Bool
  /-- The value returned by `libusb_kernel_driver_active`. -/
  kernelDriverActive : Int
  /-- The value returned by `libusb_claim_interface`. -/
  claimResult : Int

/-- Opens the device having the given VID, PID and, optionally, the given serial
number, and assigns its handle. Returns the value of `retval`. -/
def open_ (env : OpenEnv) (vid pid : Nat) (serial : String) (s : State) : Int × State :=
  if isOpen s then
    (SUCCESS, s)
  else if env.initResult ≠ 0 then
    (ERROR_INIT, s)
  else
    let s1 := { s with handle_ := if serial.isEmpty then env.found vid pid
                                  else env.foundSerial vid pid serial }
    if ¬ s1.handle_ then
      (ERROR_NOT_FOUND, s1)
    else
      let s2 := { s1 with kernelWasAttached_ := decide (env.kernelDriverActive = 1) }
      if env.claimResult ≠ 0 then
        (ERROR_BUSY, { s2 with handle_ := false })
      else
        (SUCCESS, { s2 with disconnected_ := false })

/-- Closes the device safely, if open. -/
def close (s : State) : State :=
  if isOpen s then { s with handle_ := false } else s

/-- One entry of the device list seen by `listDevices`. -/
structure ListedDevice where
  /-- The value returned by `libusb_get_device_descriptor`. -/
  descResult : Int
  idVendor : Nat
  idProduct : Nat
  /-- The value returned by `libusb_open`. -/
  openResult : Int
  /-- The content of `str_desc` after `libusb_get_string_descriptor_ascii`. -/
  serial : String

/-- The outcomes of the libusb calls made by `listDevices`. -/
structure ListEnv where
  /-- The value returned by `libusb_init`. -/
  initResult : Int
  /-- The value returned by `libusb_get_device_list`. -/
  devlist : Int
  devs : Nat → ListedDevice

/-- Helper function to list devices (a static member: the object is not touched). -/
def listDevices (env : ListEnv) (vid pid : Nat) (s : State) : List String × State :=
  if env.initResult ≠ 0 then
    ([], s.fail "Could not initialize libusb.\n")
  else if env.devlist < 0 then
    ([], s.fail "Failed to retrieve a list of devices.\n")
  else
    ((forRange 0 env.devlist.toNat 1).foldl (fun devices i =>
      if (env.devs i).descResult = 0 ∧ (env.devs i).idVendor = vid
          ∧ (env.devs i).idProduct = pid then
        if (env.devs i).openResult = 0 then devices ++ [(env.devs i).serial] else devices
      else devices) [], s)

/-! ## The public operations as a transition system -/

/-- A call of a public member function, with its arguments (and, for the two
functions that talk to libusb outside the transfer primitives, the outcomes). The
constructor yields `State.init` and the destructor is `close`; the comparison operators
of the nested structures do not touch the object. -/
inductive Op where
  | disconnected
  | isOpen
  | bulkTransfer (endpointAddr : Nat) (data : List Nat) (length : Int) (transferred : Option Int)
  | close
  | configureGPIO (pin mode : Nat) (value : Bool)
  | configureSPIDelays (channel : Nat) (delays : SPIDelays)
  | configureSPIMode (channel : Nat) (mode : SPIMode)
  | controlTransfer (bmRequestType bRequest wValue wIndex : Nat) (data : List Nat) (wLength : Nat)
  | disableCS (channel : Nat)
  | disableSPIDelays (channel : Nat)
  | enableCS (channel : Nat)
  | getClockDivider
  | getCS (channel : Nat)
  | getEndpointInAddr
  | getEndpointOutAddr
  | getEventCounter
  | getFIFOThreshold
  | getGPIO0
  | getGPIO1
  | getGPIO2
  | getGPIO3
  | getGPIO4
  | getGPIO5
  | getGPIO6
  | getGPIO7
  | getGPIO8
  | getGPIO9
  | getGPIO10
  | getGPIOs
  | getLockWord
  | getManufacturerDesc
  | getPinConfig
  | getProductDesc
  | getPROMConfig
  | getSerialDesc
  | getSiliconVersion
  | getSPIDelays (channel : Nat)
  | getSPIMode (channel : Nat)
  | getTransferPriority
  | getUSBConfig
  | isOTPBlank
  | isOTPLocked
  | isRTRActive
  | lockOTP
  | open_ (env : OpenEnv) (vid pid : Nat) (serial : String)
  | reset
  | selectCS (channel : Nat)
  | setClockDivider (value : Nat)
  | setEventCounter (evcntr : EventCounter)
  | setFIFOThreshold (threshold : Nat)
  | setGPIO0 (value : Bool)
  | setGPIO1 (value : Bool)
  | setGPIO2 (value : Bool)
  | setGPIO3 (value : Bool)
  | setGPIO4 (value : Bool)
  | setGPIO5 (value : Bool)
  | setGPIO6 (value : Bool)
  | setGPIO7 (value : Bool)
  | setGPIO8 (value : Bool)
  | setGPIO9 (value : Bool)
  | setGPIO10 (value : Bool)
  | setGPIOs (bmValues bmMask : Nat)
  | spiRead (bytesToRead endpointInAddr endpointOutAddr : Nat)
  | spiReadAuto (bytesToRead : Nat)
  | spiWrite (data : List Nat) (endpointOutAddr : Nat)
  | spiWriteAuto (data : List Nat)
  | spiWriteRead (data : List Nat) (endpointInAddr endpointOutAddr : Nat)
  | spiWriteReadAuto (data : List Nat)
  | stopRTR
  | writeLockWord (word : Nat)
  | writeManufacturerDesc (manufacturer : List Nat)
  | writePinConfig (config : PinConfig)
  | writeProductDesc (product : List Nat)
  | writePROMConfig (config : PROMConfig)
  | writeSerialDesc (serial : List Nat)
  | writeUSBConfig (config : USBConfig) (mask : Nat)
  | listDevices (env : ListEnv) (vid pid : Nat)

/-- The state after a call of a public member function. -/
def step (w : World) : Op → State → State
  | Op.disconnected, s => s
  | Op.isOpen, s => s
  | Op.bulkTransfer endpointAddr data length transferred, s =>
    (bulkTransfer w endpointAddr data length transferred s).2.2
  | Op.close, s => close s
  | Op.configureGPIO pin mode value, s => configureGPIO w pin mode value s
  | Op.configureSPIDelays channel delays, s => configureSPIDelays w channel delays s
  | Op.configureSPIMode channel mode, s => configureSPIMode w channel mode s
  | Op.controlTransfer bmRequestType bRequest wValue wIndex data wLength, s =>
    (controlTransfer w bmRequestType bRequest wValue wIndex data wLength s).2
  | Op.disableCS channel, s => disableCS w channel s
  | Op.disableSPIDelays channel, s => disableSPIDelays w channel s
  | Op.enableCS channel, s => enableCS w channel s
  | Op.getClockDivider, s => (getClockDivider w s).2
  | Op.getCS channel, s => (getCS w channel s).2
  | Op.getEndpointInAddr, s => (getEndpointInAddr w s).2
  | Op.getEndpointOutAddr, s => (getEndpointOutAddr w s).2
  | Op.getEventCounter, s => (getEventCounter w s).2
  | Op.getFIFOThreshold, s => (getFIFOThreshold w s).2
  | Op.getGPIO0, s => (getGPIO0 w s).2
  | Op.getGPIO1, s => (getGPIO1 w s).2
  | Op.getGPIO2, s => (getGPIO2 w s).2
  | Op.getGPIO3, s => (getGPIO3 w s).2
  | Op.getGPIO4, s => (getGPIO4 w s).2
  | Op.getGPIO5, s => (getGPIO5 w s).2
  | Op.getGPIO6, s => (getGPIO6 w s).2
  | Op.getGPIO7, s => (getGPIO7 w s).2
  | Op.getGPIO8, s => (getGPIO8 w s).2
  | Op.getGPIO9, s => (getGPIO9 w s).2
  | Op.getGPIO10, s => (getGPIO10 w s).2
  | Op.getGPIOs, s => (getGPIOs w s).2
  | Op.getLockWord, s => (getLockWord w s).2
  | Op.getManufacturerDesc, s => (getManufacturerDesc w s).2
  | Op.getPinConfig, s => (getPinConfig w s).2
  | Op.getProductDesc, s => (getProductDesc w s).2
  | Op.getPROMConfig, s => (getPROMConfig w s).2
  | Op.getSerialDesc, s => (getSerialDesc w s).2
  | Op.getSiliconVersion, s => (getSiliconVersion w s).2
  | Op.getSPIDelays channel, s => (getSPIDelays w channel s).2
  | Op.getSPIMode channel, s => (getSPIMode w channel s).2
  | Op.getTransferPriority, s => (getTransferPriority w s).2
  | Op.getUSBConfig, s => (getUSBConfig w s).2
  | Op.isOTPBlank, s => (isOTPBlank w s).2
  | Op.isOTPLocked, s => (isOTPLocked w s).2
  | Op.isRTRActive, s => (isRTRActive w s).2
  | Op.lockOTP, s => lockOTP w s
  | Op.open_ env vid pid serial, s => (open_ env vid pid serial s).2
  | Op.reset, s => reset w s
  | Op.selectCS channel, s => selectCS w channel s
  | Op.setClockDivider value, s => setClockDivider w value s
  | Op.setEventCounter evcntr, s => setEventCounter w evcntr s
  | Op.setFIFOThreshold threshold, s => setFIFOThreshold w threshold s
  | Op.setGPIO0 value, s => setGPIO0 w value s
  | Op.setGPIO1 value, s => setGPIO1 w value s
  | Op.setGPIO2 value, s => setGPIO2 w value s
  | Op.setGPIO3 value, s => setGPIO3 w value s
  | Op.setGPIO4 value, s => setGPIO4 w value s
  | Op.setGPIO5 value, s => setGPIO5 w value s
  | Op.setGPIO6 value, s => setGPIO6 w value s
  | Op.setGPIO7 value, s => setGPIO7 w value s
  | Op.setGPIO8 value, s => setGPIO8 w value s
  | Op.setGPIO9 value, s => setGPIO9 w value s
  | Op.setGPIO10 value, s => setGPIO10 w value s
  | Op.setGPIOs bmValues bmMask, s => setGPIOs w bmValues bmMask s
  | Op.spiRead bytesToRead endpointInAddr endpointOutAddr, s =>
    (spiRead w bytesToRead endpointInAddr endpointOutAddr s).2
  | Op.spiReadAuto bytesToRead, s => (spiReadAuto w bytesToRead s).2
  | Op.spiWrite data endpointOutAddr, s => afterCall (spiWrite w data endpointOutAddr s)
  | Op.spiWriteAuto data, s => afterCall (spiWriteAuto w data s)
  | Op.spiWriteRead data endpointInAddr endpointOutAddr, s =>
    (spiWriteRead w data endpointInAddr endpointOutAddr s).2
  | Op.spiWriteReadAuto data, s => (spiWriteReadAuto w data s).2
  | Op.stopRTR, s => stopRTR w s
  | Op.writeLockWord word, s => writeLockWord w word s
  | Op.writeManufacturerDesc manufacturer, s => writeManufacturerDesc w manufacturer s
  | Op.writePinConfig config, s => writePinConfig w config s
  | Op.writeProductDesc product, s => writeProductDesc w product s
  | Op.writePROMConfig config, s => writePROMConfig w config s
  | Op.writeSerialDesc serial, s => writeSerialDesc w serial s
  | Op.writeUSBConfig config mask, s => writeUSBConfig w config mask s
  | Op.listDevices env vid pid, s => (listDevices env vid pid s).2

/-! ## Vocabulary of the statements -/

/-- One newline-terminated message: a single line feed, at the end. -/
def IsMessage (m : String) : Prop :=
  m.data.count '\n' = 1 ∧ m.data.getLast? = some '\n'

instance (m : String) : Decidable (IsMessage m) := by
  unfold IsMessage
  infer_instance

/-- The accumulator of `s2` is the accumulator of `s1` with some failure events added:
one message per unit of the counter. -/
def Accumulates (s1 s2 : State) : Prop :=
  ∃ msgs : List String, (∀ m ∈ msgs, IsMessage m)
    ∧ s2.errstr = s1.errstr ++ String.join msgs ∧ s2.errcnt = s1.errcnt + msgs.length

/-- The state `s2` is `s1` after transfers and failure events only: the session and the
kernel-driver flag are the same, the disconnected flag is not lowered, the accumulator
has grown by whole messages and the trace has been extended. -/
def Advances (s1 s2 : State) : Prop :=
  s2.handle_ = s1.handle_ ∧ s2.kernelWasAttached_ = s1.kernelWasAttached_
    ∧ (s1.disconnected_ = true → s2.disconnected_ = true)
    ∧ Accumulates s1 s2 ∧ s1.trace <+: s2.trace

/-- The loop state of `spiWriteRead` after `k` iterations of the body, disregarding
the loop condition. -/
def spiWriteReadIter (w : World) (data : List Nat) (endpointInAddr endpointOutAddr : Nat)
    (s : State) : Nat → Nat × List Nat × State
  | 0 => (0, [], s)
  | k + 1 =>
    let c := spiWriteReadIter w data endpointInAddr endpointOutAddr s k
    spiWriteReadBody w data endpointInAddr endpointOutAddr c.1 c.2.1 c.2.2

/-- A sequence of transfers made of pairs: a WRITEREAD command frame on the OUT
endpoint, then a read with a transferred-count location on the IN endpoint. -/
def Alternating (endpointInAddr endpointOutAddr : Nat) : List UsbCall → Prop
  | [] => True
  | UsbCall.bulk a frame _ _ :: UsbCall.bulk b _ _ wantCount :: rest =>
    a = endpointOutAddr ∧ frame.take 4 = [0x00, 0x00, WRITEREAD, 0x00]
      ∧ b = endpointInAddr ∧ wantCount = true ∧ Alternating endpointInAddr endpointOutAddr rest
  | _ => False

/-- The value a 32-bit two's complement `int` holds when the count of the embedding is
`n`: the count itself from `INT_MIN` to `INT_MAX`, and past `INT_MAX` the value an
increment that wraps around leaves (`INT_MAX + 1` gives `INT_MIN`). -/
def wrapInt32 (n : Int) : Int :=
  (n + 2147483648) % 4294967296 - 2147483648

/-- The little-endian 16-bit value of the two bytes at `i` (low) and `i + 1` (high). -/
def unitLE (buf : List Nat) (i : Nat) : Nat :=
  buf.getD i 0 + 256 * buf.getD (i + 1) 0

/-- The bytes of a USB string descriptor: its length `2 |s| + 2`, the tag `0x03`, then
the code units of `s`, low byte first. -/
def layoutBytes (s : List Nat) : List Nat :=
  [2 * s.length + 2, 0x03] ++ (s.map (fun c => [c % 256, c / 256 % 256])).flatten

/-- The four bytes of a 32-bit value, least significant first. -/
def le32 (n : Nat) : List Nat :=
  [n % 256, n / 256 % 256, n / 65536 % 256, n / 16777216 % 256]

/-- The payload bytes of the command frames of a sequence of transfers made of pairs
(command frame, read), in order. -/
def framePayloads : List UsbCall → List Nat
  | UsbCall.bulk _ frame _ _ :: _ :: rest => frame.drop 8 ++ framePayloads rest
  | _ => []

/-- A sequence of transfers made of pairs, from offset `off` of `data` on: a frame
`00 00 02 00`, the little-endian length `p = min(56, |data| - off)` with `1 ≤ p`, and the
`p` bytes of `data` from `off`, sent whole on the OUT endpoint; then a read of `p` bytes
on the IN endpoint; then the same from offset `off + p`. A frame that is not the last
carries 56 bytes. -/
def FramesFrom (data : List Nat) (endpointInAddr endpointOutAddr : Nat) :
    Nat → List UsbCall → Prop
  | _, [] => True
  | off, UsbCall.bulk a frame len _ :: UsbCall.bulk b _ len2 wantCount :: rest =>
    a = endpointOutAddr ∧ 1 ≤ min 56 (data.length - off)
      ∧ frame = [0x00, 0x00, 0x02, 0x00] ++ le32 (min 56 (data.length - off))
          ++ (data.drop off).take (min 56 (data.length - off))
      ∧ len = ((min 56 (data.length - off) + 8 : Nat) : Int)
      ∧ b = endpointInAddr ∧ len2 = ((min 56 (data.length - off) : Nat) : Int)
      ∧ wantCount = true
      ∧ (rest ≠ [] → min 56 (data.length - off) = 56)
      ∧ FramesFrom data endpointInAddr endpointOutAddr (off + min 56 (data.length - off)) rest
  | _, _ => False

/-- The first transfer of `getDescGeneric`: the table received and the state after it. -/
def firstTable (w : World) (command : Nat) (s : State) : List Nat × State :=
  controlTransfer w GET command 0x0000 0x0000 (uninitBuffer w s DESC_TBLSIZE) DESC_TBLSIZE s

/-- The second transfer of `getDescGeneric`, when it is issued. -/
def secondTable (w : World) (command : Nat) (s : State) : List Nat × State :=
  controlTransfer w GET ((command + 2) % 256) 0x0000 0x0000 (firstTable w command s).1
    DESC_TBLSIZE (firstTable w command s).2

/-- The units at the given positions of a table, without those whose two bytes are
both zero. -/
def keptUnits (buf : List Nat) (positions : List Nat) : List Nat :=
  (positions.filter (fun i => decide (buf.getD i 0 ≠ 0 ∨ buf.getD (i + 1) 0 ≠ 0))).map
    (unitLE buf)

/-- The setup fields of a recorded control transfer: request type, request code, value,
index and data length; `none` for a bulk transfer. -/
def controlHeader : UsbCall → Option (Nat × Nat × Nat × Nat × Nat)
  | UsbCall.control bmRequestType bRequest wValue wIndex _ wLength =>
    some (bmRequestType, bRequest, wValue, wIndex, wLength)
  | UsbCall.bulk _ _ _ _ => none

/-- A world whose device accepts every transfer whole and answers a read with the
bytes 0, 1, 2, ... -/
def countingWorld : World where
  reply := fun _ call =>
    match call with
    | UsbCall.control _ _ _ _ _ wLength => ⟨wLength, wLength, fun i => i⟩
    | UsbCall.bulk _ _ length _ => ⟨0, length.toNat, fun i => i⟩
  uninit := fun _ _ => 0
  LIBUSB_API_VERSION := 0x01000109
  leftToRight := true

/-- The state `t` is `s` with one failure event added and nothing else changed: the
counter raised by exactly 1, one message appended, no transfer recorded. -/
def Rejected (s t : State) : Prop :=
  t.errcnt = s.errcnt + 1 ∧ t.trace = s.trace
    ∧ (∃ m, IsMessage m ∧ t.errstr = s.errstr ++ m)
    ∧ t.handle_ = s.handle_ ∧ t.disconnected_ = s.disconnected_

/-- The bulk IN transfer of one iteration of the loop of `spiWriteRead` entered with
`bytesProcessed` bytes processed in the state `s`: the input buffer after the transfer,
the location of `bytesRead` and the state. -/
def chunkRead (w : World) (data : List Nat) (endpointInAddr endpointOutAddr : Nat)
    (bytesProcessed : Nat) (s : State) : List Nat × Option Int × State :=
  let bytesRemaining := data.length - bytesProcessed
  let payload := (if bytesRemaining > 56 then 56 else bytesRemaining) % 2 ^ 32
  let bufSize := toInt32 (payload + 8)
  let writeReadCommandBuffer := copyLoop 8 payload (fun i => data.getD (bytesProcessed + i) 0)
    (commandHeader WRITEREAD payload ++ List.replicate (bufSize.toNat - 8) 0)
  let t1 := bulkTransfer w endpointOutAddr writeReadCommandBuffer bufSize (bytesWrittenArg w s) s
  let writeReadInputBuffer := uninitBuffer w t1.2.2 payload
  bulkTransfer w endpointInAddr writeReadInputBuffer (toInt32 payload) (some 0) t1.2.2

/-- The value of `bytesRead` in that iteration: the count the IN transfer reports. -/
def chunkBytesRead (w : World) (data : List Nat) (endpointInAddr endpointOutAddr : Nat)
    (bytesProcessed : Nat) (s : State) : Nat :=
  ((chunkRead w data endpointInAddr endpointOutAddr bytesProcessed s).2.1.getD 0).toNat

/-- A world whose device accepts every OUT transfer whole, answers a read in full, with
the bytes 0, 1, 2, ..., while fewer than `2 * full` transfers were made, and answers any
later read one byte short, timing out. -/
def shortWorld (full : Nat) : World where
  reply := fun hist call =>
    match call with
    | UsbCall.control _ _ _ _ _ wLength => ⟨wLength, wLength, fun i => i⟩
    | UsbCall.bulk endpointAddr _ length _ =>
      if endpointAddr < 0x80 then ⟨0, length.toNat, fun i => i⟩
      else if hist.length < 2 * full then ⟨0, length.toNat, fun i => i⟩
      else ⟨LIBUSB_ERROR_TIMEOUT, length.toNat - 1, fun i => i⟩
  uninit := fun _ _ => 0
  LIBUSB_API_VERSION := 0x01000109
  leftToRight := true

/-- The reference definition of the decoder: with `B` the byte stream made of the bytes
2 to 62 of the first table followed by the bytes 0 to 62 of the second, the first
`ceil((L - 2) / 2)` little-endian 16-bit units of `B`, in order, without the zero
units. -/
def referenceDecode (L : Nat) (table0 table1 : List Nat) : List Nat :=
  ((List.range ((L - 2 + 1) / 2)).map
    (fun k => unitLE ((table0.drop 2).take 61 ++ table1.take 63) (2 * k))).filter
      (fun c => decide (c ≠ 0))

/-- The indices at which `getDescGeneric` reads `controlBufferIn`, in the order of the
program: index 0 for the length, the indices `i` and `i + 1` of every iteration of the
first loop (the condition and the body read both, whatever the short-circuit), and in
the long form `DESC_MAXIDX`, index 0 of the second table and the indices `i` and `i + 1`
of every iteration of the second loop. -/
def getDescGenericReads (w : World) (command : Nat) (s : State) : List Nat :=
  let controlBufferIn := uninitBuffer w s DESC_TBLSIZE
  let t1 := controlTransfer w GET command 0x0000 0x0000 controlBufferIn DESC_TBLSIZE s
  let length := t1.1.getD 0 0
  let end1 := if length > DESC_MAXIDX then DESC_MAXIDX else length
  let reads1 := [0] ++ ((forRange 2 end1 2).map (fun i => [i, i + 1])).flatten
  if (command = GET_MANUFACTURING_STRING_1 ∨ command = GET_PRODUCT_STRING_1)
      ∧ length > DESC_MAXIDX then
    let end2 := length - DESC_IDXINCR
    reads1 ++ [DESC_MAXIDX, 0] ++ ((forRange 1 end2 2).map (fun i => [i, i + 1])).flatten
  else
    reads1

/-! ## Messages -/

theorem hexDigit_count (d : Nat) (h : d < 16) : [hexDigit d].count '\n' = 0 := by
  have key : ∀ e : Fin 16, [hexDigit e.val].count '\n' = 0 := by decide
  exact key ⟨d, h⟩

theorem hex2_count (b : Nat) : (hex2 b).data.count '\n' = 0 := by
  have h1 := hexDigit_count (b / 16 % 16) (Nat.mod_lt _ (by decide))
  have h2 := hexDigit_count (b % 16) (Nat.mod_lt _ (by decide))
  have e : (hex2 b).data = [hexDigit (b / 16 % 16)] ++ [hexDigit (b % 16)] := rfl
  rw [e, List.count_append, h1, h2]

theorem endpointNumber_count (a : Nat) : (toString (0x0f &&& a)).data.count '\n' = 0 := by
  have key : ∀ e : Fin 16, (toString e.val).data.count '\n' = 0 := by decide
  have hlt : 0x0f &&& a < 16 := Nat.lt_succ_of_le Nat.and_le_left
  exact key ⟨0x0f &&& a, hlt⟩

theorem isMessage_controlMessage (a b : Nat) : IsMessage (controlMessage a b) := by
  constructor
  · simp only [controlMessage, String.data_append, List.count_append, hex2_count]
    decide
  · simp only [controlMessage, String.data_append, List.getLast?_append]
    rfl

theorem isMessage_bulkMessage (a : Nat) : IsMessage (bulkMessage a) := by
  unfold bulkMessage
  split
  · constructor
    · simp only [String.data_append, List.count_append, hex2_count, endpointNumber_count]
      decide
    · simp only [String.data_append, List.getLast?_append]
      rfl
  · constructor
    · simp only [String.data_append, List.count_append, hex2_count, endpointNumber_count]
      decide
    · simp only [String.data_append, List.getLast?_append]
      rfl


/-! ## The transfer primitives -/

theorem controlTransfer_closed (w : World) (a b c d : Nat) (data : List Nat) (n : Nat)
    (s : State) (h : isOpen s = false) :
    controlTransfer w a b c d data n s
      = (data, s.fail "In controlTransfer(): device is not open.\n") := by
  simp [controlTransfer, h]

theorem controlTransfer_ok (w : World) (a b c d : Nat) (data : List Nat) (n : Nat)
    (s : State) (h : isOpen s = true)
    (hr : (w.reply s.trace (UsbCall.control a b c d data n)).result = (n : Int)) :
    (controlTransfer w a b c d data n s).2
      = { s with trace := s.trace ++ [UsbCall.control a b c d data n] } := by
  simp [controlTransfer, h, hr]

theorem controlTransfer_err (w : World) (a b c d : Nat) (data : List Nat) (n : Nat)
    (s : State) (h : isOpen s = true)
    (hr : (w.reply s.trace (UsbCall.control a b c d data n)).result ≠ (n : Int)) :
    (controlTransfer w a b c d data n s).2
      = { s with
          trace := s.trace ++ [UsbCall.control a b c d data n]
          errcnt := s.errcnt + 1
          errstr := s.errstr ++ controlMessage a b
          disconnected_ := s.disconnected_ || decide
            ((w.reply s.trace (UsbCall.control a b c d data n)).result = LIBUSB_ERROR_NO_DEVICE
              ∨ (w.reply s.trace (UsbCall.control a b c d data n)).result = LIBUSB_ERROR_IO
              ∨ (w.reply s.trace (UsbCall.control a b c d data n)).result = LIBUSB_ERROR_PIPE) } := by
  simp only [controlTransfer, h, not_true_eq_false, if_false, if_pos hr]
  split_ifs with h2 <;> simp [State.fail, h2]

/-- C6: `controlTransfer` records a failure (the counter rises by one and exactly one
newline-terminated message is appended) if and only if the session is not open or the
result of the underlying transfer differs from `wLength`; otherwise counter and log are
unchanged; on a closed session no transfer is attempted, on an open one exactly one. -/
theorem controlTransfer_failure_iff (w : World) (bmRequestType bRequest wValue wIndex : Nat)
    (data : List Nat) (wLength : Nat) (s : State) :
    let call := UsbCall.control bmRequestType bRequest wValue wIndex data wLength
    let s' := (controlTransfer w bmRequestType bRequest wValue wIndex data wLength s).2
    let failed := isOpen s = false ∨ (w.reply s.trace call).result ≠ (wLength : Int)
    ((s'.errcnt = s.errcnt + 1 ∧ ∃ msg, IsMessage msg ∧ s'.errstr = s.errstr ++ msg) ↔ failed)
      ∧ (¬ failed → s'.errcnt = s.errcnt ∧ s'.errstr = s.errstr)
      ∧ (isOpen s = false → s'.trace = s.trace)
      ∧ (isOpen s = true → s'.trace = s.trace ++ [call]) := by
  dsimp only
  rcases Bool.eq_false_or_eq_true (isOpen s) with ho | ho
  · by_cases hr : (w.reply s.trace (UsbCall.control bmRequestType bRequest wValue wIndex data
        wLength)).result = (wLength : Int)
    · rw [controlTransfer_ok w _ _ _ _ _ _ s ho hr]
      simp [ho, hr]
    · rw [controlTransfer_err w _ _ _ _ _ _ s ho hr]
      simp only [ho, hr]
      simp
      exact ⟨⟨fun _ => hr, fun _ => ⟨_, isMessage_controlMessage _ _, rfl⟩⟩, hr⟩
  · rw [controlTransfer_closed w _ _ _ _ _ _ s ho]
    simp only [ho, State.fail]
    simp
    exact ⟨_, by decide, rfl⟩

theorem bulkTransfer_closed (w : World) (a : Nat) (data : List Nat) (n : Int)
    (tr : Option Int) (s : State) (h : isOpen s = false) :
    bulkTransfer w a data n tr s
      = (data, tr, s.fail "In bulkTransfer(): device is not open.\n") := by
  simp [bulkTransfer, h]

theorem bulkTransfer_count (w : World) (a : Nat) (data : List Nat) (n : Int)
    (tr : Option Int) (s : State) (h : isOpen s = true) :
    (bulkTransfer w a data n tr s).2.1
      = tr.map (fun _ => ((min (w.reply s.trace (UsbCall.bulk a data n tr.isSome)).transferred
          n.toNat : Nat) : Int)) := by
  simp only [bulkTransfer, h, not_true_eq_false, if_false]
  split_ifs <;> rfl

theorem bulkTransfer_ok (w : World) (a : Nat) (data : List Nat) (n : Int)
    (tr : Option Int) (s : State) (h : isOpen s = true)
    (hr : (w.reply s.trace (UsbCall.bulk a data n tr.isSome)).result = 0)
    (hc : tr = none ∨ ((min (w.reply s.trace (UsbCall.bulk a data n tr.isSome)).transferred
          n.toNat : Nat) : Int) = n) :
    (bulkTransfer w a data n tr s).2.2
      = { s with trace := s.trace ++ [UsbCall.bulk a data n tr.isSome] } := by
  simp only [bulkTransfer, h, not_true_eq_false, if_false]
  rw [if_neg]
  rintro (h1 | ⟨h1, h2⟩)
  · exact h1 hr
  · rcases hc with hc | hc
    · subst hc; simp at h1
    · cases tr with
      | none => simp at h1
      | some v => simp at h2; simp at hc; exact h2 hc

theorem bulkTransfer_err (w : World) (a : Nat) (data : List Nat) (n : Int)
    (tr : Option Int) (s : State) (h : isOpen s = true)
    (hr : (w.reply s.trace (UsbCall.bulk a data n tr.isSome)).result ≠ 0
      ∨ (tr.isSome = true ∧ ((min (w.reply s.trace (UsbCall.bulk a data n tr.isSome)).transferred
          n.toNat : Nat) : Int) ≠ n)) :
    (bulkTransfer w a data n tr s).2.2
      = { s with
          trace := s.trace ++ [UsbCall.bulk a data n tr.isSome]
          errcnt := s.errcnt + 1
          errstr := s.errstr ++ bulkMessage a
          disconnected_ := s.disconnected_ || decide
            ((w.reply s.trace (UsbCall.bulk a data n tr.isSome)).result = LIBUSB_ERROR_NO_DEVICE
              ∨ (w.reply s.trace (UsbCall.bulk a data n tr.isSome)).result = LIBUSB_ERROR_IO) } := by
  simp only [bulkTransfer, h, not_true_eq_false, if_false]
  rw [if_pos]
  · split_ifs with h2 <;> simp [State.fail, h2]
  · rcases hr with hr | ⟨h1, h2⟩
    · exact Or.inl hr
    · right
      cases tr with
      | none => simp at h1
      | some v => simpa using h2

/-- C7: on an open session `bulkTransfer` makes one transfer and records a failure (the
counter rises by one, one message is appended) if and only if the result is non-zero or
a transferred-count location is supplied and the count stored in it differs from
`length`; with a null location a zero result is a success whatever moved; on a closed
session it records a failure and attempts no transfer. -/
theorem bulkTransfer_failure_iff (w : World) (endpointAddr : Nat) (data : List Nat)
    (length : Int) (transferred : Option Int) (s : State) :
    let call := UsbCall.bulk endpointAddr data length transferred.isSome
    let r := w.reply s.trace call
    let t := bulkTransfer w endpointAddr data length transferred s
    let count : Int := ((min r.transferred length.toNat : Nat) : Int)
    let failed := r.result ≠ 0 ∨ (transferred.isSome = true ∧ count ≠ length)
    (isOpen s = true →
        t.2.1 = transferred.map (fun _ => count)
        ∧ t.2.2.trace = s.trace ++ [call]
        ∧ ((t.2.2.errcnt = s.errcnt + 1
            ∧ ∃ msg, IsMessage msg ∧ t.2.2.errstr = s.errstr ++ msg) ↔ failed)
        ∧ (¬ failed → t.2.2.errcnt = s.errcnt ∧ t.2.2.errstr = s.errstr)
        ∧ (transferred = none → r.result = 0 →
            t.2.2.errcnt = s.errcnt ∧ t.2.2.errstr = s.errstr))
      ∧ (isOpen s = false →
        t.2.2.errcnt = s.errcnt + 1
        ∧ (∃ msg, IsMessage msg ∧ t.2.2.errstr = s.errstr ++ msg)
        ∧ t.2.2.trace = s.trace ∧ t.2.1 = transferred ∧ t.1 = data) := by
  dsimp only
  constructor
  · intro ho
    refine ⟨bulkTransfer_count w _ _ _ _ s ho, ?_⟩
    by_cases hf : (w.reply s.trace (UsbCall.bulk endpointAddr data length
        transferred.isSome)).result ≠ 0 ∨ (transferred.isSome = true
          ∧ ((min (w.reply s.trace (UsbCall.bulk endpointAddr data length
            transferred.isSome)).transferred length.toNat : Nat) : Int) ≠ length)
    · rw [bulkTransfer_err w _ _ _ _ s ho hf]
      refine ⟨rfl, ⟨fun _ => hf, fun _ => ⟨rfl, _, isMessage_bulkMessage _, rfl⟩⟩,
        fun h => absurd hf h, ?_⟩
      intro hn h0
      rcases hf with hf | ⟨h1, _⟩
      · exact absurd h0 hf
      · subst hn; simp at h1
    · have hr : (w.reply s.trace (UsbCall.bulk endpointAddr data length
          transferred.isSome)).result = 0 := by
        by_contra h; exact hf (Or.inl h)
      have hc : transferred = none ∨ ((min (w.reply s.trace (UsbCall.bulk endpointAddr data
          length transferred.isSome)).transferred length.toNat : Nat) : Int) = length := by
        cases htr : transferred with
        | none => exact Or.inl rfl
        | some v =>
          right
          by_contra h
          exact hf (Or.inr ⟨by simp [htr], by simpa [htr] using h⟩)
      rw [bulkTransfer_ok w _ _ _ _ s ho hr hc]
      refine ⟨rfl, ⟨fun h => ?_, fun h => absurd h hf⟩, fun _ => ⟨rfl, rfl⟩, fun _ _ => ⟨rfl, rfl⟩⟩
      have := h.1
      simp at this
  · intro ho
    rw [bulkTransfer_closed w _ _ _ _ s ho]
    exact ⟨rfl, ⟨_, by decide, rfl⟩, rfl, rfl, rfl⟩


/-! ## Growth of the accumulator -/

theorem join_append (a b : List String) : String.join (a ++ b) = String.join a ++ String.join b := by
  apply String.ext
  simp [String.join_eq, String.data_append]

theorem append_assoc' (a b c : String) : a ++ b ++ c = a ++ (b ++ c) := by
  apply String.ext
  simp [String.data_append]

theorem Accumulates.same (s : State) : Accumulates s s :=
  ⟨[], by simp, by apply String.ext; simp [String.join_eq, String.data_append], by simp⟩

theorem Accumulates.append {a b c : State} (h1 : Accumulates a b) (h2 : Accumulates b c) :
    Accumulates a c := by
  obtain ⟨m1, hm1, hs1, hc1⟩ := h1
  obtain ⟨m2, hm2, hs2, hc2⟩ := h2
  refine ⟨m1 ++ m2, ?_, ?_, ?_⟩
  · intro m hm
    rcases List.mem_append.mp hm with h | h
    · exact hm1 m h
    · exact hm2 m h
  · rw [hs2, hs1, join_append, append_assoc']
  · rw [hc2, hc1, List.length_append]; push_cast; ring

theorem Accumulates.one (s s' : State) (m : String) (hm : IsMessage m)
    (hs : s'.errstr = s.errstr ++ m) (hc : s'.errcnt = s.errcnt + 1) : Accumulates s s' := by
  refine ⟨[m], ?_, ?_, ?_⟩
  · intro x hx; simp at hx; subst hx; exact hm
  · rw [hs]; apply String.ext; simp [String.join_eq, String.data_append]
  · simp [hc]

theorem Advances.refl (s : State) : Advances s s :=
  ⟨rfl, rfl, id, Accumulates.same s, List.prefix_refl _⟩

theorem Advances.trans {a b c : State} (h1 : Advances a b) (h2 : Advances b c) :
    Advances a c :=
  ⟨h2.1.trans h1.1, h2.2.1.trans h1.2.1, fun h => h2.2.2.1 (h1.2.2.1 h),
    h1.2.2.2.1.append h2.2.2.2.1, h1.2.2.2.2.trans h2.2.2.2.2⟩

theorem Advances.fail (s : State) (m : String) (hm : IsMessage m) : Advances s (s.fail m) :=
  ⟨rfl, rfl, id, Accumulates.one s _ m hm rfl rfl, List.prefix_refl _⟩

theorem Advances.control (w : World) (a b c d : Nat) (data : List Nat) (n : Nat) (s : State) :
    Advances s (controlTransfer w a b c d data n s).2 := by
  rcases Bool.eq_false_or_eq_true (isOpen s) with ho | ho
  · by_cases hr : (w.reply s.trace (UsbCall.control a b c d data n)).result = (n : Int)
    · rw [controlTransfer_ok w _ _ _ _ _ _ s ho hr]
      exact ⟨rfl, rfl, id, Accumulates.same _, List.prefix_append _ _⟩
    · rw [controlTransfer_err w _ _ _ _ _ _ s ho hr]
      refine ⟨rfl, rfl, ?_, Accumulates.one _ _ _ (isMessage_controlMessage a b) rfl rfl,
        List.prefix_append _ _⟩
      intro h; simp [h]
  · rw [controlTransfer_closed w _ _ _ _ _ _ s ho]
    exact Advances.fail s _ (by decide)

theorem Advances.bulk (w : World) (a : Nat) (data : List Nat) (n : Int) (tr : Option Int)
    (s : State) : Advances s (bulkTransfer w a data n tr s).2.2 := by
  rcases Bool.eq_false_or_eq_true (isOpen s) with ho | ho
  · by_cases hf : (w.reply s.trace (UsbCall.bulk a data n tr.isSome)).result ≠ 0
        ∨ (tr.isSome = true ∧ ((min (w.reply s.trace (UsbCall.bulk a data n
            tr.isSome)).transferred n.toNat : Nat) : Int) ≠ n)
    · rw [bulkTransfer_err w _ _ _ _ s ho hf]
      refine ⟨rfl, rfl, ?_, Accumulates.one _ _ _ (isMessage_bulkMessage a) rfl rfl,
        List.prefix_append _ _⟩
      intro h; simp [h]
    · have hr : (w.reply s.trace (UsbCall.bulk a data n tr.isSome)).result = 0 := by
        by_contra h; exact hf (Or.inl h)
      have hc : tr = none ∨ ((min (w.reply s.trace (UsbCall.bulk a data n
          tr.isSome)).transferred n.toNat : Nat) : Int) = n := by
        cases htr : tr with
        | none => exact Or.inl rfl
        | some v =>
          right
          by_contra h
          exact hf (Or.inr ⟨by simp [htr], by simpa [htr] using h⟩)
      rw [bulkTransfer_ok w _ _ _ _ s ho hr hc]
      exact ⟨rfl, rfl, id, Accumulates.same _, List.prefix_append _ _⟩
  · rw [bulkTransfer_closed w _ _ _ _ s ho]
    exact Advances.fail s _ (by decide)

theorem Advances.foldl {α β : Type} (f : β → α → β) (st : β → State)
    (hf : ∀ b a, Advances (st b) (st (f b a))) (l : List α) (b : β) :
    Advances (st b) (st (l.foldl f b)) := by
  induction l generalizing b with
  | nil => exact Advances.refl _
  | cons x xs ih => exact (hf b x).trans (ih (f b x))


theorem Advances.getDescGeneric (w : World) (command : Nat) (s : State) :
    Advances s (getDescGeneric w command s).2 := by
  unfold CP2130.getDescGeneric
  dsimp only
  split
  · exact (Advances.control ..).trans (Advances.control ..)
  · exact Advances.control ..

theorem Advances.writeDescGeneric (w : World) (descriptor : List Nat) (command : Nat)
    (s : State) : Advances s (writeDescGeneric w descriptor command s) := by
  unfold CP2130.writeDescGeneric
  exact Advances.foldl (writeTable w descriptor command _) Prod.snd
    (fun b a => Advances.control ..) _ (_, s)

theorem Advances.spiRead (w : World) (n a b : Nat) (s : State) :
    Advances s (spiRead w n a b s).2 := by
  unfold CP2130.spiRead
  exact (Advances.bulk ..).trans (Advances.bulk ..)

theorem Advances.spiWrite (w : World) (data : List Nat) (a : Nat) (s : State) :
    Advances s (afterCall (spiWrite w data a s)) := by
  unfold CP2130.spiWrite
  dsimp only
  split
  · exact Advances.refl s
  · exact Advances.bulk ..

theorem Advances.spiWriteReadBody (w : World) (data : List Nat) (a b bp : Nat)
    (ret : List Nat) (s : State) :
    Advances s (spiWriteReadBody w data a b bp ret s).2.2 := by
  unfold CP2130.spiWriteReadBody
  exact (Advances.bulk ..).trans (Advances.bulk ..)

theorem Advances.spiWriteReadLoop (w : World) (data : List Nat) (a b : Nat) (prev : Int)
    (fuel bp : Nat) (ret : List Nat) (s : State) :
    Advances s (spiWriteReadLoop w data a b prev fuel bp ret s).2 := by
  induction fuel generalizing bp ret s with
  | zero => exact Advances.refl s
  | succ n ih =>
    unfold CP2130.spiWriteReadLoop
    split
    · exact (Advances.spiWriteReadBody ..).trans (ih ..)
    · exact Advances.refl s

theorem Advances.spiWriteRead (w : World) (data : List Nat) (a b : Nat) (s : State) :
    Advances s (spiWriteRead w data a b s).2 :=
  Advances.spiWriteReadLoop ..

theorem Advances.getClockDivider (w : World) (s : State) : Advances s (getClockDivider w s).2 := by
  unfold CP2130.getClockDivider
  exact Advances.control ..

theorem Advances.getEventCounter (w : World) (s : State) : Advances s (getEventCounter w s).2 := by
  unfold CP2130.getEventCounter
  exact Advances.control ..

theorem Advances.getFIFOThreshold (w : World) (s : State) : Advances s (getFIFOThreshold w s).2 := by
  unfold CP2130.getFIFOThreshold
  exact Advances.control ..

theorem Advances.getGPIOs (w : World) (s : State) : Advances s (getGPIOs w s).2 := by
  unfold CP2130.getGPIOs
  exact Advances.control ..

theorem Advances.getLockWord (w : World) (s : State) : Advances s (getLockWord w s).2 := by
  unfold CP2130.getLockWord
  exact Advances.control ..

theorem Advances.getPinConfig (w : World) (s : State) : Advances s (getPinConfig w s).2 := by
  unfold CP2130.getPinConfig
  exact Advances.control ..

theorem Advances.getSiliconVersion (w : World) (s : State) : Advances s (getSiliconVersion w s).2 := by
  unfold CP2130.getSiliconVersion
  exact Advances.control ..

theorem Advances.getUSBConfig (w : World) (s : State) : Advances s (getUSBConfig w s).2 := by
  unfold CP2130.getUSBConfig
  exact Advances.control ..

theorem Advances.isRTRActive (w : World) (s : State) : Advances s (isRTRActive w s).2 := by
  unfold CP2130.isRTRActive
  exact Advances.control ..

theorem Advances.writeLockWord (w : World) (word : Nat) (s : State) :
    Advances s (writeLockWord w word s) := by
  unfold CP2130.writeLockWord
  exact Advances.control ..

theorem Advances.reset (w : World) (s : State) :
    Advances s (reset w s) := by
  unfold CP2130.reset
  exact Advances.control ..

theorem Advances.setClockDivider (w : World) (value : Nat) (s : State) :
    Advances s (setClockDivider w value s) := by
  unfold CP2130.setClockDivider
  exact Advances.control ..

theorem Advances.setEventCounter (w : World) (evcntr : EventCounter) (s : State) :
    Advances s (setEventCounter w evcntr s) := by
  unfold CP2130.setEventCounter
  exact Advances.control ..

theorem Advances.setFIFOThreshold (w : World) (threshold : Nat) (s : State) :
    Advances s (setFIFOThreshold w threshold s) := by
  unfold CP2130.setFIFOThreshold
  exact Advances.control ..

theorem Advances.setGPIOs (w : World) (bmValues : Nat) (bmMask : Nat) (s : State) :
    Advances s (setGPIOs w bmValues bmMask s) := by
  unfold CP2130.setGPIOs
  exact Advances.control ..

theorem Advances.stopRTR (w : World) (s : State) :
    Advances s (stopRTR w s) := by
  unfold CP2130.stopRTR
  exact Advances.control ..

theorem Advances.writePinConfig (w : World) (config : PinConfig) (s : State) :
    Advances s (writePinConfig w config s) := by
  unfold CP2130.writePinConfig
  exact Advances.control ..

theorem Advances.writeUSBConfig (w : World) (config : USBConfig) (mask : Nat) (s : State) :
    Advances s (writeUSBConfig w config mask s) := by
  unfold CP2130.writeUSBConfig
  exact Advances.control ..

theorem Advances.configureGPIO (w : World) (pin : Nat) (mode : Nat) (value : Bool) (s : State) :
    Advances s ( configureGPIO w pin mode value s) := by
  unfold CP2130.configureGPIO
  split
  · exact Advances.fail s _ (by decide)
  · exact Advances.control ..

theorem Advances.configureSPIDelays (w : World) (channel : Nat) (delays : SPIDelays) (s : State) :
    Advances s (configureSPIDelays w channel delays s) := by
  unfold CP2130.configureSPIDelays
  split
  · exact Advances.fail s _ (by decide)
  · exact Advances.control ..

theorem Advances.configureSPIMode (w : World) (channel : Nat) (mode : SPIMode) (s : State) :
    Advances s (configureSPIMode w channel mode s) := by
  unfold CP2130.configureSPIMode
  split
  · exact Advances.fail s _ (by decide)
  · exact Advances.control ..

theorem Advances.disableCS (w : World) (channel : Nat) (s : State) :
    Advances s (disableCS w channel s) := by
  unfold CP2130.disableCS
  split
  · exact Advances.fail s _ (by decide)
  · exact Advances.control ..

theorem Advances.disableSPIDelays (w : World) (channel : Nat) (s : State) :
    Advances s (disableSPIDelays w channel s) := by
  unfold CP2130.disableSPIDelays
  split
  · exact Advances.fail s _ (by decide)
  · exact Advances.control ..

theorem Advances.enableCS (w : World) (channel : Nat) (s : State) :
    Advances s (enableCS w channel s) := by
  unfold CP2130.enableCS
  split
  · exact Advances.fail s _ (by decide)
  · exact Advances.control ..

theorem Advances.selectCS (w : World) (channel : Nat) (s : State) :
    Advances s (selectCS w channel s) := by
  unfold CP2130.selectCS
  split
  · exact Advances.fail s _ (by decide)
  · exact Advances.control ..

theorem Advances.getCS (w : World) (channel : Nat) (s : State) :
    Advances s (getCS w channel s).2 := by
  unfold CP2130.getCS
  split
  · exact Advances.fail s _ (by decide)
  · exact Advances.control ..

theorem Advances.getSPIDelays (w : World) (channel : Nat) (s : State) :
    Advances s (getSPIDelays w channel s).2 := by
  unfold CP2130.getSPIDelays
  split
  · exact Advances.fail s _ (by decide)
  · exact Advances.control ..

theorem Advances.getSPIMode (w : World) (channel : Nat) (s : State) :
    Advances s (getSPIMode w channel s).2 := by
  unfold CP2130.getSPIMode
  split
  · exact Advances.fail s _ (by decide)
  · exact Advances.control ..

theorem Advances.getTransferPriority (w : World) (s : State) : Advances s (getTransferPriority w s).2 := by
  unfold CP2130.getTransferPriority
  exact Advances.getUSBConfig w s

theorem Advances.getEndpointInAddr (w : World) (s : State) : Advances s (getEndpointInAddr w s).2 := by
  unfold CP2130.getEndpointInAddr
  exact Advances.getTransferPriority w s

theorem Advances.getEndpointOutAddr (w : World) (s : State) : Advances s (getEndpointOutAddr w s).2 := by
  unfold CP2130.getEndpointOutAddr
  exact Advances.getTransferPriority w s

theorem Advances.getGPIOBit (w : World) (bm : Nat) (s : State) :
    Advances s (getGPIOBit w bm s).2 := by
  unfold CP2130.getGPIOBit
  exact Advances.getGPIOs w s

theorem Advances.isOTPBlank (w : World) (s : State) : Advances s (isOTPBlank w s).2 := by
  unfold CP2130.isOTPBlank
  exact Advances.getLockWord w s

theorem Advances.isOTPLocked (w : World) (s : State) : Advances s (isOTPLocked w s).2 := by
  unfold CP2130.isOTPLocked
  exact Advances.getLockWord w s

theorem Advances.lockOTP (w : World) (s : State) : Advances s (lockOTP w s) := by
  unfold CP2130.lockOTP
  exact Advances.writeLockWord w _ s

theorem Advances.writeManufacturerDesc (w : World) (manufacturer : List Nat) (s : State) :
    Advances s (writeManufacturerDesc w manufacturer s) := by
  unfold CP2130.writeManufacturerDesc
  split
  · exact Advances.fail s _ (by decide)
  · exact Advances.writeDescGeneric ..

theorem Advances.writeProductDesc (w : World) (product : List Nat) (s : State) :
    Advances s (writeProductDesc w product s) := by
  unfold CP2130.writeProductDesc
  split
  · exact Advances.fail s _ (by decide)
  · exact Advances.writeDescGeneric ..

theorem Advances.writeSerialDesc (w : World) (serial : List Nat) (s : State) :
    Advances s (writeSerialDesc w serial s) := by
  unfold CP2130.writeSerialDesc
  split
  · exact Advances.fail s _ (by decide)
  · exact Advances.writeDescGeneric ..

theorem Advances.endpointArgs (w : World) (s : State) : Advances s (endpointArgs w s).2.2 := by
  unfold CP2130.endpointArgs
  split
  · exact (Advances.getEndpointInAddr w s).trans (Advances.getEndpointOutAddr w _)
  · exact (Advances.getEndpointOutAddr w s).trans (Advances.getEndpointInAddr w _)

theorem Advances.getPROMConfig (w : World) (s : State) : Advances s (getPROMConfig w s).2 := by
  unfold CP2130.getPROMConfig
  exact Advances.foldl (readBlock w) Prod.snd (fun b a => Advances.control ..) _ (_, s)

theorem Advances.writePROMConfig (w : World) (config : PROMConfig) (s : State) :
    Advances s (writePROMConfig w config s) := by
  unfold CP2130.writePROMConfig
  exact Advances.foldl (writeBlock w config) id (fun b a => Advances.control ..) _ s

theorem Advances.listDevices (env : ListEnv) (vid pid : Nat) (s : State) :
    Advances s (listDevices env vid pid s).2 := by
  unfold CP2130.listDevices
  split
  · exact Advances.fail s _ (by decide)
  · split
    · exact Advances.fail s _ (by decide)
    · exact Advances.refl s

/-- Every public operation but `open` and `close` only advances the state. -/
theorem step_advances (w : World) (op : Op) (s : State) (hclose : op ≠ Op.close)
    (hopen : ∀ env vid pid serial, op ≠ Op.open_ env vid pid serial) :
    Advances s (step w op s) := by
  cases op
  case close => exact absurd rfl hclose
  case open_ env vid pid serial => exact absurd rfl (hopen env vid pid serial)
  case disconnected => exact Advances.refl s
  case isOpen => exact Advances.refl s
  case bulkTransfer a d n tr => exact Advances.bulk w a d n tr s
  case controlTransfer a b c d data n => exact Advances.control w a b c d data n s
  case configureGPIO pin mode value => exact Advances.configureGPIO w pin mode value s
  case configureSPIDelays channel delays => exact Advances.configureSPIDelays w channel delays s
  case configureSPIMode channel mode => exact Advances.configureSPIMode w channel mode s
  case disableCS channel => exact Advances.disableCS w channel s
  case disableSPIDelays channel => exact Advances.disableSPIDelays w channel s
  case enableCS channel => exact Advances.enableCS w channel s
  case selectCS channel => exact Advances.selectCS w channel s
  case writeLockWord word => exact Advances.writeLockWord w word s
  case reset => exact Advances.reset w s
  case setClockDivider value => exact Advances.setClockDivider w value s
  case setEventCounter evcntr => exact Advances.setEventCounter w evcntr s
  case setFIFOThreshold threshold => exact Advances.setFIFOThreshold w threshold s
  case setGPIOs bmValues bmMask => exact Advances.setGPIOs w bmValues bmMask s
  case stopRTR => exact Advances.stopRTR w s
  case writePinConfig config => exact Advances.writePinConfig w config s
  case writeUSBConfig config mask => exact Advances.writeUSBConfig w config mask s
  case getClockDivider => exact Advances.getClockDivider w s
  case getEventCounter => exact Advances.getEventCounter w s
  case getFIFOThreshold => exact Advances.getFIFOThreshold w s
  case getGPIOs => exact Advances.getGPIOs w s
  case getLockWord => exact Advances.getLockWord w s
  case getPinConfig => exact Advances.getPinConfig w s
  case getSiliconVersion => exact Advances.getSiliconVersion w s
  case getUSBConfig => exact Advances.getUSBConfig w s
  case isRTRActive => exact Advances.isRTRActive w s
  case getTransferPriority => exact Advances.getTransferPriority w s
  case getEndpointInAddr => exact Advances.getEndpointInAddr w s
  case getEndpointOutAddr => exact Advances.getEndpointOutAddr w s
  case isOTPBlank => exact Advances.isOTPBlank w s
  case isOTPLocked => exact Advances.isOTPLocked w s
  case getPROMConfig => exact Advances.getPROMConfig w s
  case lockOTP => exact Advances.lockOTP w s
  case getCS channel => exact Advances.getCS w channel s
  case getSPIDelays channel => exact Advances.getSPIDelays w channel s
  case getSPIMode channel => exact Advances.getSPIMode w channel s
  case getGPIO0 => exact Advances.getGPIOBit w _ s
  case setGPIO0 value => exact Advances.setGPIOs w _ _ s
  case getGPIO1 => exact Advances.getGPIOBit w _ s
  case setGPIO1 value => exact Advances.setGPIOs w _ _ s
  case getGPIO2 => exact Advances.getGPIOBit w _ s
  case setGPIO2 value => exact Advances.setGPIOs w _ _ s
  case getGPIO3 => exact Advances.getGPIOBit w _ s
  case setGPIO3 value => exact Advances.setGPIOs w _ _ s
  case getGPIO4 => exact Advances.getGPIOBit w _ s
  case setGPIO4 value => exact Advances.setGPIOs w _ _ s
  case getGPIO5 => exact Advances.getGPIOBit w _ s
  case setGPIO5 value => exact Advances.setGPIOs w _ _ s
  case getGPIO6 => exact Advances.getGPIOBit w _ s
  case setGPIO6 value => exact Advances.setGPIOs w _ _ s
  case getGPIO7 => exact Advances.getGPIOBit w _ s
  case setGPIO7 value => exact Advances.setGPIOs w _ _ s
  case getGPIO8 => exact Advances.getGPIOBit w _ s
  case setGPIO8 value => exact Advances.setGPIOs w _ _ s
  case getGPIO9 => exact Advances.getGPIOBit w _ s
  case setGPIO9 value => exact Advances.setGPIOs w _ _ s
  case getGPIO10 => exact Advances.getGPIOBit w _ s
  case setGPIO10 value => exact Advances.setGPIOs w _ _ s
  case getManufacturerDesc => exact Advances.getDescGeneric w _ s
  case getProductDesc => exact Advances.getDescGeneric w _ s
  case getSerialDesc => exact Advances.getDescGeneric w _ s
  case writeManufacturerDesc d => exact Advances.writeManufacturerDesc w d s
  case writeProductDesc d => exact Advances.writeProductDesc w d s
  case writeSerialDesc d => exact Advances.writeSerialDesc w d s
  case writePROMConfig config => exact Advances.writePROMConfig w config s
  case spiRead n a b => exact Advances.spiRead w n a b s
  case spiReadAuto n => exact (Advances.endpointArgs w s).trans (Advances.spiRead w n _ _ _)
  case spiWrite d a => exact Advances.spiWrite w d a s
  case spiWriteAuto d => exact (Advances.getEndpointOutAddr w s).trans (Advances.spiWrite w d _ _)
  case spiWriteRead d a b => exact Advances.spiWriteRead w d a b s
  case spiWriteReadAuto d => exact (Advances.endpointArgs w s).trans (Advances.spiWriteRead w d _ _ _)
  case listDevices env vid pid => exact Advances.listDevices env vid pid s


theorem Accumulates.of_eq (s s' : State) (hc : s'.errcnt = s.errcnt)
    (hs : s'.errstr = s.errstr) : Accumulates s s' :=
  ⟨[], by simp, by rw [hs]; apply String.ext; simp [String.join_eq, String.data_append],
    by simp [hc]⟩

theorem close_accumulator (s : State) :
    (close s).errcnt = s.errcnt ∧ (close s).errstr = s.errstr
      ∧ (close s).disconnected_ = s.disconnected_ ∧ (close s).trace = s.trace := by
  unfold close
  split <;> exact ⟨rfl, rfl, rfl, rfl⟩

theorem open_accumulator (env : OpenEnv) (vid pid : Nat) (serial : String) (s : State) :
    (open_ env vid pid serial s).2.errcnt = s.errcnt
      ∧ (open_ env vid pid serial s).2.errstr = s.errstr
      ∧ (open_ env vid pid serial s).2.trace = s.trace := by
  unfold open_
  dsimp only
  split_ifs <;> exact ⟨rfl, rfl, rfl⟩

/-- The accumulator only grows under any public operation. -/
theorem step_accumulates (w : World) (op : Op) (s : State) : Accumulates s (step w op s) := by
  by_cases hclose : op = Op.close
  · subst hclose
    exact Accumulates.of_eq _ _ (close_accumulator s).1 (close_accumulator s).2.1
  · by_cases hopen : ∃ env vid pid serial, op = Op.open_ env vid pid serial
    · obtain ⟨env, vid, pid, serial, rfl⟩ := hopen
      exact Accumulates.of_eq _ _ (open_accumulator env vid pid serial s).1
        (open_accumulator env vid pid serial s).2.1
    · exact (step_advances w op s hclose
        (fun env vid pid serial h => hopen ⟨env, vid, pid, serial, h⟩)).2.2.2.1

/-- C10 (as amended): under every public operation (the two transfer primitives and
everything built on them) and every device behaviour, when the counter is an `int`
value before the call and the count after the call is at most `INT_MAX`: the `int` of
the caller holds the count before and after, the error counter does not decrease, the
log before the call is a prefix of the log after it, and what was appended is a
sequence of newline-terminated messages whose number equals the increase of the
counter. -/
theorem accumulator_invariant (w : World) (op : Op) (s : State)
    (hlo : -2147483648 ≤ s.errcnt) (hhi : (step w op s).errcnt ≤ 2147483647) :
    wrapInt32 s.errcnt = s.errcnt
      ∧ wrapInt32 (step w op s).errcnt = (step w op s).errcnt
      ∧ wrapInt32 s.errcnt ≤ wrapInt32 (step w op s).errcnt
      ∧ s.errcnt ≤ (step w op s).errcnt
      ∧ s.errstr.data <+: (step w op s).errstr.data
      ∧ ∃ msgs : List String, (∀ m ∈ msgs, IsMessage m)
          ∧ (step w op s).errstr = s.errstr ++ String.join msgs
          ∧ (step w op s).errcnt = s.errcnt + msgs.length
          ∧ wrapInt32 (step w op s).errcnt = wrapInt32 s.errcnt + msgs.length := by
  obtain ⟨msgs, hm, hs, hc⟩ := step_accumulates w op s
  have hge : s.errcnt ≤ (step w op s).errcnt := by rw [hc]; omega
  have h1 : wrapInt32 s.errcnt = s.errcnt := by unfold wrapInt32; omega
  have h2 : wrapInt32 (step w op s).errcnt = (step w op s).errcnt := by
    unfold wrapInt32; omega
  refine ⟨h1, h2, ?_, hge, ?_, msgs, hm, hs, hc, ?_⟩
  · rw [h1, h2]; exact hge
  · rw [hs, String.data_append]; exact List.prefix_append _ _
  · rw [h1, h2]; exact hc

theorem accumulator_invariant_witness :
    (-2147483648 ≤ State.opened.errcnt
        ∧ (step timeoutWorld Op.reset State.opened).errcnt ≤ 2147483647)
      ∧ (step timeoutWorld Op.reset State.opened).errcnt = 1
      ∧ wrapInt32 State.opened.errcnt
        ≤ wrapInt32 (step timeoutWorld Op.reset State.opened).errcnt :=
  ⟨⟨by decide, by decide⟩, by decide,
    (accumulator_invariant timeoutWorld Op.reset State.opened (by decide) (by decide)).2.2.1⟩

/-- C10 (as stated) fails: on a session that is not open, with the counter at `INT_MAX`,
`reset` records one failure; the count becomes `2^31`, and the `int` of the caller,
incremented past `INT_MAX`, holds `INT_MIN`, which is below the counter before the
call. -/
theorem accumulator_invariant_counterexample :
    (⟨false, false, false, 2147483647, "", []⟩ : State).errcnt = 2147483647
      ∧ wrapInt32 (⟨false, false, false, 2147483647, "", []⟩ : State).errcnt = 2147483647
      ∧ (step timeoutWorld Op.reset ⟨false, false, false, 2147483647, "", []⟩).errcnt
        = 2147483648
      ∧ wrapInt32 (step timeoutWorld Op.reset ⟨false, false, false, 2147483647, "", []⟩).errcnt
        = -2147483648
      ∧ ¬ (wrapInt32 (⟨false, false, false, 2147483647, "", []⟩ : State).errcnt
        ≤ wrapInt32
          (step timeoutWorld Op.reset ⟨false, false, false, 2147483647, "", []⟩).errcnt) := by
  refine ⟨rfl, by decide, by decide, by decide, by decide⟩

/-- C9: once the disconnected flag is true it is still true after any public operation
(`close`, any transfer, `open` on an open session, a failing `open`), the only exception
being an `open` that returns `SUCCESS` from a closed session, which clears it. -/
theorem disconnected_sticky (w : World) (op : Op) (s : State)
    (h : s.disconnected_ = true) :
    (step w op s).disconnected_ = true
      ∨ ∃ env vid pid serial, op = Op.open_ env vid pid serial ∧ isOpen s = false
          ∧ (open_ env vid pid serial s).1 = SUCCESS
          ∧ (step w op s).disconnected_ = false := by
  by_cases hclose : op = Op.close
  · subst hclose
    left
    show (close s).disconnected_ = true
    rw [(close_accumulator s).2.2.1, h]
  · by_cases hopen : ∃ env vid pid serial, op = Op.open_ env vid pid serial
    · obtain ⟨env, vid, pid, serial, rfl⟩ := hopen
      show (open_ env vid pid serial s).2.disconnected_ = true ∨ _
      by_cases h1 : isOpen s = true
      · left; simp [open_, h1, h]
      · by_cases h2 : (open_ env vid pid serial s).1 = SUCCESS
        · right
          refine ⟨env, vid, pid, serial, rfl, by simpa using h1, h2, ?_⟩
          show (open_ env vid pid serial s).2.disconnected_ = false
          revert h2
          unfold open_
          dsimp only
          split_ifs <;> simp [SUCCESS, ERROR_INIT, ERROR_NOT_FOUND, ERROR_BUSY]
        · left
          revert h2
          unfold open_
          dsimp only
          split_ifs <;> simp [SUCCESS, ERROR_INIT, ERROR_NOT_FOUND, ERROR_BUSY, h]
    · left
      exact (step_advances w op s hclose
        (fun env vid pid serial h => hopen ⟨env, vid, pid, serial, h⟩)).2.2.1 h


/-! ## Loops over index ranges -/

theorem mem_forRange_one (a b k : Nat) : k ∈ forRange a b 1 ↔ a ≤ k ∧ k < b := by
  simp [forRange, Nat.mod_one]
  tauto

theorem forRange_succ (a e step : Nat) :
    forRange a (e + 1) step
      = forRange a e step ++ (if a ≤ e ∧ (e - a) % step = 0 then [e] else []) := by
  simp only [forRange, List.range_succ, List.filter_append]
  congr 1
  by_cases h : a ≤ e ∧ (e - a) % step = 0
  · simp [h]
  · simp only [h, if_false]
    simp only [List.filter_cons, List.filter_nil]
    simp [h]

theorem forRange_zero_one (n : Nat) : forRange 0 n 1 = List.range n := by
  induction n with
  | zero => rfl
  | succ n ih => rw [forRange_succ, ih, List.range_succ]; simp [Nat.mod_one]

theorem forRange_two_two (e : Nat) :
    forRange 2 e 2 = (List.range ((e - 1) / 2)).map (fun k => 2 + 2 * k) := by
  induction e with
  | zero => rfl
  | succ e ih =>
    rw [forRange_succ, ih]
    by_cases h : 2 ≤ e ∧ (e - 2) % 2 = 0
    · have h1 : (e + 1 - 1) / 2 = (e - 1) / 2 + 1 := by omega
      have h2 : 2 + 2 * ((e - 1) / 2) = e := by omega
      rw [if_pos h, h1, List.range_succ, List.map_append, List.map_singleton, h2]
    · have h1 : (e + 1 - 1) / 2 = (e - 1) / 2 := by omega
      rw [if_neg h, h1, List.append_nil]

theorem forRange_one_two (e : Nat) :
    forRange 1 e 2 = (List.range (e / 2)).map (fun k => 1 + 2 * k) := by
  induction e with
  | zero => rfl
  | succ e ih =>
    rw [forRange_succ, ih]
    by_cases h : 1 ≤ e ∧ (e - 1) % 2 = 0
    · have h1 : (e + 1) / 2 = e / 2 + 1 := by omega
      have h2 : 1 + 2 * (e / 2) = e := by omega
      rw [if_pos h, h1, List.range_succ, List.map_append, List.map_singleton, h2]
    · have h1 : (e + 1) / 2 = e / 2 := by omega
      rw [if_neg h, h1, List.append_nil]

theorem foldl_set_length (f : Nat → Nat) (idx : List Nat) (l : List Nat) :
    (idx.foldl (fun b j => b.set j (f j)) l).length = l.length := by
  induction idx generalizing l with
  | nil => rfl
  | cons x xs ih => rw [List.foldl_cons, ih, List.length_set]

theorem foldl_set_getD (f : Nat → Nat) (idx : List Nat) (l : List Nat) (k : Nat) :
    (idx.foldl (fun b j => b.set j (f j)) l).getD k 0
      = if k ∈ idx ∧ k < l.length then f k else l.getD k 0 := by
  induction idx generalizing l with
  | nil => simp
  | cons x xs ih =>
    rw [List.foldl_cons, ih, List.length_set]
    by_cases hk : k ∈ xs ∧ k < l.length
    · rw [if_pos hk, if_pos ⟨List.mem_cons_of_mem _ hk.1, hk.2⟩]
    · rw [if_neg hk]
      by_cases hx : k = x
      · subst hx
        by_cases hl : k < l.length
        · rw [if_pos ⟨List.mem_cons_self _ _, hl⟩]
          simp [List.getD_eq_getElem?_getD, List.getElem?_set, hl]
        · rw [if_neg (fun h => hl h.2)]
          have hn : l[k]? = none := List.getElem?_eq_none (Nat.le_of_not_lt hl)
          simp [List.getD_eq_getElem?_getD, List.getElem?_set, hl, hn]
      · have : ¬ (k ∈ x :: xs ∧ k < l.length) := by
          rintro ⟨h1, h2⟩
          rcases List.mem_cons.mp h1 with h | h
          · exact hx h
          · exact hk ⟨h, h2⟩
        rw [if_neg this]
        simp [List.getD_eq_getElem?_getD, List.getElem?_set, Ne.symm hx]


/-! ## Code units and their two bytes -/

theorem unit_bytes_zero_iff (u : Nat) (hu : u < 65536) :
    (u % 256 ≠ 0 ∨ (u >>> 8) % 256 ≠ 0) ↔ u ≠ 0 := by
  rw [Nat.shiftRight_eq_div_pow]
  norm_num
  omega

theorem unit_bytes_join (u : Nat) (hu : u < 65536) :
    (((u >>> 8) % 256) <<< 8 ||| u % 256) % 65536 = u := by
  rw [Nat.shiftRight_eq_div_pow, Nat.shiftLeft_eq]
  have h := Nat.mul_add_lt_is_or (i := 8) (b := u % 256) (Nat.mod_lt _ (by norm_num))
    (u / 2 ^ 8 % 256)
  rw [Nat.mul_comm, ← h]
  norm_num
  omega

theorem decodeUnit_eq (buf acc : List Nat) (i u : Nat) (hu : u < 65536)
    (hlo : buf.getD i 0 = u % 256) (hhi : buf.getD (i + 1) 0 = (u >>> 8) % 256) :
    decodeUnit buf acc i = acc ++ [u].filter (fun c => decide (c ≠ 0)) := by
  unfold decodeUnit
  rw [hlo, hhi, unit_bytes_join u hu]
  by_cases h : u = 0
  · subst h; simp
  · rw [if_pos ((unit_bytes_zero_iff u hu).mpr h)]
    simp [h]

theorem decode_fold (buf : List Nat) (a : Nat) (u : Nat → Nat) (m : Nat) (acc : List Nat)
    (hu : ∀ k < m, u k < 65536)
    (hlo : ∀ k < m, buf.getD (a + 2 * k) 0 = u k % 256)
    (hhi : ∀ k < m, buf.getD (a + 2 * k + 1) 0 = (u k >>> 8) % 256) :
    ((List.range m).map (fun k => a + 2 * k)).foldl (decodeUnit buf) acc
      = acc ++ ((List.range m).map u).filter (fun c => decide (c ≠ 0)) := by
  induction m with
  | zero => simp
  | succ m ih =>
    rw [List.range_succ, List.map_append, List.foldl_append,
      ih (fun k hk => hu k (Nat.lt_succ_of_lt hk)) (fun k hk => hlo k (Nat.lt_succ_of_lt hk))
        (fun k hk => hhi k (Nat.lt_succ_of_lt hk))]
    rw [List.map_singleton, List.foldl_cons, List.foldl_nil,
      decodeUnit_eq buf _ _ (u m) (hu m (Nat.lt_succ_self m)) (hlo m (Nat.lt_succ_self m))
        (hhi m (Nat.lt_succ_self m))]
    rw [List.map_append, List.filter_append, List.map_singleton, List.append_assoc]

theorem map_getD_range (l : List Nat) : (List.range l.length).map (fun k => l.getD k 0) = l := by
  apply List.ext_getElem
  · simp
  · intro n h1 h2
    simp [List.getD_eq_getElem?_getD, List.getElem?_eq_getElem h2]

theorem range_split (f : Nat → Nat) (a b : Nat) :
    (List.range (a + b)).map f = (List.range a).map f ++ (List.range b).map (fun k => f (a + k)) := by
  rw [List.range_add, List.map_append, List.map_map]
  rfl


/-! ## Tables written by `writeDescGeneric` -/

theorem controlTransfer_fst_out (w : World) (a b c d : Nat) (data : List Nat) (n : Nat)
    (s : State) (h : a &&& 0x80 = 0) : (controlTransfer w a b c d data n s).1 = data := by
  unfold controlTransfer
  simp only [h, ne_eq, not_true_eq_false, if_false]
  split_ifs <;> rfl

theorem controlTransfer_open (w : World) (a b c d : Nat) (data : List Nat) (n : Nat)
    (s : State) (h : isOpen s = true) :
    (controlTransfer w a b c d data n s).2.trace = s.trace ++ [UsbCall.control a b c d data n]
      ∧ isOpen (controlTransfer w a b c d data n s).2 = true := by
  by_cases hr : (w.reply s.trace (UsbCall.control a b c d data n)).result = (n : Int)
  · rw [controlTransfer_ok w _ _ _ _ _ _ s h hr]; exact ⟨rfl, h⟩
  · rw [controlTransfer_err w _ _ _ _ _ _ s h hr]; exact ⟨rfl, h⟩

theorem controlTransfer_fst_in (w : World) (a b c d : Nat) (data : List Nat) (n : Nat)
    (s : State) (h : isOpen s = true) (ha : a &&& 0x80 ≠ 0) :
    (controlTransfer w a b c d data n s).1
      = received data (min (w.reply s.trace (UsbCall.control a b c d data n)).transferred n)
          (w.reply s.trace (UsbCall.control a b c d data n)).data := by
  unfold controlTransfer
  simp only [h, not_true_eq_false, if_false, if_pos ha]
  split_ifs <;> rfl

theorem received_getD (data : List Nat) (moved : Nat) (src : Nat → Nat) (k : Nat)
    (hk : k < data.length) (hm : k < moved) : (received data moved src).getD k 0 = src k % 256 := by
  unfold received
  rw [List.getD_eq_getElem?_getD, List.getElem?_map, List.getElem?_range hk]
  simp [hm]

theorem sentTable_length (descriptor : List Nat) (i : Nat) :
    (sentTable descriptor i).length = 64 := by
  induction i with
  | zero => simp [sentTable, fillTable, foldl_set_length, DESC_TBLSIZE]
  | succ i ih => simp [sentTable, fillTable, foldl_set_length, ih]

theorem sentTable_zero_getD (descriptor : List Nat) (k : Nat) :
    (sentTable descriptor 0).getD k 0
      = if 2 ≤ k ∧ k < 63 then descByte descriptor (2 * descriptor.length + 2) 0 k
        else if k = 0 then (2 * descriptor.length + 2) % 256
        else if k = 1 then 3 else 0 := by
  simp only [sentTable, fillTable, foldl_set_getD, mem_forRange_one, if_true]
  by_cases h : 2 ≤ k ∧ k < 63
  · rw [if_pos h, if_pos]
    exact ⟨⟨h.1, by simpa [DESC_IDXINCR, DESC_TBLSIZE] using h.2⟩,
      by simp [DESC_TBLSIZE]; omega⟩
  · rw [if_neg h, if_neg]
    · rcases Nat.lt_or_ge k 2 with h2 | h2
      · interval_cases k <;> simp
      · have : 63 ≤ k := by omega
        have e : ¬ k = 0 := by omega
        have e1 : ¬ k = 1 := by omega
        rw [if_neg e, if_neg e1]
        simp only [DESC_TBLSIZE, List.getD_eq_getElem?_getD]
        rcases Nat.lt_or_ge k 64 with h3 | h3
        · have : k = 63 := by omega
          subst this; rfl
        · rw [List.getElem?_eq_none (by simp; omega)]; rfl
    · rintro ⟨⟨h1, h2⟩, _⟩
      exact h ⟨h1, by simpa [DESC_IDXINCR, DESC_TBLSIZE] using h2⟩

theorem fillTable_getD (descriptor : List Nat) (len i : Nat) (buf : List Nat) (k : Nat) :
    (fillTable descriptor len i buf).getD k 0
      = if ((if i = 0 then 2 else 0) ≤ k ∧ k < 63) ∧ k < buf.length
        then descByte descriptor len i k else buf.getD k 0 := by
  simp only [fillTable, foldl_set_getD, mem_forRange_one]
  rfl

theorem sentTable_one_getD (descriptor : List Nat) (k : Nat) :
    (sentTable descriptor 1).getD k 0
      = if k < 63 then descByte descriptor (2 * descriptor.length + 2) 1 k else 0 := by
  show (fillTable descriptor (2 * descriptor.length + 2) 1 (sentTable descriptor 0)).getD k 0 = _
  rw [fillTable_getD, sentTable_length, sentTable_zero_getD]
  by_cases h : k < 63
  · rw [if_pos h, if_pos]
    exact ⟨⟨by simp, h⟩, by omega⟩
  · rw [if_neg h, if_neg (fun hh => h hh.1.2), if_neg (fun hh => h hh.2), if_neg (by omega),
      if_neg (by omega)]


theorem descByte_lo0 (descriptor : List Nat) (len k : Nat) (h : 2 + 2 * k < len) :
    descByte descriptor len 0 (2 + 2 * k) = descriptor.getD k 0 % 256 := by
  have e1 : (2 + 2 * k - 2) / 2 = k := by omega
  have e2 : (2 + 2 * k) % 2 = 0 := by omega
  simp [descByte, DESC_IDXINCR, DESC_TBLSIZE, h, e1, e2]

theorem descByte_hi0 (descriptor : List Nat) (len k : Nat) (h : 2 + 2 * k + 1 < len) :
    descByte descriptor len 0 (2 + 2 * k + 1) = (descriptor.getD k 0 >>> 8) % 256 := by
  have e1 : (2 + 2 * k + 1 - 2) / 2 = k := by omega
  have e2 : ¬ (2 + 2 * k + 1) % 2 = 0 := by omega
  have e3 : (1 + 2 * k) / 2 = k := by omega
  simp [descByte, DESC_IDXINCR, DESC_TBLSIZE, h, e1, e2, e3]

theorem descByte_lo1 (descriptor : List Nat) (len k : Nat) (h : 64 + 2 * k < len) :
    descByte descriptor len 1 (1 + 2 * k) = descriptor.getD (31 + k) 0 % 256 := by
  have e1 : (63 + (1 + 2 * k) - 2) / 2 = 31 + k := by omega
  have e2 : (1 + (1 + 2 * k)) % 2 = 0 := by omega
  have e3 : 63 + (1 + 2 * k) < len := by omega
  simp [descByte, DESC_IDXINCR, DESC_TBLSIZE, e1, e2, e3]

theorem descByte_hi1 (descriptor : List Nat) (len k : Nat) (h : 65 + 2 * k < len) :
    descByte descriptor len 1 (1 + 2 * k + 1) = (descriptor.getD (31 + k) 0 >>> 8) % 256 := by
  have e1 : (63 + (1 + 2 * k + 1) - 2) / 2 = 31 + k := by omega
  have e2 : ¬ (1 + (1 + 2 * k + 1)) % 2 = 0 := by omega
  have e3 : 63 + (1 + 2 * k + 1) < len := by omega
  simp [descByte, DESC_IDXINCR, DESC_TBLSIZE, e1, e2, e3]

theorem descByte_mid_hi (descriptor : List Nat) (len : Nat) (h : 63 < len) :
    descByte descriptor len 1 0 = (descriptor.getD 30 0 >>> 8) % 256 := by
  simp [descByte, DESC_IDXINCR, DESC_TBLSIZE, h]

theorem getD_unit_lt (descriptor : List Nat) (hu : ∀ c ∈ descriptor, c < 65536) (k : Nat) :
    descriptor.getD k 0 < 65536 := by
  rw [List.getD_eq_getElem?_getD]
  rcases Nat.lt_or_ge k descriptor.length with h | h
  · rw [List.getElem?_eq_getElem h]
    exact hu _ (List.getElem_mem h)
  · rw [List.getElem?_eq_none h]; decide

/-- The first decoding loop on table 0 of a descriptor. -/
theorem decode_first (descriptor : List Nat) (hlen : descriptor.length ≤ 62)
    (hu : ∀ c ∈ descriptor, c < 65536) (buf : List Nat)
    (hb : ∀ k < 64, buf.getD k 0 = (sentTable descriptor 0).getD k 0) :
    (forRange 2 (if 2 * descriptor.length + 2 > DESC_MAXIDX then DESC_MAXIDX
        else 2 * descriptor.length + 2) 2).foldl (decodeUnit buf) []
      = ((List.range (min descriptor.length 30)).map (fun k => descriptor.getD k 0)).filter
          (fun c => decide (c ≠ 0)) := by
  have hcount : ((if 2 * descriptor.length + 2 > DESC_MAXIDX then DESC_MAXIDX
      else 2 * descriptor.length + 2) - 1) / 2 = min descriptor.length 30 := by
    simp only [DESC_MAXIDX, DESC_TBLSIZE]
    split_ifs <;> omega
  rw [forRange_two_two, hcount,
    decode_fold buf 2 (fun k => descriptor.getD k 0) _ [] (fun k _ => getD_unit_lt _ hu k)]
  · simp
  · intro k hk
    have hk1 : k < descriptor.length := lt_of_lt_of_le hk (min_le_left _ _)
    have hk2 : k < 30 := lt_of_lt_of_le hk (min_le_right _ _)
    rw [hb _ (by omega), sentTable_zero_getD, if_pos (by omega), descByte_lo0 _ _ _ (by omega)]
  · intro k hk
    have hk1 : k < descriptor.length := lt_of_lt_of_le hk (min_le_left _ _)
    have hk2 : k < 30 := lt_of_lt_of_le hk (min_le_right _ _)
    rw [hb _ (by omega), sentTable_zero_getD, if_pos (by omega), descByte_hi0 _ _ _ (by omega)]

/-- The second decoding loop on table 1 of a descriptor. -/
theorem decode_second (descriptor : List Nat) (hlen : descriptor.length ≤ 62)
    (hu : ∀ c ∈ descriptor, c < 65536) (buf acc : List Nat)
    (hb : ∀ k < 64, buf.getD k 0 = (sentTable descriptor 1).getD k 0) :
    (forRange 1 (2 * descriptor.length + 2 - DESC_IDXINCR) 2).foldl (decodeUnit buf) acc
      = acc ++ ((List.range (descriptor.length - 31)).map
          (fun k => descriptor.getD (31 + k) 0)).filter (fun c => decide (c ≠ 0)) := by
  have hcount : (2 * descriptor.length + 2 - DESC_IDXINCR) / 2 = descriptor.length - 31 := by
    simp only [DESC_IDXINCR, DESC_TBLSIZE]
    omega
  rw [forRange_one_two, hcount,
    decode_fold buf 1 (fun k => descriptor.getD (31 + k) 0) _ acc
      (fun k _ => getD_unit_lt _ hu _)]
  · intro k hk
    rw [hb _ (by omega), sentTable_one_getD, if_pos (by omega), descByte_lo1 _ _ _ (by omega)]
  · intro k hk
    rw [hb _ (by omega), sentTable_one_getD, if_pos (by omega), descByte_hi1 _ _ _ (by omega)]

/-- The unit split between the two tables, put together again. -/
theorem decode_mid (descriptor : List Nat) (hlen : 31 ≤ descriptor.length)
    (hu : ∀ c ∈ descriptor, c < 65536) :
    ((sentTable descriptor 1).getD 0 0 <<< 8 ||| (sentTable descriptor 0).getD DESC_MAXIDX 0)
      % 65536 = descriptor.getD 30 0 := by
  have e : DESC_MAXIDX = 2 + 2 * 30 := rfl
  rw [sentTable_one_getD, if_pos (by omega), descByte_mid_hi _ _ (by omega), e,
    sentTable_zero_getD, if_pos (by omega), descByte_lo0 _ _ _ (by omega)]
  exact unit_bytes_join _ (getD_unit_lt _ hu 30)

/-- A descriptor cut the way the two tables cut it. -/
theorem descriptor_split (descriptor : List Nat) (hlen : 31 ≤ descriptor.length) :
    descriptor = (List.range 30).map (fun k => descriptor.getD k 0) ++ [descriptor.getD 30 0]
      ++ (List.range (descriptor.length - 31)).map (fun k => descriptor.getD (31 + k) 0) := by
  have h := map_getD_range descriptor
  have e : descriptor.length = 30 + (1 + (descriptor.length - 31)) := by omega
  rw [e, range_split, range_split] at h
  have r1 : List.range 1 = [0] := rfl
  simp only [r1, List.map_singleton, Nat.add_zero] at h
  have h' : ∀ k, 30 + (1 + k) = 31 + k := fun k => by omega
  simp only [h'] at h
  rw [List.append_assoc]
  exact h.symm


theorem descByte_lt (descriptor : List Nat) (len i j : Nat) : descByte descriptor len i j < 256 := by
  unfold descByte
  dsimp only
  split
  · exact Nat.mod_lt _ (by decide)
  · decide

theorem sentTable_byte_lt (descriptor : List Nat) (i k : Nat) (hi : i < 2) :
    (sentTable descriptor i).getD k 0 < 256 := by
  interval_cases i
  · rw [sentTable_zero_getD]
    split_ifs
    · exact descByte_lt _ _ _ _
    · exact Nat.mod_lt _ (by decide)
    · decide
    · decide
  · rw [sentTable_one_getD]
    split_ifs
    · exact descByte_lt _ _ _ _
    · decide

theorem received_length (data : List Nat) (moved : Nat) (src : Nat → Nat) :
    (received data moved src).length = data.length := by
  simp [received]

/-- The number of tables `writeDescGeneric` sends for a SET command code. -/
theorem writeDescGeneric_trace (w : World) (descriptor : List Nat) (command : Nat) (s : State)
    (ho : isOpen s = true) :
    (writeDescGeneric w descriptor command s).trace
      = s.trace ++ (List.range (if command = SET_MANUFACTURING_STRING_1
          ∨ command = SET_PRODUCT_STRING_1 then 2 else 1)).map (fun i =>
            UsbCall.control SET ((command + 2 * i) % 256) PROM_WRITE_KEY 0x0000
              (sentTable descriptor i) DESC_TBLSIZE) := by
  have hset : SET &&& 0x80 = 0 := by decide
  unfold writeDescGeneric
  simp only [forRange_zero_one]
  split_ifs with hc
  · have r2 : List.range 2 = [0, 1] := rfl
    simp only [r2, List.foldl_cons, List.foldl_nil, List.map_cons, List.map_nil, writeTable,
      controlTransfer_fst_out _ _ _ _ _ _ _ _ hset]
    rw [(controlTransfer_open _ _ _ _ _ _ _ _ (controlTransfer_open _ _ _ _ _ _ _ _ ho).2).1,
      (controlTransfer_open _ _ _ _ _ _ _ _ ho).1]
    simp [sentTable]
  · have r1 : List.range 1 = [0] := rfl
    simp only [r1, List.foldl_cons, List.foldl_nil, List.map_cons, List.map_nil, writeTable]
    rw [(controlTransfer_open _ _ _ _ _ _ _ _ ho).1]
    simp [sentTable]

theorem sentTables_writeDescGeneric (w : World) (descriptor : List Nat) (command : Nat)
    (s : State) (ho : isOpen s = true) :
    sentTables s.trace.length (writeDescGeneric w descriptor command s).trace
      = (List.range (if command = SET_MANUFACTURING_STRING_1
          ∨ command = SET_PRODUCT_STRING_1 then 2 else 1)).map (sentTable descriptor) := by
  rw [writeDescGeneric_trace w descriptor command s ho, sentTables, List.drop_left,
    List.filterMap_map]
  rw [← List.filterMap_eq_map]
  rfl


/-- The buffer after a GET that the device answers with table `i` of a descriptor. -/
theorem get_table (w : World) (descriptor : List Nat) (i : Nat) (hi : i < 2) (request : Nat)
    (data : List Nat) (hd : data.length = 64) (s : State) (ho : isOpen s = true)
    (hr : 64 ≤ (w.reply s.trace (UsbCall.control GET request 0 0 data DESC_TBLSIZE)).transferred
      ∧ ∀ j < 64, (w.reply s.trace (UsbCall.control GET request 0 0 data DESC_TBLSIZE)).data j
          = (sentTable descriptor i).getD j 0) :
    (controlTransfer w GET request 0 0 data DESC_TBLSIZE s).1.length = 64
      ∧ ∀ k < 64, (controlTransfer w GET request 0 0 data DESC_TBLSIZE s).1.getD k 0
          = (sentTable descriptor i).getD k 0 := by
  have hget : GET &&& 0x80 ≠ 0 := by decide
  rw [controlTransfer_fst_in w _ _ _ _ _ _ s ho hget]
  refine ⟨by rw [received_length, hd], ?_⟩
  intro k hk
  have h64 := hr.1
  rw [received_getD _ _ _ k (by omega) (lt_min (by omega) (by simp only [DESC_TBLSIZE]; omega)),
    hr.2 k hk]
  exact Nat.mod_eq_of_lt (sentTable_byte_lt descriptor i k hi)

/-- Decoding what was encoded gives the descriptor without its null code units. -/
theorem roundtrip_filter (w : World) (s0 s1 : State) (descriptor : List Nat) (command : Nat)
    (hfield : ((command = SET_MANUFACTURING_STRING_1 ∨ command = SET_PRODUCT_STRING_1)
        ∧ descriptor.length ≤ 62) ∨ (command = SET_SERIAL_STRING ∧ descriptor.length ≤ 30))
    (hu : ∀ c ∈ descriptor, c < 65536)
    (ho0 : isOpen s0 = true) (ho1 : isOpen s1 = true)
    (hget : ∀ i table,
      (sentTables s0.trace.length (writeDescGeneric w descriptor command s0).trace)[i]?
        = some table →
      ∀ hist buf, s1.trace <+: hist →
        (w.reply hist (UsbCall.control GET (command - 1 + 2 * i) 0 0 buf DESC_TBLSIZE)).result = 64
        ∧ 64 ≤ (w.reply hist
            (UsbCall.control GET (command - 1 + 2 * i) 0 0 buf DESC_TBLSIZE)).transferred
        ∧ ∀ j < 64, (w.reply hist
            (UsbCall.control GET (command - 1 + 2 * i) 0 0 buf DESC_TBLSIZE)).data j
              = table.getD j 0) :
    (getDescGeneric w (command - 1) s1).1 = descriptor.filter (fun c => decide (c ≠ 0)) := by
  rw [sentTables_writeDescGeneric w descriptor command s0 ho0] at hget
  have hlen62 : descriptor.length ≤ 62 := by
    rcases hfield with h | h
    · exact h.2
    · exact le_trans h.2 (by decide)
  -- the first table
  have hsome0 : ((List.range (if command = SET_MANUFACTURING_STRING_1
      ∨ command = SET_PRODUCT_STRING_1 then 2 else 1)).map (sentTable descriptor))[0]?
      = some (sentTable descriptor 0) := by
    split_ifs <;> simp
  have hg0 := hget 0 (sentTable descriptor 0) hsome0 s1.trace
    (uninitBuffer w s1 DESC_TBLSIZE) (List.prefix_refl _)
  simp only [Nat.mul_zero, Nat.add_zero] at hg0
  have hb1 := get_table w descriptor 0 (by decide) (command - 1) (uninitBuffer w s1 DESC_TBLSIZE)
    (by simp [uninitBuffer, DESC_TBLSIZE]) s1 ho1 hg0.2
  have hl : (controlTransfer w GET (command - 1) 0 0 (uninitBuffer w s1 DESC_TBLSIZE)
      DESC_TBLSIZE s1).1.getD 0 0 = 2 * descriptor.length + 2 := by
    rw [hb1.2 0 (by decide), sentTable_zero_getD]
    simp
    omega
  unfold getDescGeneric
  simp only [hl]
  rw [decode_first descriptor hlen62 hu _ hb1.2]
  by_cases hlong : 31 ≤ descriptor.length
  · -- two tables: a manufacturer or product string of 31 to 62 code units
    have hcmd : command = SET_MANUFACTURING_STRING_1 ∨ command = SET_PRODUCT_STRING_1 := by
      rcases hfield with h | h
      · exact h.1
      · omega
    have hcond : (command - 1 = GET_MANUFACTURING_STRING_1 ∨ command - 1 = GET_PRODUCT_STRING_1)
        ∧ 2 * descriptor.length + 2 > DESC_MAXIDX := by
      constructor
      · rcases hcmd with h | h <;> subst h
        · left; rfl
        · right; rfl
      · simp only [DESC_MAXIDX, DESC_TBLSIZE]; omega
    rw [if_pos hcond]
    have hreq : (command - 1 + 2) % 256 = command - 1 + 2 * 1 := by
      rcases hcmd with h | h <;> subst h <;> rfl
    have ho2 := (controlTransfer_open w GET (command - 1) 0 0 (uninitBuffer w s1 DESC_TBLSIZE)
      DESC_TBLSIZE s1 ho1)
    have hsome1 : ((List.range (if command = SET_MANUFACTURING_STRING_1
        ∨ command = SET_PRODUCT_STRING_1 then 2 else 1)).map (sentTable descriptor))[1]?
        = some (sentTable descriptor 1) := by
      rw [if_pos hcmd]; simp
    have hg1 := hget 1 (sentTable descriptor 1) hsome1
      (controlTransfer w GET (command - 1) 0 0 (uninitBuffer w s1 DESC_TBLSIZE)
        DESC_TBLSIZE s1).2.trace
      (controlTransfer w GET (command - 1) 0 0 (uninitBuffer w s1 DESC_TBLSIZE)
        DESC_TBLSIZE s1).1 (by rw [ho2.1]; exact List.prefix_append _ _)
    rw [← hreq] at hg1
    have hb2 := get_table w descriptor 1 (by decide) _ _ hb1.1 _ ho2.2 hg1.2
    dsimp only
    rw [hb2.2 0 (by decide)]
    rw [hb1.2 DESC_MAXIDX (by decide)]
    rw [decode_mid descriptor hlong hu]
    rw [decode_second descriptor hlen62 hu _ _ hb2.2]
    have hmin : min descriptor.length 30 = 30 := by omega
    rw [hmin]
    conv_rhs => rw [descriptor_split descriptor hlong]
    rw [List.filter_append, List.filter_append]
    congr 1
    by_cases hz : descriptor.getD 30 0 = 0
    · rw [if_neg (not_not.mpr hz), hz]
      simp
    · rw [if_pos hz]
      have hz1 : decide (descriptor.getD 30 0 ≠ 0) = true := by simpa using hz
      rw [List.filter_cons_of_pos (p := fun c => decide (c ≠ 0)) hz1, List.filter_nil]
  · -- one table
    have hcond : ¬ ((command - 1 = GET_MANUFACTURING_STRING_1
        ∨ command - 1 = GET_PRODUCT_STRING_1) ∧ 2 * descriptor.length + 2 > DESC_MAXIDX) := by
      rintro ⟨_, h⟩
      simp only [DESC_MAXIDX, DESC_TBLSIZE] at h
      omega
    rw [if_neg hcond]
    have hmin : min descriptor.length 30 = descriptor.length := by omega
    rw [hmin, map_getD_range]


theorem promWorld_reply (g : Nat) (tables : List (List Nat)) (i : Nat) (table : List Nat)
    (h : tables[i]? = some table) (hist : List UsbCall) (buf : List Nat) :
    ((promWorld g tables).reply hist (UsbCall.control GET (g + 2 * i) 0 0 buf DESC_TBLSIZE)).result
        = 64
      ∧ 64 ≤ ((promWorld g tables).reply hist
          (UsbCall.control GET (g + 2 * i) 0 0 buf DESC_TBLSIZE)).transferred
      ∧ ∀ j < 64, ((promWorld g tables).reply hist
          (UsbCall.control GET (g + 2 * i) 0 0 buf DESC_TBLSIZE)).data j = table.getD j 0 := by
  have e : (g + 2 * i - g) / 2 = i := by omega
  simp [promWorld, DESC_TBLSIZE, e, List.getD_eq_getElem?_getD, h]

/-- C1 (as amended): for a manufacturer or product string of at most 62 code units, or a
serial string of at most 30, none of them `0x0000`, written on an open session: if every
GET of table `i` (request code = SET code - 1 + 2 i) issued from the reading state on
returns the 64 bytes `writeDescGeneric` sent for table `i`, then `getDescGeneric`
returns the string. -/
theorem descriptor_round_trip (w : World) (s0 s1 : State) (descriptor : List Nat)
    (command : Nat)
    (hfield : ((command = SET_MANUFACTURING_STRING_1 ∨ command = SET_PRODUCT_STRING_1)
        ∧ descriptor.length ≤ 62) ∨ (command = SET_SERIAL_STRING ∧ descriptor.length ≤ 30))
    (hunits : ∀ c ∈ descriptor, c < 65536 ∧ c ≠ 0)
    (ho0 : isOpen s0 = true) (ho1 : isOpen s1 = true)
    (hget : ∀ i table,
      (sentTables s0.trace.length (writeDescGeneric w descriptor command s0).trace)[i]?
        = some table →
      ∀ hist buf, s1.trace <+: hist →
        (w.reply hist (UsbCall.control GET (command - 1 + 2 * i) 0 0 buf DESC_TBLSIZE)).result = 64
        ∧ 64 ≤ (w.reply hist
            (UsbCall.control GET (command - 1 + 2 * i) 0 0 buf DESC_TBLSIZE)).transferred
        ∧ ∀ j < 64, (w.reply hist
            (UsbCall.control GET (command - 1 + 2 * i) 0 0 buf DESC_TBLSIZE)).data j
              = table.getD j 0) :
    (getDescGeneric w (command - 1) s1).1 = descriptor := by
  rw [roundtrip_filter w s0 s1 descriptor command hfield (fun c hc => (hunits c hc).1) ho0 ho1
    hget]
  apply List.filter_eq_self.mpr
  intro c hc
  simpa using (hunits c hc).2

theorem descriptor_round_trip_witness :
    (getDescGeneric
      (promWorld GET_MANUFACTURING_STRING_1
        ((List.range 2).map (sentTable ((List.range 32).map (fun k => 0x0041 + k)))))
      (SET_MANUFACTURING_STRING_1 - 1)
      (writeDescGeneric
        (promWorld GET_MANUFACTURING_STRING_1
          ((List.range 2).map (sentTable ((List.range 32).map (fun k => 0x0041 + k)))))
        ((List.range 32).map (fun k => 0x0041 + k)) SET_MANUFACTURING_STRING_1 State.opened)).1
      = (List.range 32).map (fun k => 0x0041 + k) :=
  descriptor_round_trip _ State.opened _ _ SET_MANUFACTURING_STRING_1
    (Or.inl ⟨Or.inl rfl, by decide⟩) (by decide) rfl (by decide)
    (fun i table h hist buf _ => by
      rw [sentTables_writeDescGeneric _ _ _ State.opened rfl] at h
      exact promWorld_reply GET_MANUFACTURING_STRING_1 _ i table h hist buf)

/-- C1 (as stated) fails: the one-unit manufacturer string `[0x0000]` is within the
length limit, every GET returns the table that was sent, and `getDescGeneric` returns
the empty string. -/
theorem descriptor_round_trip_counterexample :
    ([0x0000] : List Nat).length ≤ 62
      ∧ (∀ c ∈ ([0x0000] : List Nat), c < 65536)
      ∧ (∀ i table,
          (sentTables State.opened.trace.length
            (writeDescGeneric (promWorld GET_MANUFACTURING_STRING_1
              ((List.range 2).map (sentTable [0x0000]))) [0x0000] SET_MANUFACTURING_STRING_1
              State.opened).trace)[i]? = some table →
          ∀ hist buf,
            ((promWorld GET_MANUFACTURING_STRING_1 ((List.range 2).map (sentTable [0x0000]))).reply
              hist (UsbCall.control GET (SET_MANUFACTURING_STRING_1 - 1 + 2 * i) 0 0 buf
                DESC_TBLSIZE)).result = 64
            ∧ 64 ≤ ((promWorld GET_MANUFACTURING_STRING_1
                ((List.range 2).map (sentTable [0x0000]))).reply
              hist (UsbCall.control GET (SET_MANUFACTURING_STRING_1 - 1 + 2 * i) 0 0 buf
                DESC_TBLSIZE)).transferred
            ∧ ∀ j < 64, ((promWorld GET_MANUFACTURING_STRING_1
                ((List.range 2).map (sentTable [0x0000]))).reply
              hist (UsbCall.control GET (SET_MANUFACTURING_STRING_1 - 1 + 2 * i) 0 0 buf
                DESC_TBLSIZE)).data j = table.getD j 0)
      ∧ (getDescGeneric (promWorld GET_MANUFACTURING_STRING_1
            ((List.range 2).map (sentTable [0x0000]))) GET_MANUFACTURING_STRING_1
          (writeDescGeneric (promWorld GET_MANUFACTURING_STRING_1
            ((List.range 2).map (sentTable [0x0000]))) [0x0000] SET_MANUFACTURING_STRING_1
            State.opened)).1 = []
      ∧ ([] : List Nat) ≠ [0x0000] := by
  refine ⟨by decide, by decide, ?_, by decide, by decide⟩
  intro i table h hist buf
  rw [sentTables_writeDescGeneric _ _ _ State.opened rfl] at h
  exact promWorld_reply GET_MANUFACTURING_STRING_1 _ i table h hist buf


/-! ## Length validation of the descriptor writers -/

theorem writeDescGeneric_closed (w : World) (descriptor : List Nat) (command : Nat) (s : State)
    (hc : isOpen s = false) :
    writeDescGeneric w descriptor command s
      = if command = SET_MANUFACTURING_STRING_1 ∨ command = SET_PRODUCT_STRING_1 then
          (s.fail "In controlTransfer(): device is not open.\n").fail
            "In controlTransfer(): device is not open.\n"
        else s.fail "In controlTransfer(): device is not open.\n" := by
  have hc' : isOpen (s.fail "In controlTransfer(): device is not open.\n") = false := hc
  unfold writeDescGeneric
  simp only [forRange_zero_one]
  split_ifs with h
  · have r2 : List.range 2 = [0, 1] := rfl
    simp only [r2, List.foldl_cons, List.foldl_nil, writeTable]
    rw [controlTransfer_closed w _ _ _ _ _ _ s hc]
    rw [controlTransfer_closed w _ _ _ _ _ _ _ hc']
  · have r1 : List.range 1 = [0] := rfl
    simp only [r1, List.foldl_cons, List.foldl_nil, writeTable]
    rw [controlTransfer_closed w _ _ _ _ _ _ s hc]

theorem fail_errstr_inj (s : State) (a b : String) (h : (s.fail a).errstr = (s.fail b).errstr) :
    a.data = b.data := by
  have h' := congrArg String.data h
  simp only [State.fail, String.data_append] at h'
  exact List.append_cancel_left h'

/-- No run of `writeDescGeneric` looks like the rejection by a length check: on an open
session a transfer is issued, on a closed one the messages are those of
`controlTransfer`. -/
theorem writeDescGeneric_ne_fail (w : World) (descriptor : List Nat) (command : Nat)
    (s : State) (msg : String)
    (h1 : msg.data ≠ ("In controlTransfer(): device is not open.\n").data)
    (h2 : msg.data ≠ ("In controlTransfer(): device is not open.\n"
      ++ "In controlTransfer(): device is not open.\n").data) :
    writeDescGeneric w descriptor command s ≠ s.fail msg := by
  intro h
  rcases Bool.eq_false_or_eq_true (isOpen s) with ho | ho
  · have ht := congrArg State.trace h
    rw [writeDescGeneric_trace w descriptor command s ho] at ht
    have hl := congrArg List.length ht
    simp only [State.fail, List.length_append, List.length_map, List.length_range] at hl
    split_ifs at hl <;> omega
  · rw [writeDescGeneric_closed w descriptor command s ho] at h
    split_ifs at h
    · have he := congrArg State.errstr h
      have he' := congrArg String.data he
      simp only [State.fail, String.data_append, List.append_assoc] at he'
      exact h2 (by rw [String.data_append]; exact (List.append_cancel_left he').symm)
    · exact h1 (fail_errstr_inj s _ _ (congrArg State.errstr h)).symm

/-- C5: each descriptor writer takes the rejection branch (the state is the input state
with one failure event carrying the writer's own message) if and only if the string is
longer than the field's maximum, 62 for manufacturer and product and 30 for serial; a
rejection raises the counter by one, appends that one newline-terminated message and
issues no transfer; an accepted string is handed to `writeDescGeneric` with the field's
SET command code and no validation error is recorded. -/
theorem descriptor_length_validation (w : World) (descriptor : List Nat) (s : State) :
    (writeManufacturerDesc w descriptor s = s.fail
        "In writeManufacturerDesc(): manufacturer descriptor string cannot be longer than 62 characters.\n"
        ↔ descriptor.length > 62)
      ∧ (writeProductDesc w descriptor s = s.fail
        "In writeProductDesc(): product descriptor string cannot be longer than 62 characters.\n"
        ↔ descriptor.length > 62)
      ∧ (writeSerialDesc w descriptor s = s.fail
        "In writeSerialDesc(): serial descriptor string cannot be longer than 30 characters.\n"
        ↔ descriptor.length > 30)
      ∧ (∀ msg, (s.fail msg).errcnt = s.errcnt + 1 ∧ (s.fail msg).errstr = s.errstr ++ msg
          ∧ (s.fail msg).trace = s.trace)
      ∧ IsMessage
        "In writeManufacturerDesc(): manufacturer descriptor string cannot be longer than 62 characters.\n"
      ∧ IsMessage
        "In writeProductDesc(): product descriptor string cannot be longer than 62 characters.\n"
      ∧ IsMessage
        "In writeSerialDesc(): serial descriptor string cannot be longer than 30 characters.\n"
      ∧ (descriptor.length ≤ 62 → writeManufacturerDesc w descriptor s
          = writeDescGeneric w descriptor SET_MANUFACTURING_STRING_1 s)
      ∧ (descriptor.length ≤ 62 → writeProductDesc w descriptor s
          = writeDescGeneric w descriptor SET_PRODUCT_STRING_1 s)
      ∧ (descriptor.length ≤ 30 → writeSerialDesc w descriptor s
          = writeDescGeneric w descriptor SET_SERIAL_STRING s) := by
  refine ⟨?_, ?_, ?_, fun msg => ⟨rfl, rfl, rfl⟩, by decide, by decide, by decide, ?_, ?_, ?_⟩
  · simp only [writeManufacturerDesc, DESCMXL_MANUFACTURER]
    constructor
    · intro h
      by_contra hn
      rw [if_neg hn] at h
      exact writeDescGeneric_ne_fail w descriptor _ s _ (by decide) (by decide) h
    · intro h; rw [if_pos h]
  · simp only [writeProductDesc, DESCMXL_PRODUCT]
    constructor
    · intro h
      by_contra hn
      rw [if_neg hn] at h
      exact writeDescGeneric_ne_fail w descriptor _ s _ (by decide) (by decide) h
    · intro h; rw [if_pos h]
  · simp only [writeSerialDesc, DESCMXL_SERIAL]
    constructor
    · intro h
      by_contra hn
      rw [if_neg hn] at h
      exact writeDescGeneric_ne_fail w descriptor _ s _ (by decide) (by decide) h
    · intro h; rw [if_pos h]
  · intro h; simp only [writeManufacturerDesc, DESCMXL_MANUFACTURER]; rw [if_neg (by omega)]
  · intro h; simp only [writeProductDesc, DESCMXL_PRODUCT]; rw [if_neg (by omega)]
  · intro h; simp only [writeSerialDesc, DESCMXL_SERIAL]; rw [if_neg (by omega)]


/-! ## The copy loops and the command frames -/

theorem copyLoop_eq (off n : Nat) (src : Nat → Nat) (dst : List Nat) :
    copyLoop off n src dst
      = ((List.range n).map (fun i => off + i)).foldl
          (fun buf j => buf.set j (src (j - off))) dst := by
  unfold copyLoop
  rw [forRange_zero_one, List.foldl_map]
  simp

theorem copyLoop_length (off n : Nat) (src : Nat → Nat) (dst : List Nat) :
    (copyLoop off n src dst).length = dst.length := by
  rw [copyLoop_eq, foldl_set_length]

theorem copyLoop_getD (off n : Nat) (src : Nat → Nat) (dst : List Nat) (k : Nat) :
    (copyLoop off n src dst).getD k 0
      = if (off ≤ k ∧ k < off + n) ∧ k < dst.length then src (k - off) else dst.getD k 0 := by
  rw [copyLoop_eq, foldl_set_getD]
  have : k ∈ (List.range n).map (fun i => off + i) ↔ off ≤ k ∧ k < off + n := by
    simp only [List.mem_map, List.mem_range]
    constructor
    · rintro ⟨i, hi, rfl⟩; omega
    · rintro ⟨h1, h2⟩; exact ⟨k - off, by omega, by omega⟩
  simp only [this]

theorem list_ext_getD (a b : List Nat) (hl : a.length = b.length)
    (h : ∀ k < a.length, a.getD k 0 = b.getD k 0) : a = b := by
  apply List.ext_getElem hl
  intro n h1 h2
  have := h n h1
  rwa [List.getD_eq_getElem _ _ h1, List.getD_eq_getElem _ _ h2] at this

theorem getD_append_left (a b : List Nat) (k : Nat) (h : k < a.length) :
    (a ++ b).getD k 0 = a.getD k 0 := by
  simp [List.getD_eq_getElem?_getD, List.getElem?_append_left h]

theorem getD_append_right (a b : List Nat) (k : Nat) (h : a.length ≤ k) :
    (a ++ b).getD k 0 = b.getD (k - a.length) 0 := by
  simp [List.getD_eq_getElem?_getD, List.getElem?_append_right h]

theorem getD_drop_take (l : List Nat) (a n k : Nat) (h : k < n) :
    ((l.drop a).take n).getD k 0 = l.getD (a + k) 0 := by
  simp [List.getD_eq_getElem?_getD, List.getElem?_take, h, List.getElem?_drop]

theorem toInt32_small (n : Nat) (h : n < 2 ^ 31) : toInt32 n = (n : Int) := by
  unfold toInt32
  have h1 : n % 2 ^ 32 = n := Nat.mod_eq_of_lt (by omega)
  rw [h1, if_pos h]

/-- The command buffer of a WRITE or WRITEREAD command after the payload was copied. -/
theorem frame_eq (opcode : Nat) (data : List Nat) (bp p : Nat) (hp : bp + p ≤ data.length)
    (hs : p + 8 < 2 ^ 31) :
    copyLoop 8 p (fun i => data.getD (bp + i) 0)
        (commandHeader opcode p ++ List.replicate ((toInt32 (p + 8)).toNat - 8) 0)
      = commandHeader opcode p ++ (data.drop bp).take p := by
  have hr : (toInt32 (p + 8)).toNat - 8 = p := by
    rw [toInt32_small _ hs, Int.toNat_ofNat]; omega
  have hh : (commandHeader opcode p).length = 8 := rfl
  rw [hr]
  apply list_ext_getD
  · simp [copyLoop_length, hh]; omega
  · intro k hk
    simp only [copyLoop_length, List.length_append, hh, List.length_replicate] at hk
    rw [copyLoop_getD]
    simp only [List.length_append, hh, List.length_replicate]
    by_cases h8 : k < 8
    · rw [if_neg (by omega), getD_append_left _ _ _ (by rw [hh]; exact h8),
        getD_append_left _ _ _ (by rw [hh]; exact h8)]
    · rw [if_pos (by omega), getD_append_right _ _ _ (by rw [hh]; omega), hh,
        getD_drop_take _ _ _ _ (by omega)]


/-! ## The loop of `spiWriteRead` -/

theorem Advances.errcnt_le {a b : State} (h : Advances a b) : a.errcnt ≤ b.errcnt := by
  obtain ⟨_, _, _, ⟨msgs, _, _, hc⟩, _⟩ := h
  rw [hc]; omega

theorem bulkTransfer_open (w : World) (a : Nat) (data : List Nat) (n : Int) (tr : Option Int)
    (s : State) (ho : isOpen s = true) :
    (bulkTransfer w a data n tr s).2.2.trace = s.trace ++ [UsbCall.bulk a data n tr.isSome]
      ∧ isOpen (bulkTransfer w a data n tr s).2.2 = true := by
  simp only [bulkTransfer, ho, not_true_eq_false, if_false]
  split_ifs <;> exact ⟨rfl, ho⟩

/-- The chunk length of an iteration that starts with bytes left. -/
theorem payload_eq (n bp : Nat) (h : bp < n) :
    (if n - bp > 56 then 56 else n - bp) % 2 ^ 32 = min 56 (n - bp)
      ∧ 1 ≤ min 56 (n - bp) ∧ min 56 (n - bp) ≤ 56 ∧ bp + min 56 (n - bp) ≤ n := by
  refine ⟨?_, by omega, by omega, by omega⟩
  split_ifs with h1
  · rw [Nat.min_eq_left (by omega)]; rfl
  · rw [Nat.min_eq_right (by omega)]; exact Nat.mod_eq_of_lt (by omega)

theorem spiWriteReadBody_fst (w : World) (data : List Nat) (a b bp : Nat) (ret : List Nat)
    (s : State) (h : bp < data.length) :
    (spiWriteReadBody w data a b bp ret s).1 = bp + min 56 (data.length - bp) := by
  unfold spiWriteReadBody
  simp only [(payload_eq data.length bp h).1]

theorem spiWriteReadBody_closed (w : World) (data : List Nat) (a b bp : Nat) (ret : List Nat)
    (s : State) (hc : isOpen s = false) :
    (spiWriteReadBody w data a b bp ret s).2.2.errcnt = s.errcnt + 2
      ∧ (spiWriteReadBody w data a b bp ret s).2.2.trace = s.trace
      ∧ (spiWriteReadBody w data a b bp ret s).2.1 = ret := by
  have hc' : isOpen (s.fail "In bulkTransfer(): device is not open.\n") = false := hc
  unfold spiWriteReadBody
  simp only [bulkTransfer_closed w _ _ _ _ s hc, bulkTransfer_closed w _ _ _ _ _ hc']
  refine ⟨by simp only [State.fail]; omega, rfl, ?_⟩
  simp [copyLoop, forRange]

theorem spiWriteReadBody_open (w : World) (data : List Nat) (a b bp : Nat) (ret : List Nat)
    (s : State) (h : bp < data.length) (ho : isOpen s = true) :
    ∃ buf wc,
      (spiWriteReadBody w data a b bp ret s).2.2.trace
        = s.trace ++ [UsbCall.bulk b (commandHeader WRITEREAD (min 56 (data.length - bp))
              ++ (data.drop bp).take (min 56 (data.length - bp)))
            ((min 56 (data.length - bp) + 8 : Nat) : Int) wc,
          UsbCall.bulk a buf ((min 56 (data.length - bp) : Nat) : Int) true]
      ∧ isOpen (spiWriteReadBody w data a b bp ret s).2.2 = true := by
  obtain ⟨hp, hp1, hp56, hpn⟩ := payload_eq data.length bp h
  unfold spiWriteReadBody
  simp only [hp]
  rw [frame_eq WRITEREAD data bp _ hpn (by omega), toInt32_small _ (by omega),
    toInt32_small _ (by omega)]
  have h1 := bulkTransfer_open w b (commandHeader WRITEREAD (min 56 (data.length - bp))
      ++ (data.drop bp).take (min 56 (data.length - bp)))
    ((min 56 (data.length - bp) + 8 : Nat) : Int) (bytesWrittenArg w s) s ho
  have h2 := bulkTransfer_open w a (uninitBuffer w (bulkTransfer w b
      (commandHeader WRITEREAD (min 56 (data.length - bp))
        ++ (data.drop bp).take (min 56 (data.length - bp)))
      ((min 56 (data.length - bp) + 8 : Nat) : Int) (bytesWrittenArg w s) s).2.2
        (min 56 (data.length - bp)))
    ((min 56 (data.length - bp) : Nat) : Int) (some 0) _ h1.2
  refine ⟨uninitBuffer w (bulkTransfer w b
      (commandHeader WRITEREAD (min 56 (data.length - bp))
        ++ (data.drop bp).take (min 56 (data.length - bp)))
      ((min 56 (data.length - bp) + 8 : Nat) : Int) (bytesWrittenArg w s) s).2.2
        (min 56 (data.length - bp)), (bytesWrittenArg w s).isSome, ?_, h2.2⟩
  rw [h2.1, h1.1, List.append_assoc]
  rfl

theorem spiWriteReadLoop_stop (w : World) (data : List Nat) (a b : Nat) (prev : Int)
    (fuel bp : Nat) (ret : List Nat) (s : State)
    (h : ¬ (bp < data.length ∧ prev = s.errcnt)) :
    spiWriteReadLoop w data a b prev fuel bp ret s = (ret, s) := by
  cases fuel with
  | zero => rfl
  | succ n => rw [spiWriteReadLoop, if_neg h]

theorem spiWriteReadLoop_step (w : World) (data : List Nat) (a b : Nat) (prev : Int)
    (fuel bp : Nat) (ret : List Nat) (s : State)
    (h : bp < data.length ∧ prev = s.errcnt) :
    spiWriteReadLoop w data a b prev (fuel + 1) bp ret s
      = spiWriteReadLoop w data a b prev fuel (spiWriteReadBody w data a b bp ret s).1
          (spiWriteReadBody w data a b bp ret s).2.1 (spiWriteReadBody w data a b bp ret s).2.2 := by
  rw [spiWriteReadLoop, if_pos h]

/-- The bound on the iterations is never what stops the loop of `spiWriteRead`: one more
allowed iteration gives the same result. -/
theorem spiWriteReadLoop_fuel_succ (w : World) (data : List Nat) (a b : Nat) (prev : Int)
    (fuel : Nat) : ∀ (bp : Nat) (ret : List Nat) (s : State), data.length - bp ≤ fuel →
      spiWriteReadLoop w data a b prev (fuel + 1) bp ret s
        = spiWriteReadLoop w data a b prev fuel bp ret s := by
  induction fuel with
  | zero =>
    intro bp ret s hf
    rw [spiWriteReadLoop_stop w data a b prev 1 bp ret s (fun h => by omega)]
    rfl
  | succ n ih =>
    intro bp ret s hf
    by_cases hc : bp < data.length ∧ prev = s.errcnt
    · rw [spiWriteReadLoop_step w data a b prev (n + 1) bp ret s hc,
        spiWriteReadLoop_step w data a b prev n bp ret s hc]
      apply ih
      rw [spiWriteReadBody_fst w data a b bp ret s hc.1]
      omega
    · rw [spiWriteReadLoop_stop w data a b prev _ bp ret s hc,
        spiWriteReadLoop_stop w data a b prev _ bp ret s hc]

/-- Any bound of at least `data.length` iterations gives the result of `spiWriteRead`. -/
theorem spiWriteReadLoop_fuel (w : World) (data : List Nat) (a b : Nat) (s : State)
    (extra : Nat) :
    spiWriteReadLoop w data a b s.errcnt (data.length + extra) 0 [] s
      = spiWriteRead w data a b s := by
  induction extra with
  | zero => rfl
  | succ n ih =>
    rw [← ih]
    exact spiWriteReadLoop_fuel_succ w data a b s.errcnt (data.length + n) 0 [] s (by omega)

theorem alternating_cons (a b : Nat) (frame buf : List Nat) (n1 n2 : Int) (wc : Bool)
    (rest : List UsbCall) (hf : frame.take 4 = [0x00, 0x00, WRITEREAD, 0x00])
    (hr : Alternating a b rest) :
    Alternating a b (UsbCall.bulk b frame n1 wc :: UsbCall.bulk a buf n2 true :: rest) :=
  ⟨rfl, hf, rfl, rfl, hr⟩

/-- Without a recorded error the loop issues an OUT frame and an IN read per chunk. -/
theorem spiWriteReadLoop_trace (w : World) (data : List Nat) (a b : Nat) (prev : Int)
    (fuel : Nat) : ∀ (bp : Nat) (ret : List Nat) (s : State),
      data.length - bp ≤ fuel → s.errcnt = prev →
      (spiWriteReadLoop w data a b prev fuel bp ret s).2.errcnt = prev →
      ∃ calls, (spiWriteReadLoop w data a b prev fuel bp ret s).2.trace = s.trace ++ calls
        ∧ calls.length = 2 * ((data.length - bp + 55) / 56) ∧ Alternating a b calls := by
  induction fuel with
  | zero =>
    intro bp ret s hf _ _
    refine ⟨[], by simp [spiWriteReadLoop], ?_, trivial⟩
    have : data.length - bp = 0 := by omega
    rw [this]; rfl
  | succ n ih =>
    intro bp ret s hf hs hfin
    by_cases hbp : bp < data.length
    · rw [spiWriteReadLoop_step w data a b prev n bp ret s ⟨hbp, hs.symm⟩] at hfin ⊢
      have hmono1 := (Advances.spiWriteReadBody w data a b bp ret s).errcnt_le
      have hmono2 := (Advances.spiWriteReadLoop w data a b prev n
        (spiWriteReadBody w data a b bp ret s).1 (spiWriteReadBody w data a b bp ret s).2.1
        (spiWriteReadBody w data a b bp ret s).2.2).errcnt_le
      have hbody : (spiWriteReadBody w data a b bp ret s).2.2.errcnt = prev := by omega
      have ho : isOpen s = true := by
        rcases Bool.eq_false_or_eq_true (isOpen s) with h | h
        · exact h
        · have := (spiWriteReadBody_closed w data a b bp ret s h).1
          omega
      obtain ⟨buf, wc, htr, _⟩ := spiWriteReadBody_open w data a b bp ret s hbp ho
      have hfst := spiWriteReadBody_fst w data a b bp ret s hbp
      obtain ⟨calls, hc1, hc2, hc3⟩ := ih _ _ _ (by rw [hfst]; omega) hbody hfin
      refine ⟨UsbCall.bulk b (commandHeader WRITEREAD (min 56 (data.length - bp))
              ++ (data.drop bp).take (min 56 (data.length - bp)))
            ((min 56 (data.length - bp) + 8 : Nat) : Int) wc
          :: UsbCall.bulk a buf ((min 56 (data.length - bp) : Nat) : Int) true :: calls,
        ?_, ?_, alternating_cons a b _ buf _ _ wc calls (by simp [commandHeader]) hc3⟩
      · rw [hc1, htr]; simp
      · rw [hfst] at hc2
        simp only [List.length_cons, hc2]
        omega
    · rw [spiWriteReadLoop_stop w data a b prev _ bp ret s (fun h => hbp h.1)]
      refine ⟨[], by simp, ?_, trivial⟩
      have : data.length - bp = 0 := by omega
      rw [this]; rfl

/-- C2: if no bulk transfer of a run of `spiWriteRead` on an `N`-byte buffer records an
error (the counter is the same after the call), the run issues exactly `2 * ceil(N / 56)`
transfers, in pairs: a WRITEREAD command frame on the OUT endpoint, then a read on the
IN endpoint. -/
theorem spiWriteRead_chunk_count (w : World) (data : List Nat)
    (endpointInAddr endpointOutAddr : Nat) (s : State)
    (hok : (spiWriteRead w data endpointInAddr endpointOutAddr s).2.errcnt = s.errcnt) :
    ∃ calls, (spiWriteRead w data endpointInAddr endpointOutAddr s).2.trace = s.trace ++ calls
      ∧ calls.length = 2 * ((data.length + 55) / 56)
      ∧ Alternating endpointInAddr endpointOutAddr calls :=
  spiWriteReadLoop_trace w data endpointInAddr endpointOutAddr s.errcnt data.length 0 [] s
    (by omega) rfl hok

theorem spiWriteRead_chunk_count_witness :
    ∃ calls, (spiWriteRead echoWorld (List.range 120) 0x81 0x01 State.opened).2.trace
        = State.opened.trace ++ calls
      ∧ calls.length = 2 * (((List.range 120).length + 55) / 56)
      ∧ Alternating 0x81 0x01 calls :=
  spiWriteRead_chunk_count echoWorld (List.range 120) 0x81 0x01 State.opened (by decide)


theorem spiWriteReadIter_succ (w : World) (data : List Nat) (a b : Nat) (s : State) (k : Nat) :
    spiWriteReadIter w data a b s (k + 1)
      = spiWriteReadBody w data a b (spiWriteReadIter w data a b s k).1
          (spiWriteReadIter w data a b s k).2.1 (spiWriteReadIter w data a b s k).2.2 := rfl

theorem spiWriteReadBody_fst_le (w : World) (data : List Nat) (a b bp : Nat) (ret : List Nat)
    (s : State) : bp ≤ (spiWriteReadBody w data a b bp ret s).1 := by
  unfold spiWriteReadBody
  simp

/-- The error counter never falls below its initial value along the iterations. -/
theorem spiWriteReadIter_errcnt_ge (w : World) (data : List Nat) (a b : Nat) (s : State)
    (k : Nat) : s.errcnt ≤ (spiWriteReadIter w data a b s k).2.2.errcnt := by
  induction k with
  | zero => exact le_refl _
  | succ k ih =>
    rw [spiWriteReadIter_succ]
    exact le_trans ih (Advances.spiWriteReadBody w data a b _ _ _).errcnt_le

/-- The processed-byte counter and the error counter never decrease along the
iterations. -/
theorem spiWriteReadIter_mono (w : World) (data : List Nat) (a b : Nat) (s : State)
    (j d : Nat) :
    (spiWriteReadIter w data a b s j).1 ≤ (spiWriteReadIter w data a b s (j + d)).1
      ∧ (spiWriteReadIter w data a b s j).2.2.errcnt
          ≤ (spiWriteReadIter w data a b s (j + d)).2.2.errcnt := by
  induction d with
  | zero => exact ⟨le_refl _, le_refl _⟩
  | succ d ih =>
    have e : j + (d + 1) = (j + d) + 1 := by omega
    rw [e, spiWriteReadIter_succ]
    exact ⟨le_trans ih.1 (spiWriteReadBody_fst_le w data a b _ _ _),
      le_trans ih.2 (Advances.spiWriteReadBody w data a b _ _ _).errcnt_le⟩

/-- While the loop condition holds, the loop runs the iterations one after the other. -/
theorem spiWriteReadLoop_unroll (w : World) (data : List Nat) (a b : Nat) (s : State)
    (k : Nat) : ∀ fuel, k ≤ fuel →
      (∀ j < k, (spiWriteReadIter w data a b s j).1 < data.length
        ∧ (spiWriteReadIter w data a b s j).2.2.errcnt = s.errcnt) →
      spiWriteReadLoop w data a b s.errcnt fuel 0 [] s
        = spiWriteReadLoop w data a b s.errcnt (fuel - k) (spiWriteReadIter w data a b s k).1
            (spiWriteReadIter w data a b s k).2.1 (spiWriteReadIter w data a b s k).2.2 := by
  induction k with
  | zero => intro fuel _ _; rfl
  | succ k ih =>
    intro fuel hf hc
    rw [ih fuel (by omega) (fun j hj => hc j (by omega))]
    have e : fuel - k = (fuel - (k + 1)) + 1 := by omega
    rw [e, spiWriteReadLoop_step _ _ _ _ _ _ _ _ _ ⟨(hc k (by omega)).1, (hc k (by omega)).2.symm⟩]
    rfl

/-- As long as bytes are left, iteration `k` has processed at least `k` bytes. -/
theorem spiWriteReadIter_progress (w : World) (data : List Nat) (a b : Nat) (s : State)
    (k : Nat) (h : ∀ j < k, (spiWriteReadIter w data a b s j).1 < data.length) :
    k ≤ (spiWriteReadIter w data a b s k).1 := by
  induction k with
  | zero => exact Nat.zero_le _
  | succ k ih =>
    have h1 := ih (fun j hj => h j (by omega))
    have h2 := h k (by omega)
    rw [spiWriteReadIter_succ, spiWriteReadBody_fst _ _ _ _ _ _ _ h2]
    omega

/-- C4: if the loop of `spiWriteRead` reaches iteration `k + 1` (bytes are left and no
error has been recorded after `k` iterations) and a bulk transfer of that iteration
raises the error counter, the call returns with the result and the state of that very
iteration: no transfer of a later iteration is issued, whatever number of bytes remains. -/
theorem spiWriteRead_early_abort (w : World) (data : List Nat)
    (endpointInAddr endpointOutAddr : Nat) (s : State) (k : Nat)
    (hleft : (spiWriteReadIter w data endpointInAddr endpointOutAddr s k).1 < data.length)
    (hclean : (spiWriteReadIter w data endpointInAddr endpointOutAddr s k).2.2.errcnt = s.errcnt)
    (herr : (spiWriteReadIter w data endpointInAddr endpointOutAddr s (k + 1)).2.2.errcnt
      ≠ s.errcnt) :
    spiWriteRead w data endpointInAddr endpointOutAddr s
      = ((spiWriteReadIter w data endpointInAddr endpointOutAddr s (k + 1)).2.1,
          (spiWriteReadIter w data endpointInAddr endpointOutAddr s (k + 1)).2.2) := by
  have hc : ∀ j < k + 1, (spiWriteReadIter w data endpointInAddr endpointOutAddr s j).1
      < data.length
      ∧ (spiWriteReadIter w data endpointInAddr endpointOutAddr s j).2.2.errcnt = s.errcnt := by
    intro j hj
    have hm := spiWriteReadIter_mono w data endpointInAddr endpointOutAddr s j (k - j)
    have hg := spiWriteReadIter_errcnt_ge w data endpointInAddr endpointOutAddr s j
    have e : j + (k - j) = k := by omega
    rw [e] at hm
    exact ⟨lt_of_le_of_lt hm.1 hleft, by omega⟩
  have hk : k + 1 ≤ data.length := by
    have := spiWriteReadIter_progress w data endpointInAddr endpointOutAddr s k
      (fun j hj => (hc j (by omega)).1)
    omega
  unfold spiWriteRead
  rw [spiWriteReadLoop_unroll w data endpointInAddr endpointOutAddr s (k + 1) data.length hk hc]
  exact spiWriteReadLoop_stop _ _ _ _ _ _ _ _ _ (fun h => herr h.2.symm)

theorem spiWriteRead_early_abort_witness :
    spiWriteRead timeoutWorld (List.range 100) 0x81 0x01 State.opened
      = ((spiWriteReadIter timeoutWorld (List.range 100) 0x81 0x01 State.opened (0 + 1)).2.1,
          (spiWriteReadIter timeoutWorld (List.range 100) 0x81 0x01 State.opened (0 + 1)).2.2) :=
  spiWriteRead_early_abort timeoutWorld (List.range 100) 0x81 0x01 State.opened 0
    (by decide) (by decide) (by decide)


theorem bulkTransfer_fst_in (w : World) (a : Nat) (data : List Nat) (n : Int) (tr : Option Int)
    (s : State) (ho : isOpen s = true) (ha : a &&& 0x80 ≠ 0) :
    (bulkTransfer w a data n tr s).1
      = received data (min (w.reply s.trace (UsbCall.bulk a data n tr.isSome)).transferred
          n.toNat) (w.reply s.trace (UsbCall.bulk a data n tr.isSome)).data := by
  simp only [bulkTransfer, ho, not_true_eq_false, if_false, if_pos ha]
  split_ifs <;> rfl

theorem getD_take (l : List Nat) (n k : Nat) (h : k < n) : (l.take n).getD k 0 = l.getD k 0 := by
  simp [List.getD_eq_getElem?_getD, List.getElem?_take, h]

theorem getD_byte_lt (data : List Nat) (hb : ∀ x ∈ data, x < 256) (k : Nat) :
    data.getD k 0 < 256 := by
  rw [List.getD_eq_getElem?_getD]
  rcases Nat.lt_or_ge k data.length with h | h
  · rw [List.getElem?_eq_getElem h]
    exact hb _ (List.getElem_mem h)
  · rw [List.getElem?_eq_none h]; decide

/-- One iteration of `spiWriteRead` against a device that echoes what it is sent. -/
theorem spiWriteReadBody_echo (w : World) (data : List Nat) (a b bp : Nat) (s : State)
    (hbp : bp < data.length) (ho : isOpen s = true) (ha : a &&& 0x80 ≠ 0)
    (hbytes : ∀ x ∈ data, x < 256)
    (hout : ∀ hist frame len wc,
      (w.reply hist (UsbCall.bulk b frame len wc)).result = 0
        ∧ len.toNat ≤ (w.reply hist (UsbCall.bulk b frame len wc)).transferred)
    (hecho : ∀ hist frame len wc buf len2,
      (w.reply (hist ++ [UsbCall.bulk b frame len wc]) (UsbCall.bulk a buf len2 true)).result = 0
        ∧ (w.reply (hist ++ [UsbCall.bulk b frame len wc])
            (UsbCall.bulk a buf len2 true)).transferred = frame.length - 8
        ∧ ∀ i, (w.reply (hist ++ [UsbCall.bulk b frame len wc])
            (UsbCall.bulk a buf len2 true)).data i = frame.getD (8 + i) 0) :
    (spiWriteReadBody w data a b bp (data.take bp) s).2.1
        = data.take (bp + min 56 (data.length - bp))
      ∧ isOpen (spiWriteReadBody w data a b bp (data.take bp) s).2.2 = true
      ∧ (spiWriteReadBody w data a b bp (data.take bp) s).2.2.errcnt = s.errcnt := by
  obtain ⟨hp, hp1, hp56, hpn⟩ := payload_eq data.length bp hbp
  unfold spiWriteReadBody
  simp only [hp]
  rw [frame_eq WRITEREAD data bp _ hpn (by omega), toInt32_small _ (by omega),
    toInt32_small _ (by omega)]
  generalize hfr : commandHeader WRITEREAD (min 56 (data.length - bp))
    ++ (data.drop bp).take (min 56 (data.length - bp)) = frame
  have hfl : frame.length = 8 + min 56 (data.length - bp) := by
    rw [← hfr]
    simp [commandHeader]
    omega
  -- the OUT transfer succeeds
  have ho1 := hout s.trace frame ((min 56 (data.length - bp) + 8 : Nat) : Int)
    (bytesWrittenArg w s).isSome
  have hs1 := bulkTransfer_ok w b frame ((min 56 (data.length - bp) + 8 : Nat) : Int)
    (bytesWrittenArg w s) s ho ho1.1 (Or.inr (by
      have := ho1.2
      rw [Int.toNat_ofNat] at this ⊢
      rw [Nat.min_eq_right this]))
  rw [hs1]
  -- the IN transfer returns the payload
  generalize hbuf : uninitBuffer w { s with trace := s.trace ++ [UsbCall.bulk b frame
    ((min 56 (data.length - bp) + 8 : Nat) : Int) (bytesWrittenArg w s).isSome] }
      (min 56 (data.length - bp)) = buf
  have hbl : buf.length = min 56 (data.length - bp) := by
    rw [← hbuf]; simp [uninitBuffer]
  have he := hecho s.trace frame ((min 56 (data.length - bp) + 8 : Nat) : Int)
    (bytesWrittenArg w s).isSome buf ((min 56 (data.length - bp) : Nat) : Int)
  have hmoved : min (w.reply (s.trace ++ [UsbCall.bulk b frame
      ((min 56 (data.length - bp) + 8 : Nat) : Int) (bytesWrittenArg w s).isSome])
      (UsbCall.bulk a buf ((min 56 (data.length - bp) : Nat) : Int) true)).transferred
      (((min 56 (data.length - bp) : Nat) : Int)).toNat = min 56 (data.length - bp) := by
    rw [he.2.1, hfl, Int.toNat_ofNat]
    omega
  have ho2 : isOpen { s with trace := s.trace ++ [UsbCall.bulk b frame
    ((min 56 (data.length - bp) + 8 : Nat) : Int) (bytesWrittenArg w s).isSome] } = true := ho
  have hs2 := bulkTransfer_ok w a buf ((min 56 (data.length - bp) : Nat) : Int) (some 0) _ ho2
    he.1 (Or.inr (by dsimp only [Option.isSome_some]; rw [hmoved]))
  have hc2 := bulkTransfer_count w a buf ((min 56 (data.length - bp) : Nat) : Int) (some 0) _ ho2
  have hd2 := bulkTransfer_fst_in w a buf ((min 56 (data.length - bp) : Nat) : Int) (some 0) _
    ho2 ha
  simp only [Option.isSome_some] at hs2 hc2 hd2
  rw [hmoved] at hc2 hd2
  rw [hs2, hc2, hd2]
  refine ⟨?_, ho, rfl⟩
  simp only [Option.map_some', Option.getD_some, Int.toNat_ofNat]
  have htl : (data.take bp).length = bp := by
    rw [List.length_take]; omega
  apply list_ext_getD
  · rw [copyLoop_length, List.length_append, List.length_replicate, htl, List.length_take]
    omega
  · intro k hk
    rw [copyLoop_length, List.length_append, List.length_replicate, htl] at hk
    rw [copyLoop_getD, List.length_append, List.length_replicate, htl,
      getD_take _ _ _ hk]
    by_cases hk1 : k < bp
    · rw [if_neg (by omega), getD_append_left _ _ _ (by omega), getD_take _ _ _ hk1]
    · rw [if_pos (by omega), received_getD _ _ _ _ (by omega) (by omega), he.2.2, ← hfr,
        getD_append_right _ _ _ (by simp [commandHeader])]
      have e : 8 + (k - bp) - (commandHeader WRITEREAD (min 56 (data.length - bp))).length
          = k - bp := by simp [commandHeader]
      rw [e, getD_drop_take _ _ _ _ (by omega)]
      have e2 : bp + (k - bp) = k := by omega
      rw [e2]
      exact Nat.mod_eq_of_lt (getD_byte_lt data hbytes k)


/-- The loop of `spiWriteRead` against a device that echoes what it is sent. -/
theorem spiWriteReadLoop_echo (w : World) (data : List Nat) (a b : Nat) (prev : Int)
    (ha : a &&& 0x80 ≠ 0) (hbytes : ∀ x ∈ data, x < 256)
    (hout : ∀ hist frame len wc,
      (w.reply hist (UsbCall.bulk b frame len wc)).result = 0
        ∧ len.toNat ≤ (w.reply hist (UsbCall.bulk b frame len wc)).transferred)
    (hecho : ∀ hist frame len wc buf len2,
      (w.reply (hist ++ [UsbCall.bulk b frame len wc]) (UsbCall.bulk a buf len2 true)).result = 0
        ∧ (w.reply (hist ++ [UsbCall.bulk b frame len wc])
            (UsbCall.bulk a buf len2 true)).transferred = frame.length - 8
        ∧ ∀ i, (w.reply (hist ++ [UsbCall.bulk b frame len wc])
            (UsbCall.bulk a buf len2 true)).data i = frame.getD (8 + i) 0)
    (fuel : Nat) : ∀ (bp : Nat) (s : State), data.length - bp ≤ fuel → bp ≤ data.length →
      isOpen s = true → s.errcnt = prev →
      (spiWriteReadLoop w data a b prev fuel bp (data.take bp) s).1 = data := by
  induction fuel with
  | zero =>
    intro bp s hf hle _ _
    have : bp = data.length := by omega
    subst this
    simp [spiWriteReadLoop]
  | succ n ih =>
    intro bp s hf hle ho hs
    by_cases hbp : bp < data.length
    · rw [spiWriteReadLoop_step w data a b prev n bp _ s ⟨hbp, hs.symm⟩]
      obtain ⟨h1, h2, h3⟩ := spiWriteReadBody_echo w data a b bp s hbp ho ha hbytes hout hecho
      have hfst := spiWriteReadBody_fst w data a b bp (data.take bp) s hbp
      rw [h1, hfst]
      exact ih _ _ (by omega) (by omega) h2 (by rw [h3, hs])
    · have : bp = data.length := by omega
      subst this
      rw [spiWriteReadLoop_stop w data a b prev _ _ _ s (fun h => hbp h.1)]
      simp

/-- C3: on an open session, with an IN endpoint address (bit 7 set) and a buffer of
bytes, if the device accepts every OUT frame whole and answers every IN read with
exactly the payload bytes of the frame sent just before it, `spiWriteRead` returns the
buffer: same bytes, same order, same length. -/
theorem spiWriteRead_echo (w : World) (data : List Nat) (endpointInAddr endpointOutAddr : Nat)
    (s : State) (ho : isOpen s = true) (hin : endpointInAddr &&& 0x80 ≠ 0)
    (hbytes : ∀ x ∈ data, x < 256)
    (hout : ∀ hist frame len wc,
      (w.reply hist (UsbCall.bulk endpointOutAddr frame len wc)).result = 0
        ∧ len.toNat ≤ (w.reply hist (UsbCall.bulk endpointOutAddr frame len wc)).transferred)
    (hecho : ∀ hist frame len wc buf len2,
      (w.reply (hist ++ [UsbCall.bulk endpointOutAddr frame len wc])
          (UsbCall.bulk endpointInAddr buf len2 true)).result = 0
        ∧ (w.reply (hist ++ [UsbCall.bulk endpointOutAddr frame len wc])
            (UsbCall.bulk endpointInAddr buf len2 true)).transferred = frame.length - 8
        ∧ ∀ i, (w.reply (hist ++ [UsbCall.bulk endpointOutAddr frame len wc])
            (UsbCall.bulk endpointInAddr buf len2 true)).data i = frame.getD (8 + i) 0) :
    (spiWriteRead w data endpointInAddr endpointOutAddr s).1 = data :=
  spiWriteReadLoop_echo w data endpointInAddr endpointOutAddr s.errcnt hin hbytes hout hecho
    data.length 0 s (by omega) (Nat.zero_le _) ho rfl

theorem spiWriteRead_echo_witness :
    (spiWriteRead echoWorld (List.range 120) 0x81 0x01 State.opened).1 = List.range 120 :=
  spiWriteRead_echo echoWorld (List.range 120) 0x81 0x01 State.opened rfl (by decide)
    (by decide)
    (fun hist frame len wc => by
      simp [echoWorld])
    (fun hist frame len wc buf len2 => by
      simp [echoWorld])


/-! ## The disconnected flag -/

theorem bulkTransfer_flag_ok (w : World) (a : Nat) (data : List Nat) (n : Int)
    (tr : Option Int) (s : State) (h : isOpen s = true)
    (hr : (w.reply s.trace (UsbCall.bulk a data n tr.isSome)).result = 0) :
    (bulkTransfer w a data n tr s).2.2.disconnected_ = s.disconnected_ := by
  simp only [bulkTransfer, h, not_true_eq_false, if_false]
  have h1 : ¬ ((w.reply s.trace (UsbCall.bulk a data n tr.isSome)).result = LIBUSB_ERROR_NO_DEVICE
      ∨ (w.reply s.trace (UsbCall.bulk a data n tr.isSome)).result = LIBUSB_ERROR_IO) := by
    rw [hr]; decide
  rw [if_neg h1]
  split_ifs <;> rfl

/-- C8: `controlTransfer` sets the disconnected flag exactly when the session is open
and the result is no-device, I/O error or pipe; `bulkTransfer` exactly when the session
is open and the result is no-device or I/O error, a stall on a bulk transfer leaving the
flag alone; in every other case (a short transfer, a timeout, a closed session) the flag
keeps its value while a failing call still raises the error counter by one. -/
theorem disconnected_flag_classification (w : World) (s : State)
    (bmRequestType bRequest wValue wIndex : Nat) (cdata : List Nat) (wLength : Nat)
    (endpointAddr : Nat) (bdata : List Nat) (length : Int) (transferred : Option Int) :
    let rc := (w.reply s.trace
      (UsbCall.control bmRequestType bRequest wValue wIndex cdata wLength)).result
    let sc := (controlTransfer w bmRequestType bRequest wValue wIndex cdata wLength s).2
    let rb := w.reply s.trace (UsbCall.bulk endpointAddr bdata length transferred.isSome)
    let sb := (bulkTransfer w endpointAddr bdata length transferred s).2.2
    let fatalControl := isOpen s = true
      ∧ (rc = LIBUSB_ERROR_NO_DEVICE ∨ rc = LIBUSB_ERROR_IO ∨ rc = LIBUSB_ERROR_PIPE)
    let fatalBulk := isOpen s = true
      ∧ (rb.result = LIBUSB_ERROR_NO_DEVICE ∨ rb.result = LIBUSB_ERROR_IO)
    (fatalControl → sc.disconnected_ = true)
      ∧ (¬ fatalControl → sc.disconnected_ = s.disconnected_)
      ∧ (fatalBulk → sb.disconnected_ = true)
      ∧ (¬ fatalBulk → sb.disconnected_ = s.disconnected_)
      ∧ (isOpen s = true → rb.result = LIBUSB_ERROR_PIPE →
          sb.disconnected_ = s.disconnected_ ∧ sb.errcnt = s.errcnt + 1)
      ∧ (¬ fatalControl → (isOpen s = false ∨ rc ≠ (wLength : Int)) →
          sc.errcnt = s.errcnt + 1)
      ∧ (¬ fatalBulk → (isOpen s = false ∨ rb.result ≠ 0
            ∨ (transferred.isSome = true
                ∧ ((min rb.transferred length.toNat : Nat) : Int) ≠ length)) →
          sb.errcnt = s.errcnt + 1) := by
  dsimp only
  rcases Bool.eq_false_or_eq_true (isOpen s) with ho | ho
  · -- open session
    have hcontrol : ∀ r : Int, (r = LIBUSB_ERROR_NO_DEVICE ∨ r = LIBUSB_ERROR_IO
        ∨ r = LIBUSB_ERROR_PIPE) → r ≠ (wLength : Int) := by
      intro r hr
      have h0 : (0 : Int) ≤ wLength := Int.ofNat_nonneg _
      rcases hr with h | h | h <;> rw [h] <;>
        simp only [LIBUSB_ERROR_NO_DEVICE, LIBUSB_ERROR_IO, LIBUSB_ERROR_PIPE] <;> omega
    have hbulk : ∀ r : Int, (r = LIBUSB_ERROR_NO_DEVICE ∨ r = LIBUSB_ERROR_IO) → r ≠ 0 := by
      intro r hr
      rcases hr with h | h <;> rw [h] <;> decide
    refine ⟨?_, ?_, ?_, ?_, ?_, ?_, ?_⟩
    · rintro ⟨_, hf⟩
      rw [controlTransfer_err w _ _ _ _ _ _ s ho (hcontrol _ hf)]
      simp [hf]
    · intro hf
      have hf' : ¬ ((w.reply s.trace (UsbCall.control bmRequestType bRequest wValue wIndex cdata
          wLength)).result = LIBUSB_ERROR_NO_DEVICE
          ∨ (w.reply s.trace (UsbCall.control bmRequestType bRequest wValue wIndex cdata
            wLength)).result = LIBUSB_ERROR_IO
          ∨ (w.reply s.trace (UsbCall.control bmRequestType bRequest wValue wIndex cdata
            wLength)).result = LIBUSB_ERROR_PIPE) := fun h => hf ⟨ho, h⟩
      by_cases hr : (w.reply s.trace (UsbCall.control bmRequestType bRequest wValue wIndex cdata
          wLength)).result = (wLength : Int)
      · rw [controlTransfer_ok w _ _ _ _ _ _ s ho hr]
      · rw [controlTransfer_err w _ _ _ _ _ _ s ho hr]
        simp [hf']
    · rintro ⟨_, hf⟩
      rw [bulkTransfer_err w _ _ _ _ s ho (Or.inl (hbulk _ hf))]
      simp [hf]
    · intro hf
      have hf' : ¬ ((w.reply s.trace (UsbCall.bulk endpointAddr bdata length
          transferred.isSome)).result = LIBUSB_ERROR_NO_DEVICE
          ∨ (w.reply s.trace (UsbCall.bulk endpointAddr bdata length
            transferred.isSome)).result = LIBUSB_ERROR_IO) := fun h => hf ⟨ho, h⟩
      by_cases hr : (w.reply s.trace (UsbCall.bulk endpointAddr bdata length
          transferred.isSome)).result = 0
      · exact bulkTransfer_flag_ok w _ _ _ _ s ho hr
      · rw [bulkTransfer_err w _ _ _ _ s ho (Or.inl hr)]
        simp [hf']
    · intro _ hp
      rw [bulkTransfer_err w _ _ _ _ s ho (Or.inl (by rw [hp]; decide))]
      simp [hp, LIBUSB_ERROR_PIPE, LIBUSB_ERROR_NO_DEVICE, LIBUSB_ERROR_IO]
    · intro _ hf
      rcases hf with h | h
      · rw [ho] at h; cases h
      · rw [controlTransfer_err w _ _ _ _ _ _ s ho h]
    · intro _ hf
      rcases hf with h | h
      · rw [ho] at h; cases h
      · rw [bulkTransfer_err w _ _ _ _ s ho h]
  · -- closed session
    rw [controlTransfer_closed w _ _ _ _ _ _ s ho, bulkTransfer_closed w _ _ _ _ s ho]
    simp [ho, State.fail]

theorem disconnected_sticky_witness :
    (step timeoutWorld Op.close ⟨true, true, false, 0, "", []⟩).disconnected_ = true
      ∨ ∃ env vid pid serial, Op.close = Op.open_ env vid pid serial
          ∧ isOpen ⟨true, true, false, 0, "", []⟩ = false
          ∧ (open_ env vid pid serial ⟨true, true, false, 0, "", []⟩).1 = SUCCESS
          ∧ (step timeoutWorld Op.close ⟨true, true, false, 0, "", []⟩).disconnected_ = false :=
  disconnected_sticky timeoutWorld Op.close ⟨true, true, false, 0, "", []⟩ rfl

/-! ## Null filtering of the decoder -/

theorem received_byte_lt (data : List Nat) (moved : Nat) (src : Nat → Nat)
    (h : ∀ k, data.getD k 0 < 256) (k : Nat) : (received data moved src).getD k 0 < 256 := by
  unfold received
  rw [List.getD_eq_getElem?_getD, List.getElem?_map]
  rcases Nat.lt_or_ge k data.length with hk | hk
  · rw [List.getElem?_range hk]
    simp only [Option.map_some', Option.getD_some]
    split
    · exact Nat.mod_lt _ (by decide)
    · exact h k
  · rw [List.getElem?_eq_none (by simpa using hk)]
    simp

theorem uninitBuffer_byte_lt (w : World) (s : State) (n k : Nat) :
    (uninitBuffer w s n).getD k 0 < 256 := by
  unfold uninitBuffer
  rw [List.getD_eq_getElem?_getD, List.getElem?_map]
  rcases Nat.lt_or_ge k n with hk | hk
  · rw [List.getElem?_range hk]
    simp only [Option.map_some', Option.getD_some]
    exact Nat.mod_lt _ (by decide)
  · rw [List.getElem?_eq_none (by simpa using hk)]
    simp

/-- A control transfer leaves bytes in a buffer of bytes. -/
theorem controlTransfer_byte_lt (w : World) (a b c d : Nat) (data : List Nat) (n : Nat)
    (s : State) (h : ∀ k, data.getD k 0 < 256) (k : Nat) :
    (controlTransfer w a b c d data n s).1.getD k 0 < 256 := by
  unfold controlTransfer
  dsimp only
  split_ifs
  all_goals first | exact h k | exact received_byte_lt _ _ _ h k

theorem unit_or_eq (lo hi : Nat) (hlo : lo < 256) (hhi : hi < 256) :
    (hi <<< 8 ||| lo) % 65536 = lo + 256 * hi := by
  rw [Nat.shiftLeft_eq]
  have h := Nat.mul_add_lt_is_or (i := 8) (b := lo) (by norm_num; exact hlo) hi
  rw [Nat.mul_comm, ← h]
  norm_num
  omega

/-- What a decoding loop appends: the units at the positions whose two bytes are not
both zero, in order. -/
theorem decode_fold_filter (buf : List Nat) (idx : List Nat) (acc : List Nat)
    (hb : ∀ k, buf.getD k 0 < 256) :
    idx.foldl (decodeUnit buf) acc
      = acc ++ (idx.filter (fun i => decide (buf.getD i 0 ≠ 0 ∨ buf.getD (i + 1) 0 ≠ 0))).map
          (unitLE buf) := by
  induction idx generalizing acc with
  | nil => simp
  | cons x xs ih =>
    rw [List.foldl_cons, ih]
    unfold decodeUnit
    by_cases hx : buf.getD x 0 ≠ 0 ∨ buf.getD (x + 1) 0 ≠ 0
    · rw [if_pos hx, List.filter_cons_of_pos (by simpa using hx), List.map_cons,
        unit_or_eq _ _ (hb x) (hb (x + 1)), List.append_assoc]
      rfl
    · rw [if_neg hx, List.filter_cons_of_neg (by simpa using hx)]

theorem unitLE_ne_zero (buf : List Nat) (i : Nat)
    (h : buf.getD i 0 ≠ 0 ∨ buf.getD (i + 1) 0 ≠ 0) : unitLE buf i ≠ 0 := by
  unfold unitLE
  omega

theorem mem_forRange (a b st k : Nat) :
    k ∈ forRange a b st ↔ k < b ∧ a ≤ k ∧ (k - a) % st = 0 := by
  simp [forRange]

theorem firstTable_byte_lt (w : World) (command : Nat) (s : State) (k : Nat) :
    (firstTable w command s).1.getD k 0 < 256 :=
  controlTransfer_byte_lt w _ _ _ _ _ _ s (uninitBuffer_byte_lt w s _) k

theorem secondTable_byte_lt (w : World) (command : Nat) (s : State) (k : Nat) :
    (secondTable w command s).1.getD k 0 < 256 :=
  controlTransfer_byte_lt w _ _ _ _ _ _ _ (firstTable_byte_lt w command s) k

theorem keptUnits_ne_zero (buf : List Nat) (positions : List Nat) :
    ∀ c ∈ keptUnits buf positions, c ≠ 0 := by
  intro c hc
  unfold keptUnits at hc
  rw [List.mem_map] at hc
  obtain ⟨i, hi, rfl⟩ := hc
  rw [List.mem_filter] at hi
  exact unitLE_ne_zero buf i (by simpa using hi.2)

/-- The result of `getDescGeneric` in terms of the tables received. -/
theorem getDescGeneric_fst (w : World) (command : Nat) (s : State) :
    (getDescGeneric w command s).1
      = if (command = GET_MANUFACTURING_STRING_1 ∨ command = GET_PRODUCT_STRING_1)
          ∧ (firstTable w command s).1.getD 0 0 > DESC_MAXIDX then
          keptUnits (firstTable w command s).1
              (forRange 2 (min ((firstTable w command s).1.getD 0 0) DESC_MAXIDX) 2)
            ++ (if (firstTable w command s).1.getD DESC_MAXIDX 0
                  + 256 * (secondTable w command s).1.getD 0 0 ≠ 0
                then [(firstTable w command s).1.getD DESC_MAXIDX 0
                  + 256 * (secondTable w command s).1.getD 0 0] else [])
            ++ keptUnits (secondTable w command s).1
              (forRange 1 ((firstTable w command s).1.getD 0 0 - DESC_IDXINCR) 2)
        else
          keptUnits (firstTable w command s).1
            (forRange 2 (min ((firstTable w command s).1.getD 0 0) DESC_MAXIDX) 2) := by
  have hend : (if (firstTable w command s).1.getD 0 0 > DESC_MAXIDX then DESC_MAXIDX
      else (firstTable w command s).1.getD 0 0)
      = min ((firstTable w command s).1.getD 0 0) DESC_MAXIDX := by
    split_ifs with h
    · exact (Nat.min_eq_right (Nat.le_of_lt h)).symm
    · exact (Nat.min_eq_left (Nat.le_of_not_lt h)).symm
  have h1 := firstTable_byte_lt w command s
  have h2 := secondTable_byte_lt w command s
  unfold secondTable at h2
  unfold firstTable at h1 h2 hend
  unfold getDescGeneric secondTable firstTable keptUnits
  dsimp only
  rw [hend]
  simp only [unit_or_eq _ _ (h1 _) (h2 _), decode_fold_filter _ _ _ h1,
    decode_fold_filter _ _ _ h2, List.nil_append]
  split_ifs <;> simp

/-- C11: whatever the device returns, with a declared length byte of at most 126: the
result of `getDescGeneric` is made of the units of the first table at the positions
2, 4, ... below min(length, 62) whose two bytes are not both zero, then (long form only)
the boundary unit, low byte = byte 62 of the first table and high byte = byte 0 of the
second, exactly when its value is not zero, then the units of the second table at the
positions 1, 3, ... below length - 63 whose two bytes are not both zero; every decoded
position lies inside the 64-byte table; and no element of the result is `0x0000`. -/
theorem null_filtering (w : World) (command : Nat) (s : State)
    (hlen : (firstTable w command s).1.getD 0 0 ≤ 126) :
    (getDescGeneric w command s).1
        = (if (command = GET_MANUFACTURING_STRING_1 ∨ command = GET_PRODUCT_STRING_1)
            ∧ (firstTable w command s).1.getD 0 0 > 62 then
            keptUnits (firstTable w command s).1
                (forRange 2 (min ((firstTable w command s).1.getD 0 0) 62) 2)
              ++ (if (firstTable w command s).1.getD 62 0
                    + 256 * (secondTable w command s).1.getD 0 0 ≠ 0x0000
                  then [(firstTable w command s).1.getD 62 0
                    + 256 * (secondTable w command s).1.getD 0 0] else [])
              ++ keptUnits (secondTable w command s).1
                (forRange 1 ((firstTable w command s).1.getD 0 0 - 63) 2)
          else
            keptUnits (firstTable w command s).1
              (forRange 2 (min ((firstTable w command s).1.getD 0 0) 62) 2))
      ∧ (∀ i ∈ forRange 2 (min ((firstTable w command s).1.getD 0 0) 62) 2,
          2 ≤ i ∧ i + 1 < 64 ∧ i % 2 = 0)
      ∧ (∀ i ∈ forRange 1 ((firstTable w command s).1.getD 0 0 - 63) 2,
          1 ≤ i ∧ i + 1 < 64 ∧ i % 2 = 1)
      ∧ ∀ c ∈ (getDescGeneric w command s).1, c ≠ 0x0000 := by
  refine ⟨getDescGeneric_fst w command s, ?_, ?_, ?_⟩
  · intro i hi
    rw [mem_forRange] at hi
    omega
  · intro i hi
    rw [mem_forRange] at hi
    omega
  · intro c hc
    rw [getDescGeneric_fst] at hc
    split_ifs at hc with h1 h2
    · rw [List.mem_append, List.mem_append] at hc
      rcases hc with (hc | hc) | hc
      · exact keptUnits_ne_zero _ _ c hc
      · rw [List.mem_singleton] at hc
        rw [hc]
        exact h2
      · exact keptUnits_ne_zero _ _ c hc
    · rw [List.append_nil, List.mem_append] at hc
      rcases hc with hc | hc
      · exact keptUnits_ne_zero _ _ c hc
      · exact keptUnits_ne_zero _ _ c hc
    · exact keptUnits_ne_zero _ _ c hc

theorem null_filtering_witness :
    (getDescGeneric (promWorld GET_MANUFACTURING_STRING_1
        [[70, 0x03, 0x41, 0x00, 0x00, 0x00, 0x42, 0x00], [0x00, 0x00, 0x00, 0x43, 0x01]])
        GET_MANUFACTURING_STRING_1 State.opened).1 = [0x0041, 0x0042, 0x0143]
      ∧ ∀ c ∈ (getDescGeneric (promWorld GET_MANUFACTURING_STRING_1
        [[70, 0x03, 0x41, 0x00, 0x00, 0x00, 0x42, 0x00], [0x00, 0x00, 0x00, 0x43, 0x01]])
        GET_MANUFACTURING_STRING_1 State.opened).1, c ≠ 0x0000 :=
  ⟨(null_filtering _ GET_MANUFACTURING_STRING_1 State.opened (by decide)).1.trans (by decide),
    (null_filtering _ GET_MANUFACTURING_STRING_1 State.opened (by decide)).2.2.2⟩

/-! ## The boundary scenario -/

/-- The two transfers of a manufacturer or product write on an open session. -/
theorem writeDescGeneric_two (w : World) (descriptor : List Nat) (command : Nat) (s : State)
    (ho : isOpen s = true)
    (hc : command = SET_MANUFACTURING_STRING_1 ∨ command = SET_PRODUCT_STRING_1) :
    (writeDescGeneric w descriptor command s).trace
      = s.trace ++ [UsbCall.control SET (command % 256) PROM_WRITE_KEY 0x0000
            (sentTable descriptor 0) DESC_TBLSIZE,
          UsbCall.control SET ((command + 2) % 256) PROM_WRITE_KEY 0x0000
            (sentTable descriptor 1) DESC_TBLSIZE] := by
  rw [writeDescGeneric_trace w descriptor command s ho, if_pos hc]
  rfl

/-- The single transfer of any other write on an open session. -/
theorem writeDescGeneric_one (w : World) (descriptor : List Nat) (command : Nat) (s : State)
    (ho : isOpen s = true)
    (hc : ¬ (command = SET_MANUFACTURING_STRING_1 ∨ command = SET_PRODUCT_STRING_1)) :
    (writeDescGeneric w descriptor command s).trace
      = s.trace ++ [UsbCall.control SET (command % 256) PROM_WRITE_KEY 0x0000
            (sentTable descriptor 0) DESC_TBLSIZE] := by
  rw [writeDescGeneric_trace w descriptor command s ho, if_neg hc]
  rfl

/-- C12 (as amended): for a 62-unit string written with the manufacturer SET command on
an open session, exactly two transfers are issued, both table transfers; byte 62 of
table 0 is the low byte of `s[30]` and byte 0 of table 1 its high byte; and if every GET
of table `i` returns the 64 bytes sent for it, `getDescGeneric` returns `s` without its
`0x0000` units, which is `s` exactly when `s` has no `0x0000` unit. -/
theorem boundary_scenario (w : World) (s0 s1 : State) (s : List Nat)
    (hlen : s.length = 62) (hu : ∀ c ∈ s, c < 65536)
    (ho0 : isOpen s0 = true) (ho1 : isOpen s1 = true)
    (hget : ∀ i table,
      (sentTables s0.trace.length
        (writeDescGeneric w s SET_MANUFACTURING_STRING_1 s0).trace)[i]? = some table →
      ∀ hist buf, s1.trace <+: hist →
        (w.reply hist (UsbCall.control GET (GET_MANUFACTURING_STRING_1 + 2 * i) 0 0 buf
          DESC_TBLSIZE)).result = 64
        ∧ 64 ≤ (w.reply hist (UsbCall.control GET (GET_MANUFACTURING_STRING_1 + 2 * i) 0 0 buf
            DESC_TBLSIZE)).transferred
        ∧ ∀ j < 64, (w.reply hist (UsbCall.control GET (GET_MANUFACTURING_STRING_1 + 2 * i) 0 0
            buf DESC_TBLSIZE)).data j = table.getD j 0) :
    ((writeDescGeneric w s SET_MANUFACTURING_STRING_1 s0).trace.drop s0.trace.length).length = 2
      ∧ (sentTables s0.trace.length
          (writeDescGeneric w s SET_MANUFACTURING_STRING_1 s0).trace).length = 2
      ∧ ((sentTables s0.trace.length
          (writeDescGeneric w s SET_MANUFACTURING_STRING_1 s0).trace).getD 0 []).getD 62 0
          = s.getD 30 0 % 256
      ∧ ((sentTables s0.trace.length
          (writeDescGeneric w s SET_MANUFACTURING_STRING_1 s0).trace).getD 1 []).getD 0 0
          = s.getD 30 0 / 256 % 256
      ∧ (getDescGeneric w GET_MANUFACTURING_STRING_1 s1).1 = s.filter (fun c => decide (c ≠ 0))
      ∧ ((getDescGeneric w GET_MANUFACTURING_STRING_1 s1).1 = s ↔ ∀ c ∈ s, c ≠ 0x0000) := by
  have hdec : (getDescGeneric w GET_MANUFACTURING_STRING_1 s1).1
      = s.filter (fun c => decide (c ≠ 0)) :=
    roundtrip_filter w s0 s1 s SET_MANUFACTURING_STRING_1
      (Or.inl ⟨Or.inl rfl, le_of_eq hlen⟩) hu ho0 ho1 hget
  have htab := sentTables_writeDescGeneric w s SET_MANUFACTURING_STRING_1 s0 ho0
  rw [if_pos (Or.inl rfl)] at htab
  have htab2 : sentTables s0.trace.length
      (writeDescGeneric w s SET_MANUFACTURING_STRING_1 s0).trace
      = [sentTable s 0, sentTable s 1] := htab
  refine ⟨?_, ?_, ?_, ?_, hdec, ?_⟩
  · rw [writeDescGeneric_two w s _ s0 ho0 (Or.inl rfl), List.drop_left]
    simp only [List.length_cons, List.length_nil]
  · rw [htab2]
    simp only [List.length_cons, List.length_nil]
  · rw [htab2, List.getD_cons_zero, sentTable_zero_getD, if_pos (by decide)]
    exact descByte_lo0 s _ 30 (by omega)
  · rw [htab2, List.getD_cons_succ, List.getD_cons_zero, sentTable_one_getD,
      if_pos (by decide), descByte_mid_hi s _ (by omega), Nat.shiftRight_eq_div_pow]
  · rw [hdec, List.filter_eq_self]
    simp

theorem boundary_scenario_witness :
    ((sentTables 0 (writeDescGeneric
        (promWorld GET_MANUFACTURING_STRING_1
          ((List.range 2).map (sentTable ((List.range 62).map (fun k => 0x0141 + k)))))
        ((List.range 62).map (fun k => 0x0141 + k)) SET_MANUFACTURING_STRING_1
        State.opened).trace).getD 0 []).getD 62 0 = 0x5f
      ∧ ((sentTables 0 (writeDescGeneric
        (promWorld GET_MANUFACTURING_STRING_1
          ((List.range 2).map (sentTable ((List.range 62).map (fun k => 0x0141 + k)))))
        ((List.range 62).map (fun k => 0x0141 + k)) SET_MANUFACTURING_STRING_1
        State.opened).trace).getD 1 []).getD 0 0 = 0x01
      ∧ (getDescGeneric
        (promWorld GET_MANUFACTURING_STRING_1
          ((List.range 2).map (sentTable ((List.range 62).map (fun k => 0x0141 + k)))))
        GET_MANUFACTURING_STRING_1
        (writeDescGeneric
          (promWorld GET_MANUFACTURING_STRING_1
            ((List.range 2).map (sentTable ((List.range 62).map (fun k => 0x0141 + k)))))
          ((List.range 62).map (fun k => 0x0141 + k)) SET_MANUFACTURING_STRING_1
          State.opened)).1
        = (List.range 62).map (fun k => 0x0141 + k) :=
  have h := boundary_scenario
    (promWorld GET_MANUFACTURING_STRING_1
      ((List.range 2).map (sentTable ((List.range 62).map (fun k => 0x0141 + k)))))
    State.opened
    (writeDescGeneric
      (promWorld GET_MANUFACTURING_STRING_1
        ((List.range 2).map (sentTable ((List.range 62).map (fun k => 0x0141 + k)))))
      ((List.range 62).map (fun k => 0x0141 + k)) SET_MANUFACTURING_STRING_1 State.opened)
    ((List.range 62).map (fun k => 0x0141 + k)) (by decide) (by decide) rfl (by decide)
    (fun i table h hist buf _ => by
      rw [sentTables_writeDescGeneric _ _ _ State.opened rfl] at h
      exact promWorld_reply GET_MANUFACTURING_STRING_1 _ i table h hist buf)
  ⟨h.2.2.1, h.2.2.2.1, h.2.2.2.2.2.mpr (by decide)⟩

/-- C12 (as stated) fails: the 62-unit manufacturer string made of the units
`0x0141 + k`, but with `0x0000` as its 31st unit, is written with two table transfers
that the device returns unchanged, and `getDescGeneric` returns 61 units, the string
without the 31st. -/
theorem boundary_scenario_counterexample :
    ((List.range 62).map (fun k => if k = 30 then 0x0000 else 0x0141 + k)).length = 62
      ∧ (∀ c ∈ (List.range 62).map (fun k => if k = 30 then 0x0000 else 0x0141 + k), c < 65536)
      ∧ (∀ i table,
          (sentTables State.opened.trace.length
            (writeDescGeneric (promWorld GET_MANUFACTURING_STRING_1
              ((List.range 2).map (sentTable
                ((List.range 62).map (fun k => if k = 30 then 0x0000 else 0x0141 + k)))))
              ((List.range 62).map (fun k => if k = 30 then 0x0000 else 0x0141 + k))
              SET_MANUFACTURING_STRING_1 State.opened).trace)[i]? = some table →
          ∀ hist buf,
            ((promWorld GET_MANUFACTURING_STRING_1 ((List.range 2).map (sentTable
                ((List.range 62).map (fun k => if k = 30 then 0x0000 else 0x0141 + k))))).reply
              hist (UsbCall.control GET (GET_MANUFACTURING_STRING_1 + 2 * i) 0 0 buf
                DESC_TBLSIZE)).result = 64
            ∧ 64 ≤ ((promWorld GET_MANUFACTURING_STRING_1 ((List.range 2).map (sentTable
                ((List.range 62).map (fun k => if k = 30 then 0x0000 else 0x0141 + k))))).reply
              hist (UsbCall.control GET (GET_MANUFACTURING_STRING_1 + 2 * i) 0 0 buf
                DESC_TBLSIZE)).transferred
            ∧ ∀ j < 64, ((promWorld GET_MANUFACTURING_STRING_1 ((List.range 2).map (sentTable
                ((List.range 62).map (fun k => if k = 30 then 0x0000 else 0x0141 + k))))).reply
              hist (UsbCall.control GET (GET_MANUFACTURING_STRING_1 + 2 * i) 0 0 buf
                DESC_TBLSIZE)).data j = table.getD j 0)
      ∧ (getDescGeneric (promWorld GET_MANUFACTURING_STRING_1 ((List.range 2).map (sentTable
            ((List.range 62).map (fun k => if k = 30 then 0x0000 else 0x0141 + k)))))
          GET_MANUFACTURING_STRING_1
          (writeDescGeneric (promWorld GET_MANUFACTURING_STRING_1 ((List.range 2).map (sentTable
              ((List.range 62).map (fun k => if k = 30 then 0x0000 else 0x0141 + k)))))
            ((List.range 62).map (fun k => if k = 30 then 0x0000 else 0x0141 + k))
            SET_MANUFACTURING_STRING_1 State.opened)).1
          = (List.range 30).map (fun k => 0x0141 + k)
            ++ (List.range 31).map (fun k => 0x0160 + k)
      ∧ (List.range 30).map (fun k => 0x0141 + k) ++ (List.range 31).map (fun k => 0x0160 + k)
          ≠ (List.range 62).map (fun k => if k = 30 then 0x0000 else 0x0141 + k) := by
  refine ⟨by decide, by decide, ?_, by decide, by decide⟩
  intro i table h hist buf
  rw [sentTables_writeDescGeneric _ _ _ State.opened rfl] at h
  exact promWorld_reply GET_MANUFACTURING_STRING_1 _ i table h hist buf

/-! ## The layout of the encoded tables -/

theorem pairs_getD (s : List Nat) (k : Nat) :
    ((s.map (fun c => [c % 256, c / 256 % 256])).flatten).getD k 0
      = if k < 2 * s.length then
          (s.getD (k / 2) 0 >>> (if k % 2 = 0 then 0 else 8)) % 256
        else 0 := by
  induction s generalizing k with
  | nil => simp
  | cons c t ih =>
    rw [List.map_cons, List.flatten_cons]
    match k with
    | 0 => simp
    | 1 =>
      have h1 : 1 < 2 * (t.length + 1) := by omega
      simp [Nat.shiftRight_eq_div_pow, h1]
    | k + 2 =>
      have e1 : (k + 2) / 2 = k / 2 + 1 := by omega
      have e2 : (k + 2) % 2 = k % 2 := by omega
      have e3 : k + 2 < 2 * (c :: t).length ↔ k < 2 * t.length := by
        simp only [List.length_cons]; omega
      simp only [e1, e2, e3, List.getD_cons_succ, List.cons_append, List.nil_append]
      exact ih k

theorem layoutBytes_length (s : List Nat) : (layoutBytes s).length = 2 * s.length + 2 := by
  have h : ∀ t : List Nat, ((t.map (fun c => [c % 256, c / 256 % 256])).flatten).length
      = 2 * t.length := by
    intro t
    induction t with
    | nil => rfl
    | cons c t ih => rw [List.map_cons, List.flatten_cons, List.length_append, ih,
        List.length_cons]; simp; omega
  rw [layoutBytes, List.length_append, h]
  simp
  omega

theorem layoutBytes_getD (s : List Nat) (k : Nat) (hk : 2 ≤ k) :
    (layoutBytes s).getD k 0
      = if k < 2 * s.length + 2 then
          (s.getD ((k - 2) / 2) 0 >>> (if k % 2 = 0 then 0 else 8)) % 256
        else 0 := by
  obtain ⟨m, rfl⟩ : ∃ m, k = m + 2 := ⟨k - 2, by omega⟩
  have e2 : (m + 2) % 2 = m % 2 := by omega
  have e3 : m + 2 < 2 * s.length + 2 ↔ m < 2 * s.length := by omega
  simp only [e2, e3, Nat.add_sub_cancel]
  rw [← pairs_getD]
  rfl

/-- Every byte the inner loop stores is the byte of the descriptor layout at the
position `63 i + j`. -/
theorem descByte_eq_layout (s : List Nat) (i j : Nat) (h : 2 ≤ 63 * i + j) :
    descByte s (2 * s.length + 2) i j = (layoutBytes s).getD (63 * i + j) 0 := by
  rw [layoutBytes_getD s _ h]
  have e : (63 * i + j) % 2 = (i + j) % 2 := by omega
  unfold descByte
  simp only [DESC_IDXINCR, DESC_TBLSIZE, e]

/-- The tables `writeDescGeneric` sends on an open session. -/
theorem sentTables_cases (w : World) (s : List Nat) (command : Nat) (st : State)
    (ho : isOpen st = true) (i : Nat) (table : List Nat)
    (h : (sentTables st.trace.length (writeDescGeneric w s command st).trace)[i]? = some table) :
    (i = 0 ∨ i = 1) ∧ table = sentTable s i := by
  rw [sentTables_writeDescGeneric w s command st ho, List.getElem?_map] at h
  have hi : i < 2 := by
    by_contra hcon
    rw [List.getElem?_eq_none (by rw [List.length_range]; split_ifs <;> omega)] at h
    simp at h
  constructor
  · omega
  · rcases Nat.lt_or_ge i (List.range (if command = SET_MANUFACTURING_STRING_1
        ∨ command = SET_PRODUCT_STRING_1 then 2 else 1)).length with hlt | hge
    · rw [List.getElem?_eq_getElem hlt, List.getElem_range] at h
      simpa using h.symm
    · rw [List.getElem?_eq_none hge] at h
      simp at h

/-- C13: on an open session, for a string `s` of at most 62 units and `D` the bytes
`2|s|+2`, `0x03`, then the units of `s` low byte first (`2|s|+2` bytes, read as zero
beyond): at least one table is sent, and every table `i` sent has 64 bytes, its bytes
`0..62` are `D[63 i .. 63 i + 62]`, its bytes at positions `63 i + j` at or beyond
`2|s|+2` are zero, its byte 63 is zero, and the length byte of table 0 is `2|s|+2`
itself. -/
theorem table_layout (w : World) (s : List Nat) (command : Nat) (st : State)
    (ho : isOpen st = true) (hlen : s.length ≤ 62) (i : Nat) (table : List Nat)
    (h : (sentTables st.trace.length (writeDescGeneric w s command st).trace)[i]? = some table) :
    (layoutBytes s).length = 2 * s.length + 2
      ∧ (sentTables st.trace.length (writeDescGeneric w s command st).trace) ≠ []
      ∧ table.length = 64
      ∧ (∀ j, j < 63 → table.getD j 0 = (layoutBytes s).getD (63 * i + j) 0)
      ∧ (∀ j, j < 64 → 2 * s.length + 2 ≤ 63 * i + j → table.getD j 0 = 0)
      ∧ table.getD 63 0 = 0
      ∧ (i = 0 → table.getD 0 0 = 2 * s.length + 2 ∧ table.getD 1 0 = 0x03) := by
  obtain ⟨hi, rfl⟩ := sentTables_cases w s command st ho i table h
  have hbytes : ∀ j, j < 63 → (sentTable s i).getD j 0 = (layoutBytes s).getD (63 * i + j) 0 := by
    intro j hj
    rcases hi with rfl | rfl
    · rw [sentTable_zero_getD]
      by_cases h2 : 2 ≤ j
      · rw [if_pos ⟨h2, hj⟩]
        exact descByte_eq_layout s 0 j (by omega)
      · rw [if_neg (fun hh => h2 hh.1)]
        have hj01 : j = 0 ∨ j = 1 := by omega
        rcases hj01 with rfl | rfl
        · rw [if_pos rfl]
          show _ = 2 * s.length + 2
          omega
        · rfl
    · rw [sentTable_one_getD, if_pos hj]
      exact descByte_eq_layout s 1 j (by omega)
  have h63 : (sentTable s i).getD 63 0 = 0 := by
    rcases hi with rfl | rfl
    · rw [sentTable_zero_getD]; rfl
    · rw [sentTable_one_getD]; rfl
  refine ⟨layoutBytes_length s, ?_, sentTable_length s i, hbytes, ?_, h63, ?_⟩
  · intro hnil
    rw [hnil] at h
    simp at h
  · intro j hj hge
    by_cases hj63 : j < 63
    · rw [hbytes j hj63, List.getD_eq_default]
      rw [layoutBytes_length]
      exact hge
    · have : j = 63 := by omega
      rw [this]
      exact h63
  · intro hi0
    subst hi0
    have h0 := hbytes 0 (by decide)
    have h1 := hbytes 1 (by decide)
    exact ⟨h0, h1⟩

theorem table_layout_witness :
    (layoutBytes [0x0141, 0x0042]).length = 2 * 2 + 2
      ∧ sentTables 0 (writeDescGeneric timeoutWorld [0x0141, 0x0042] SET_SERIAL_STRING
          State.opened).trace ≠ []
      ∧ ([0x06, 0x03, 0x41, 0x01, 0x42, 0x00] ++ List.replicate 58 0).length = 64
      ∧ (∀ j, j < 63 → ([0x06, 0x03, 0x41, 0x01, 0x42, 0x00] ++ List.replicate 58 0).getD j 0
          = (layoutBytes [0x0141, 0x0042]).getD (63 * 0 + j) 0)
      ∧ (∀ j, j < 64 → 2 * 2 + 2 ≤ 63 * 0 + j →
          ([0x06, 0x03, 0x41, 0x01, 0x42, 0x00] ++ List.replicate 58 0).getD j 0 = 0)
      ∧ ([0x06, 0x03, 0x41, 0x01, 0x42, 0x00] ++ List.replicate 58 0).getD 63 0 = 0
      ∧ (0 = 0 → ([0x06, 0x03, 0x41, 0x01, 0x42, 0x00] ++ List.replicate 58 0).getD 0 0
            = 2 * 2 + 2
          ∧ ([0x06, 0x03, 0x41, 0x01, 0x42, 0x00] ++ List.replicate 58 0).getD 1 0 = 0x03) :=
  table_layout timeoutWorld [0x0141, 0x0042] SET_SERIAL_STRING State.opened rfl (by decide) 0
    ([0x06, 0x03, 0x41, 0x01, 0x42, 0x00] ++ List.replicate 58 0) (by decide)

/-! ## The transfers of the encoder -/

/-- C14 (as amended): on an open session `writeDescGeneric` issues exactly two table
transfers when the command is the manufacturer or the product SET command, whatever the
length of the string, and exactly one otherwise; when a manufacturer or product string
has a declared length `2|s|+2` of at most 63, the second table sent is all zero. -/
theorem table_count (w : World) (s : List Nat) (command : Nat) (st : State)
    (ho : isOpen st = true) :
    st.trace <+: (writeDescGeneric w s command st).trace
      ∧ ((writeDescGeneric w s command st).trace.drop st.trace.length).length
          = (if command = SET_MANUFACTURING_STRING_1 ∨ command = SET_PRODUCT_STRING_1
              then 2 else 1)
      ∧ (sentTables st.trace.length (writeDescGeneric w s command st).trace).length
          = (if command = SET_MANUFACTURING_STRING_1 ∨ command = SET_PRODUCT_STRING_1
              then 2 else 1)
      ∧ (command = SET_MANUFACTURING_STRING_1 ∨ command = SET_PRODUCT_STRING_1 →
          2 * s.length + 2 ≤ 63 → ∀ j,
            ((sentTables st.trace.length (writeDescGeneric w s command st).trace).getD 1
              []).getD j 0 = 0) := by
  have htab := sentTables_writeDescGeneric w s command st ho
  refine ⟨?_, ?_, ?_, ?_⟩
  · rw [writeDescGeneric_trace w s command st ho]
    exact List.prefix_append _ _
  · rw [writeDescGeneric_trace w s command st ho, List.drop_left, List.length_map,
      List.length_range]
  · rw [htab, List.length_map, List.length_range]
  · intro hc hshort j
    rw [htab, if_pos hc]
    have e : (List.range 2).map (sentTable s) = [sentTable s 0, sentTable s 1] := rfl
    rw [e, List.getD_cons_succ, List.getD_cons_zero, sentTable_one_getD]
    split
    · unfold descByte
      simp only [DESC_IDXINCR, DESC_TBLSIZE]
      rw [if_neg (by omega)]
    · rfl

theorem table_count_witness :
    ((writeDescGeneric timeoutWorld [0x0041] SET_MANUFACTURING_STRING_1 State.opened).trace.drop
        State.opened.trace.length).length = 2
      ∧ ((writeDescGeneric timeoutWorld [0x0041] SET_SERIAL_STRING State.opened).trace.drop
        State.opened.trace.length).length = 1 :=
  ⟨(table_count timeoutWorld [0x0041] SET_MANUFACTURING_STRING_1 State.opened rfl).2.1,
    (table_count timeoutWorld [0x0041] SET_SERIAL_STRING State.opened rfl).2.1⟩

/-- C14 (as stated) fails: the one-unit manufacturer string `[0x0041]` has the declared
length 4, which is at most 62, and `writeDescGeneric` issues two table transfers for
it, with the request codes `0x63` and `0x65`. -/
theorem table_count_counterexample :
    2 * ([0x0041] : List Nat).length + 2 ≤ 62
      ∧ (sentTables State.opened.trace.length
          (writeDescGeneric timeoutWorld [0x0041] SET_MANUFACTURING_STRING_1
            State.opened).trace).length = 2
      ∧ (writeDescGeneric timeoutWorld [0x0041] SET_MANUFACTURING_STRING_1
          State.opened).trace.map controlHeader
          = [some (0x40, 0x63, 0xa5f1, 0, 64), some (0x40, 0x65, 0xa5f1, 0, 64)]
      ∧ (2 : Nat) ≠ 1 := by
  decide

/-- C15: for the 8-bit request code `command`, on an open session the transfers of
`writeDescGeneric` are, for each table `i` in order, a request `0x40` with request code
`command + 2 i`, value `0xa5f1`, index 0 and length 64, whatever the device answers to
the first: `0x63` then `0x65` for the manufacturer, `0x67` then `0x69` for the product,
`0x6b` for the serial; on a closed session no transfer is issued and a manufacturer or
product write raises the error counter by exactly 2. -/
theorem encode_transfers (w : World) (s : List Nat) (command : Nat) (st : State)
    (hcmd : command = SET_MANUFACTURING_STRING_1 ∨ command = SET_PRODUCT_STRING_1
      ∨ command = SET_SERIAL_STRING) :
    (isOpen st = true →
        (writeDescGeneric w s command st).trace
          = st.trace ++ (List.range (if command = SET_MANUFACTURING_STRING_1
              ∨ command = SET_PRODUCT_STRING_1 then 2 else 1)).map (fun i =>
                UsbCall.control 0x40 (command + 2 * i) 0xa5f1 0 (sentTable s i) 64))
      ∧ (isOpen st = true → command = SET_MANUFACTURING_STRING_1 →
          ((writeDescGeneric w s command st).trace.drop st.trace.length).map controlHeader
            = [some (0x40, 0x63, 0xa5f1, 0, 64), some (0x40, 0x65, 0xa5f1, 0, 64)])
      ∧ (isOpen st = true → command = SET_PRODUCT_STRING_1 →
          ((writeDescGeneric w s command st).trace.drop st.trace.length).map controlHeader
            = [some (0x40, 0x67, 0xa5f1, 0, 64), some (0x40, 0x69, 0xa5f1, 0, 64)])
      ∧ (isOpen st = true → command = SET_SERIAL_STRING →
          ((writeDescGeneric w s command st).trace.drop st.trace.length).map controlHeader
            = [some (0x40, 0x6b, 0xa5f1, 0, 64)])
      ∧ (isOpen st = false →
          (writeDescGeneric w s command st).trace = st.trace
          ∧ (writeDescGeneric w s command st).errcnt
              = st.errcnt + (if command = SET_MANUFACTURING_STRING_1
                  ∨ command = SET_PRODUCT_STRING_1 then 2 else 1)) := by
  refine ⟨?_, ?_, ?_, ?_, ?_⟩
  · intro ho
    rw [writeDescGeneric_trace w s command st ho]
    rcases hcmd with rfl | rfl | rfl <;> rfl
  · intro ho hc
    subst hc
    rw [writeDescGeneric_two w s _ st ho (Or.inl rfl), List.drop_left]
    rfl
  · intro ho hc
    subst hc
    rw [writeDescGeneric_two w s _ st ho (Or.inr rfl), List.drop_left]
    rfl
  · intro ho hc
    subst hc
    rw [writeDescGeneric_one w s _ st ho (by decide), List.drop_left]
    rfl
  · intro hcl
    rw [writeDescGeneric_closed w s command st hcl]
    split_ifs
    · exact ⟨rfl, by simp only [State.fail]; omega⟩
    · exact ⟨rfl, rfl⟩

theorem encode_transfers_witness :
    ((writeDescGeneric timeoutWorld [0x0041] SET_PRODUCT_STRING_1 State.opened).trace.drop
        State.opened.trace.length).map controlHeader
        = [some (0x40, 0x67, 0xa5f1, 0, 64), some (0x40, 0x69, 0xa5f1, 0, 64)]
      ∧ (writeDescGeneric timeoutWorld [0x0041] SET_PRODUCT_STRING_1 State.init).errcnt
        = State.init.errcnt + 2 :=
  ⟨(encode_transfers timeoutWorld [0x0041] SET_PRODUCT_STRING_1 State.opened
      (Or.inr (Or.inl rfl))).2.2.1 rfl rfl,
    ((encode_transfers timeoutWorld [0x0041] SET_PRODUCT_STRING_1 State.init
      (Or.inr (Or.inl rfl))).2.2.2.2 rfl).2⟩

/-! ## The transfers of the decoder -/

/-- The state `getDescGeneric` leaves: the state after the second transfer in the long
form, after the first otherwise. -/
theorem getDescGeneric_snd (w : World) (command : Nat) (s : State) :
    (getDescGeneric w command s).2
      = if (command = GET_MANUFACTURING_STRING_1 ∨ command = GET_PRODUCT_STRING_1)
          ∧ (firstTable w command s).1.getD 0 0 > DESC_MAXIDX then
          (secondTable w command s).2
        else (firstTable w command s).2 := by
  unfold getDescGeneric secondTable firstTable
  dsimp only
  split_ifs <;> rfl

/-- C16: on an open session `getDescGeneric` issues, after the first transfer (request
`0xc0`, code `command`, 64 bytes), a second one (request `0xc0`, code `command + 2`,
64 bytes) when `command` is `0x62` or `0x66` and byte 0 of the first table is greater
than 62, and no other transfer; in every other case, such as a serial table declaring a
length above 62, it issues the first transfer only. On a closed session the same
condition decides between two failed attempts and one. -/
theorem second_table_read (w : World) (command : Nat) (s : State) :
    (isOpen s = true →
        ((command = 0x62 ∨ command = 0x66) ∧ (firstTable w command s).1.getD 0 0 > 62 →
          ((getDescGeneric w command s).2.trace.drop s.trace.length).map controlHeader
            = [some (0xc0, command, 0, 0, 64), some (0xc0, command + 2, 0, 0, 64)])
        ∧ (¬ ((command = 0x62 ∨ command = 0x66) ∧ (firstTable w command s).1.getD 0 0 > 62) →
          ((getDescGeneric w command s).2.trace.drop s.trace.length).map controlHeader
            = [some (0xc0, command, 0, 0, 64)])
        ∧ (List.length ((getDescGeneric w command s).2.trace.drop s.trace.length) = 2
            ↔ (command = 0x62 ∨ command = 0x66) ∧ (firstTable w command s).1.getD 0 0 > 62)
        ∧ (command = GET_SERIAL_STRING →
            List.length ((getDescGeneric w command s).2.trace.drop s.trace.length) = 1))
      ∧ (isOpen s = false →
          (getDescGeneric w command s).2.trace = s.trace
          ∧ (getDescGeneric w command s).2.errcnt
            = s.errcnt + (if (command = 0x62 ∨ command = 0x66)
                ∧ (firstTable w command s).1.getD 0 0 > 62 then 2 else 1)) := by
  have key : isOpen s = true →
      ((command = 0x62 ∨ command = 0x66) ∧ (firstTable w command s).1.getD 0 0 > 62 →
        ((getDescGeneric w command s).2.trace.drop s.trace.length).map controlHeader
          = [some (0xc0, command, 0, 0, 64), some (0xc0, command + 2, 0, 0, 64)])
      ∧ (¬ ((command = 0x62 ∨ command = 0x66) ∧ (firstTable w command s).1.getD 0 0 > 62) →
        ((getDescGeneric w command s).2.trace.drop s.trace.length).map controlHeader
          = [some (0xc0, command, 0, 0, 64)]) := by
    intro ho
    have h1 := controlTransfer_open w GET command 0 0 (uninitBuffer w s DESC_TBLSIZE)
      DESC_TBLSIZE s ho
    have h2 := controlTransfer_open w GET ((command + 2) % 256) 0 0 (firstTable w command s).1
      DESC_TBLSIZE (firstTable w command s).2 h1.2
    constructor
    · intro hc
      have hmod : (command + 2) % 256 = command + 2 := by
        rcases hc.1 with h | h <;> subst h <;> rfl
      have hc1 : (command = GET_MANUFACTURING_STRING_1 ∨ command = GET_PRODUCT_STRING_1)
          ∧ (firstTable w command s).1.getD 0 0 > DESC_MAXIDX := hc
      rw [getDescGeneric_snd, if_pos hc1]
      show (List.drop s.trace.length (secondTable w command s).2.trace).map controlHeader = _
      unfold secondTable
      rw [h2.1]
      unfold firstTable
      rw [h1.1, List.append_assoc, List.drop_left, hmod]
      rfl
    · intro hc
      have hc1 : ¬ ((command = GET_MANUFACTURING_STRING_1 ∨ command = GET_PRODUCT_STRING_1)
          ∧ (firstTable w command s).1.getD 0 0 > DESC_MAXIDX) := hc
      rw [getDescGeneric_snd, if_neg hc1]
      unfold firstTable
      rw [h1.1, List.drop_left]
      rfl
  refine ⟨fun ho => ⟨(key ho).1, (key ho).2, ?_, ?_⟩, ?_⟩
  · constructor
    · intro hlen
      by_contra hc
      have h := congrArg List.length ((key ho).2 hc)
      rw [List.length_map, hlen] at h
      simp at h
    · intro hc
      have h := congrArg List.length ((key ho).1 hc)
      rw [List.length_map] at h
      exact h
  · intro hser
    have hc : ¬ ((command = 0x62 ∨ command = 0x66)
        ∧ (firstTable w command s).1.getD 0 0 > 62) := by
      subst hser
      intro h
      exact absurd h.1 (by decide)
    have h := congrArg List.length ((key ho).2 hc)
    rw [List.length_map] at h
    exact h
  · intro hcl
    have h1 := controlTransfer_closed w GET command 0 0 (uninitBuffer w s DESC_TBLSIZE)
      DESC_TBLSIZE s hcl
    have hcl1 : isOpen (s.fail "In controlTransfer(): device is not open.\n") = false := hcl
    rw [getDescGeneric_snd]
    unfold secondTable firstTable
    rw [h1]
    dsimp only
    rw [controlTransfer_closed w GET _ 0 0 _ _ _ hcl1]
    show _ ∧ _ = s.errcnt + (if (command = GET_MANUFACTURING_STRING_1
      ∨ command = GET_PRODUCT_STRING_1) ∧ _ > DESC_MAXIDX then 2 else 1)
    split_ifs
    · exact ⟨rfl, by simp only [State.fail]; omega⟩
    · exact ⟨rfl, rfl⟩

theorem second_table_read_witness :
    ((getDescGeneric (promWorld GET_MANUFACTURING_STRING_1 [[70, 0x03], [0x00]])
        GET_MANUFACTURING_STRING_1 State.opened).2.trace.drop State.opened.trace.length).map
          controlHeader
        = [some (0xc0, 0x62, 0, 0, 64), some (0xc0, 0x64, 0, 0, 64)]
      ∧ List.length ((getDescGeneric (promWorld GET_SERIAL_STRING [[70, 0x03]])
          GET_SERIAL_STRING State.opened).2.trace.drop State.opened.trace.length) = 1 :=
  ⟨((second_table_read (promWorld GET_MANUFACTURING_STRING_1 [[70, 0x03], [0x00]])
      GET_MANUFACTURING_STRING_1 State.opened).1 rfl).1 (by decide),
    ((second_table_read (promWorld GET_SERIAL_STRING [[70, 0x03]])
      GET_SERIAL_STRING State.opened).1 rfl).2.2.2 rfl⟩

/-! ## The transfers of `spiRead` and `spiWrite` -/

theorem commandHeader_eq (opcode n : Nat) :
    commandHeader opcode n = [0x00, 0x00, opcode, 0x00] ++ le32 n := by
  simp [commandHeader, le32, Nat.shiftRight_eq_div_pow]

theorem bytesWrittenArg_isSome (w : World) (s : State) :
    (bytesWrittenArg w s).isSome = decide (w.LIBUSB_API_VERSION < 0x01000105) := by
  unfold bytesWrittenArg
  split_ifs with h
  · simp only [Option.isSome_none]
    exact (decide_eq_false (by omega)).symm
  · simp only [Option.isSome_some]
    exact (decide_eq_true (by omega)).symm

theorem bulkTransfer_fst_length (w : World) (a : Nat) (data : List Nat) (n : Int)
    (tr : Option Int) (s : State) : (bulkTransfer w a data n tr s).1.length = data.length := by
  unfold bulkTransfer
  dsimp only
  split_ifs <;> simp only [received_length]

theorem bulkTransfer_fst (w : World) (a : Nat) (data : List Nat) (n : Int) (tr : Option Int)
    (s : State) (ho : isOpen s = true) :
    (bulkTransfer w a data n tr s).1
      = if a &&& 0x80 ≠ 0 then
          received data (min (w.reply s.trace (UsbCall.bulk a data n tr.isSome)).transferred
            n.toNat) (w.reply s.trace (UsbCall.bulk a data n tr.isSome)).data
        else data := by
  unfold bulkTransfer
  simp only [ho, not_true_eq_false, if_false]
  split_ifs <;> rfl

/-- The copy of the first `m` bytes of a buffer into a fresh vector of size `m`. -/
theorem copyLoop_take (l : List Nat) (m : Nat) (h : m ≤ l.length) :
    copyLoop 0 m (fun i => l.getD i 0) (List.replicate m 0) = l.take m := by
  apply list_ext_getD
  · rw [copyLoop_length, List.length_replicate, List.length_take, Nat.min_eq_left h]
  · intro k hk
    rw [copyLoop_length, List.length_replicate] at hk
    rw [copyLoop_getD, List.length_replicate, if_pos ⟨⟨Nat.zero_le _, by omega⟩, hk⟩,
      getD_take l m k hk, Nat.sub_zero]

theorem received_take (data : List Nat) (moved : Nat) (src : Nat → Nat)
    (h : moved ≤ data.length) :
    (received data moved src).take moved = (List.range moved).map (fun i => src i % 256) := by
  apply list_ext_getD
  · rw [List.length_take, received_length, List.length_map, List.length_range,
      Nat.min_eq_left h]
  · intro k hk
    rw [List.length_take, received_length, Nat.min_eq_left h] at hk
    rw [getD_take _ _ _ hk, received_getD _ _ _ _ (by omega) hk, List.getD_eq_getElem?_getD,
      List.getElem?_map, List.getElem?_range hk]
    rfl

/-- C17: for a byte count below `2^31`, on an open session `spiRead` issues exactly two
transfers: the 8-byte frame `00 00 00 00` followed by the little-endian byte count, on
the OUT address, then a read of `byteCount` bytes with a count location on the IN
address, whatever the answer to the frame; it returns the first `bytesRead` bytes of
the input buffer, `bytesRead` being the count reported by the read: the bytes the
device delivered, none when nothing was received. On a closed session both attempts
fail and the result is empty. -/
theorem spiRead_transfers (w : World) (byteCount inA outA : Nat) (s : State)
    (hb : byteCount < 2 ^ 31) :
    let frame := UsbCall.bulk outA ([0x00, 0x00, 0x00, 0x00] ++ le32 byteCount) 8
      (decide (w.LIBUSB_API_VERSION < 0x01000105))
    let buf := (List.range byteCount).map (fun i => w.uninit (s.trace ++ [frame]) i % 256)
    let read := UsbCall.bulk inA buf (byteCount : Int) true
    let r := w.reply (s.trace ++ [frame]) read
    let bytesRead := min r.transferred byteCount
    (isOpen s = true →
        (spiRead w byteCount inA outA s).2.trace = s.trace ++ [frame, read]
        ∧ (spiRead w byteCount inA outA s).1
          = (if inA &&& 0x80 ≠ 0 then received buf bytesRead r.data else buf).take bytesRead
        ∧ (spiRead w byteCount inA outA s).1.length = bytesRead
        ∧ (inA &&& 0x80 ≠ 0 →
            (spiRead w byteCount inA outA s).1
              = (List.range bytesRead).map (fun i => r.data i % 256))
        ∧ (r.transferred = 0 → (spiRead w byteCount inA outA s).1 = []))
      ∧ (isOpen s = false →
          (spiRead w byteCount inA outA s).1 = []
          ∧ (spiRead w byteCount inA outA s).2.trace = s.trace
          ∧ (spiRead w byteCount inA outA s).2.errcnt = s.errcnt + 2) := by
  intro frame buf read r bytesRead
  constructor
  · intro ho
    have hdr : commandHeader READ byteCount = [0x00, 0x00, 0x00, 0x00] ++ le32 byteCount :=
      commandHeader_eq READ byteCount
    have h1 := bulkTransfer_open w outA ([0x00, 0x00, 0x00, 0x00] ++ le32 byteCount) 8
      (bytesWrittenArg w s) s ho
    rw [bytesWrittenArg_isSome] at h1
    have hbuf : uninitBuffer w (bulkTransfer w outA ([0x00, 0x00, 0x00, 0x00] ++ le32 byteCount)
        8 (bytesWrittenArg w s) s).2.2 byteCount = buf := by
      unfold uninitBuffer
      rw [h1.1]
    have h2 := bulkTransfer_open w inA buf (toInt32 byteCount) (some 0) _ h1.2
    have hc := bulkTransfer_count w inA buf (toInt32 byteCount) (some 0) _ h1.2
    have hf := bulkTransfer_fst w inA buf (toInt32 byteCount) (some 0) _ h1.2
    rw [toInt32_small byteCount hb, h1.1] at h2 hc hf
    simp only [Option.isSome_some, Option.map_some', Int.toNat_ofNat] at h2 hc hf
    have hres : (spiRead w byteCount inA outA s).1
        = (if inA &&& 0x80 ≠ 0 then received buf bytesRead r.data else buf).take bytesRead := by
      unfold spiRead
      dsimp only
      rw [hdr, hbuf, toInt32_small byteCount hb, hc, Option.getD_some, Int.toNat_ofNat, hf]
      apply copyLoop_take
      have hbl : buf.length = byteCount := by simp [buf]
      split_ifs
      · rw [received_length, hbl]; exact Nat.min_le_right _ _
      · rw [hbl]; exact Nat.min_le_right _ _
    have hbl : buf.length = byteCount := by simp [buf]
    have hlen : (spiRead w byteCount inA outA s).1.length = bytesRead := by
      rw [hres, List.length_take]
      split_ifs
      · rw [received_length, hbl]
        exact Nat.min_eq_left (Nat.min_le_right _ _)
      · rw [hbl]
        exact Nat.min_eq_left (Nat.min_le_right _ _)
    refine ⟨?_, hres, hlen, ?_, ?_⟩
    · unfold spiRead
      dsimp only
      rw [hdr, hbuf, toInt32_small byteCount hb, h2.1, List.append_assoc]
      rfl
    · intro hin
      rw [hres, if_pos hin]
      exact received_take buf bytesRead r.data (by rw [hbl]; exact Nat.min_le_right _ _)
    · intro h0
      apply List.eq_nil_of_length_eq_zero
      rw [hlen]
      show min r.transferred byteCount = 0
      rw [h0]
      exact Nat.zero_min _
  · intro hcl
    have hcl1 : isOpen (s.fail "In bulkTransfer(): device is not open.\n") = false := hcl
    unfold spiRead
    dsimp only
    rw [bulkTransfer_closed w outA _ 8 _ s hcl]
    dsimp only
    rw [bulkTransfer_closed w inA _ _ _ _ hcl1]
    refine ⟨rfl, rfl, ?_⟩
    simp only [State.fail]
    omega

theorem spiRead_transfers_witness :
    (spiRead countingWorld 4 0x81 0x02 State.opened).1 = [0, 1, 2, 3]
      ∧ (spiRead countingWorld 4 0x81 0x02 State.opened).2.trace
        = [UsbCall.bulk 0x02 [0x00, 0x00, 0x00, 0x00, 0x04, 0x00, 0x00, 0x00] 8 false,
            UsbCall.bulk 0x81 [0, 0, 0, 0] 4 true]
      ∧ (spiRead countingWorld 4 0x81 0x02 State.init).2.errcnt = State.init.errcnt + 2 :=
  ⟨(((spiRead_transfers countingWorld 4 0x81 0x02 State.opened (by decide)).1 rfl).2.2.2.1
      (by decide)).trans (by decide),
    ((spiRead_transfers countingWorld 4 0x81 0x02 State.opened (by decide)).1 rfl).1.trans
      (by decide),
    ((spiRead_transfers countingWorld 4 0x81 0x02 State.init (by decide)).2 rfl).2.2⟩

/-- The frame `spiWrite` builds, for a vector that fits the `int` buffer size. -/
theorem spiWrite_frame (data : List Nat) (hlen : data.length + 8 < 2 ^ 31) :
    copyLoop 8 data.length (fun i => data.getD i 0)
        (commandHeader WRITE data.length
          ++ List.replicate ((toInt32 (data.length + 8)).toNat - 8) 0)
      = [0x00, 0x00, 0x01, 0x00] ++ le32 data.length ++ data := by
  have h := frame_eq WRITE data 0 data.length (by omega) hlen
  simp only [Nat.zero_add, List.drop_zero, List.take_length] at h
  rw [h, commandHeader_eq]
  rfl

/-- C18 (as amended): for a vector with `|data| + 8 < 2^31`, on an open session
`spiWrite` returns and issues exactly one transfer, on the OUT address, whose buffer is
`00 00 01 00`, the little-endian 32-bit `|data|`, then `data`, `|data| + 8` bytes in
all, sent whole; the empty vector gives the single frame `00 00 01 00 00 00 00 00`. On
a closed session it returns with one failure recorded and no transfer. -/
theorem spiWrite_transfer (w : World) (data : List Nat) (outA : Nat) (s : State)
    (hlen : data.length + 8 < 2 ^ 31) :
    (isOpen s = true →
        ∃ s1, spiWrite w data outA s = Except.ok s1
          ∧ s1.trace = s.trace ++ [UsbCall.bulk outA
              ([0x00, 0x00, 0x01, 0x00] ++ le32 data.length ++ data)
              ((data.length + 8 : Nat) : Int) (decide (w.LIBUSB_API_VERSION < 0x01000105))]
          ∧ ([0x00, 0x00, 0x01, 0x00] ++ le32 data.length ++ data).length = data.length + 8
          ∧ (data = [] → s1.trace = s.trace ++ [UsbCall.bulk outA
              [0x00, 0x00, 0x01, 0x00, 0x00, 0x00, 0x00, 0x00] 8
              (decide (w.LIBUSB_API_VERSION < 0x01000105))]))
      ∧ (isOpen s = false →
          ∃ s1, spiWrite w data outA s = Except.ok s1
            ∧ s1.trace = s.trace ∧ s1.errcnt = s.errcnt + 1) := by
  have hmod : data.length % 2 ^ 32 = data.length := Nat.mod_eq_of_lt (by omega)
  have hsz : toInt32 (data.length + 8) = ((data.length + 8 : Nat) : Int) :=
    toInt32_small _ hlen
  have hnot : ¬ (((data.length + 8 : Nat) : Int) < 8) := by omega
  have hrun : spiWrite w data outA s
      = Except.ok (bulkTransfer w outA ([0x00, 0x00, 0x01, 0x00] ++ le32 data.length ++ data)
          ((data.length + 8 : Nat) : Int) (bytesWrittenArg w s) s).2.2 := by
    unfold spiWrite
    simp only [hmod]
    rw [spiWrite_frame data hlen, hsz, if_neg hnot]
  constructor
  · intro ho
    have h1 := bulkTransfer_open w outA ([0x00, 0x00, 0x01, 0x00] ++ le32 data.length ++ data)
      ((data.length + 8 : Nat) : Int) (bytesWrittenArg w s) s ho
    rw [bytesWrittenArg_isSome] at h1
    refine ⟨_, hrun, h1.1, ?_, ?_⟩
    · simp [le32]
    · intro hd
      rw [h1.1, hd]
      rfl
  · intro hcl
    refine ⟨_, hrun, ?_, ?_⟩
    · rw [bulkTransfer_closed w outA _ _ _ s hcl]
      rfl
    · rw [bulkTransfer_closed w outA _ _ _ s hcl]
      rfl

theorem spiWrite_transfer_witness :
    (∃ s1, spiWrite countingWorld [0xaa, 0xbb] 0x01 State.opened = Except.ok s1
        ∧ s1.trace = [UsbCall.bulk 0x01
            [0x00, 0x00, 0x01, 0x00, 0x02, 0x00, 0x00, 0x00, 0xaa, 0xbb] 10 false])
      ∧ (∃ s1, spiWrite countingWorld [] 0x01 State.opened = Except.ok s1
        ∧ s1.trace = [UsbCall.bulk 0x01 [0x00, 0x00, 0x01, 0x00, 0x00, 0x00, 0x00, 0x00] 8
            false]) :=
  ⟨((spiWrite_transfer countingWorld [0xaa, 0xbb] 0x01 State.opened (by decide)).1 rfl).imp
      (fun _ h => ⟨h.1, h.2.1.trans (by decide)⟩),
    ((spiWrite_transfer countingWorld [] 0x01 State.opened (by decide)).1 rfl).imp
      (fun _ h => ⟨h.1, h.2.2.2 rfl⟩)⟩

/-- C18 (as stated) fails: for the vector of `2^31 - 8` zero bytes the buffer size
`|data| + 8` is `2^31`, which is negative as an `int`; the allocation of the frame
throws, and on an open session no transfer is issued. -/
theorem spiWrite_transfer_counterexample :
    isOpen State.opened = true
      ∧ spiWrite countingWorld (List.replicate (2 ^ 31 - 8) 0) 0x01 State.opened
        = Except.error State.opened
      ∧ (afterCall (spiWrite countingWorld (List.replicate (2 ^ 31 - 8) 0) 0x01
          State.opened)).trace = [] := by
  have h : spiWrite countingWorld (List.replicate (2 ^ 31 - 8) 0) 0x01 State.opened
      = Except.error State.opened := by
    unfold spiWrite
    simp only [List.length_replicate]
    rw [if_pos (by decide)]
  refine ⟨rfl, h, ?_⟩
  rw [h]
  rfl

/-! ## The frames of `spiWriteRead` -/

theorem framesFrom_cons (data : List Nat) (a b off : Nat) (buf : List Nat) (wc : Bool)
    (rest : List UsbCall) (hp : 1 ≤ min 56 (data.length - off))
    (hlast : rest ≠ [] → min 56 (data.length - off) = 56)
    (hrest : FramesFrom data a b (off + min 56 (data.length - off)) rest) :
    FramesFrom data a b off
      (UsbCall.bulk b (commandHeader WRITEREAD (min 56 (data.length - off))
          ++ (data.drop off).take (min 56 (data.length - off)))
          ((min 56 (data.length - off) + 8 : Nat) : Int) wc
        :: UsbCall.bulk a buf ((min 56 (data.length - off) : Nat) : Int) true :: rest) := by
  unfold FramesFrom
  rw [commandHeader_eq]
  exact ⟨rfl, hp, rfl, rfl, rfl, rfl, rfl, hlast, hrest⟩

theorem drop_split (data : List Nat) (off p : Nat) :
    data.drop off = (data.drop off).take p ++ data.drop (off + p) := by
  rw [← List.drop_drop, List.take_append_drop]

/-- The invariant of the loop of `spiWriteRead` on the transfers it records. -/
theorem spiWriteReadLoop_frames (w : World) (data : List Nat) (a b : Nat) (prev : Int)
    (fuel : Nat) : ∀ (bp : Nat) (ret : List Nat) (s : State), data.length - bp ≤ fuel →
      ∃ calls, (spiWriteReadLoop w data a b prev fuel bp ret s).2.trace = s.trace ++ calls
        ∧ FramesFrom data a b bp calls
        ∧ framePayloads calls <+: data.drop bp
        ∧ ((spiWriteReadLoop w data a b prev fuel bp ret s).2.errcnt = prev →
            framePayloads calls = data.drop bp)
        ∧ (calls ≠ [] → bp < data.length)
        ∧ (isOpen s = true → bp < data.length → prev = s.errcnt → calls ≠ []) := by
  induction fuel with
  | zero =>
    intro bp ret s hf
    have hd : data.drop bp = [] := List.drop_eq_nil_of_le (by omega)
    refine ⟨[], by simp [spiWriteReadLoop], trivial, List.nil_prefix, fun _ => hd.symm,
      fun h => absurd rfl h, fun _ h _ => by omega⟩
  | succ fuel ih =>
    intro bp ret s hf
    by_cases hc : bp < data.length ∧ prev = s.errcnt
    · rw [spiWriteReadLoop_step w data a b prev fuel bp ret s hc]
      have hp := payload_eq data.length bp hc.1
      have hbp := spiWriteReadBody_fst w data a b bp ret s hc.1
      rcases Bool.eq_false_or_eq_true (isOpen s) with ho | ho
      · obtain ⟨buf, wc, htr, ho1⟩ := spiWriteReadBody_open w data a b bp ret s hc.1 ho
        obtain ⟨calls, h1, h2, h3, h4, h5, _⟩ := ih (spiWriteReadBody w data a b bp ret s).1
          (spiWriteReadBody w data a b bp ret s).2.1 (spiWriteReadBody w data a b bp ret s).2.2
          (by rw [hbp]; omega)
        rw [hbp] at h2 h3 h4 h5
        refine ⟨_ :: _ :: calls, ?_, framesFrom_cons data a b bp buf wc calls hp.2.1 ?_ h2,
          ?_, ?_, fun _ => hc.1, fun _ _ _ => List.cons_ne_nil _ _⟩
        · rw [h1, htr, List.append_assoc]
          rfl
        · intro hne
          have := h5 hne
          omega
        · show ((commandHeader WRITEREAD (min 56 (data.length - bp))
              ++ (data.drop bp).take (min 56 (data.length - bp))).drop 8
              ++ framePayloads calls) <+: data.drop bp
          rw [List.drop_left' (by simp [commandHeader]),
            drop_split data bp (min 56 (data.length - bp))]
          rw [List.take_left' (by
            rw [List.length_take, List.length_drop]
            omega)]
          exact (List.prefix_append_right_inj _).mpr h3
        · intro he
          rw [hbp] at he
          show ((commandHeader WRITEREAD (min 56 (data.length - bp))
              ++ (data.drop bp).take (min 56 (data.length - bp))).drop 8
              ++ framePayloads calls) = data.drop bp
          rw [List.drop_left' (by simp [commandHeader]), h4 he]
          exact (drop_split data bp _).symm
      · have hcl := spiWriteReadBody_closed w data a b bp ret s ho
        have hstop : ¬ ((spiWriteReadBody w data a b bp ret s).1 < data.length
            ∧ prev = (spiWriteReadBody w data a b bp ret s).2.2.errcnt) := by
          rw [hcl.1]
          intro h
          have := hc.2
          omega
        rw [spiWriteReadLoop_stop w data a b prev fuel _ _ _ hstop]
        refine ⟨[], by rw [List.append_nil]; exact hcl.2.1, trivial, List.nil_prefix, ?_,
          fun h => absurd rfl h, fun h => ?_⟩
        · intro he
          exfalso
          have h2 : (spiWriteReadBody w data a b bp ret s).2.2.errcnt = prev := he
          rw [hcl.1] at h2
          have := hc.2
          omega
        · rw [ho] at h
          exact absurd h (by decide)
    · rw [spiWriteReadLoop_stop w data a b prev (fuel + 1) bp ret s hc]
      refine ⟨[], by simp, trivial, List.nil_prefix, ?_, fun h => absurd rfl h,
        fun _ h1 h2 => absurd ⟨h1, h2⟩ hc⟩
      intro he
      have he1 : s.errcnt = prev := he
      have hge : data.length ≤ bp := by
        by_contra hlt
        exact hc ⟨by omega, he1.symm⟩
      exact (List.drop_eq_nil_of_le hge).symm

/-- C19: the transfers `spiWriteRead` records are pairs (frame, read); every frame is
`00 00 02 00`, the little-endian 32-bit `p`, then `data[off .. off + p)`, with
`p = min(56, |data| - off)`, `1 ≤ p ≤ 56`, and `off` the sum of the payload lengths of
the earlier frames; every frame but the last carries 56 payload bytes; the payloads
concatenated in order are a prefix of `data`, and are `data` when the error counter is
unchanged at the end; an open session with a non-empty vector issues at least one
frame. -/
theorem writeread_frames (w : World) (data : List Nat) (inA outA : Nat) (s : State) :
    ∃ calls, (spiWriteRead w data inA outA s).2.trace = s.trace ++ calls
      ∧ FramesFrom data inA outA 0 calls
      ∧ framePayloads calls <+: data
      ∧ ((spiWriteRead w data inA outA s).2.errcnt = s.errcnt → framePayloads calls = data)
      ∧ (isOpen s = true → data ≠ [] → calls ≠ []) := by
  obtain ⟨calls, h1, h2, h3, h4, _, h6⟩ :=
    spiWriteReadLoop_frames w data inA outA s.errcnt data.length 0 [] s (by omega)
  refine ⟨calls, h1, h2, h3, h4, fun ho hd => h6 ho ?_ rfl⟩
  exact List.length_pos.mpr hd

/-! ## Termination of `spiWriteRead` -/

/-- While the loop runs, the processed-byte counter after `k` iterations is
`min(56 k, N)`. -/
theorem spiWriteReadIter_counter (w : World) (data : List Nat) (a b : Nat) (s : State)
    (k : Nat) (h : ∀ j < k, (spiWriteReadIter w data a b s j).1 < data.length) :
    (spiWriteReadIter w data a b s k).1 = min (56 * k) data.length := by
  induction k with
  | zero => simp [spiWriteReadIter]
  | succ k ih =>
    have hk := ih (fun j hj => h j (Nat.lt_succ_of_lt hj))
    have hlt := h k (Nat.lt_succ_self k)
    rw [spiWriteReadIter_succ, spiWriteReadBody_fst w data a b _ _ _ hlt, hk]
    rw [hk] at hlt
    omega

/-- C20: for every vector of `N` bytes, every device and every session state, the loop
of `spiWriteRead` leaves after some number `k` of iterations with `k ≤ ceil(N / 56)`:
its condition holds before each of the first `k` iterations and fails after them, the
result is the loop state reached then, and any bound of at least `k` on the number of
iterations gives that result; in each iteration the processed-byte counter grows by at
least 1 and at most 56 and stays at most `N`. -/
theorem spiWriteRead_terminates (w : World) (data : List Nat) (inA outA : Nat) (s : State) :
    ∃ k, k ≤ (data.length + 55) / 56
      ∧ (∀ j < k, (spiWriteReadIter w data inA outA s j).1 < data.length
          ∧ (spiWriteReadIter w data inA outA s j).2.2.errcnt = s.errcnt
          ∧ (spiWriteReadIter w data inA outA s j).1 + 1
              ≤ (spiWriteReadIter w data inA outA s (j + 1)).1
          ∧ (spiWriteReadIter w data inA outA s (j + 1)).1
              ≤ (spiWriteReadIter w data inA outA s j).1 + 56
          ∧ (spiWriteReadIter w data inA outA s (j + 1)).1 ≤ data.length)
      ∧ ¬ ((spiWriteReadIter w data inA outA s k).1 < data.length
          ∧ (spiWriteReadIter w data inA outA s k).2.2.errcnt = s.errcnt)
      ∧ spiWriteRead w data inA outA s
          = ((spiWriteReadIter w data inA outA s k).2.1,
              (spiWriteReadIter w data inA outA s k).2.2)
      ∧ ∀ fuel, k ≤ fuel →
          spiWriteReadLoop w data inA outA s.errcnt fuel 0 [] s
            = spiWriteRead w data inA outA s := by
  have hex : ∃ k, ¬ ((spiWriteReadIter w data inA outA s k).1 < data.length
      ∧ (spiWriteReadIter w data inA outA s k).2.2.errcnt = s.errcnt) := by
    by_contra hall
    have hrun : ∀ j, (spiWriteReadIter w data inA outA s j).1 < data.length := by
      intro j
      by_contra hj
      exact hall ⟨j, fun hh => hj hh.1⟩
    have hc := spiWriteReadIter_counter w data inA outA s ((data.length + 55) / 56)
      (fun j _ => hrun j)
    have := hrun ((data.length + 55) / 56)
    omega
  obtain ⟨k, hspec, hmin⟩ : ∃ k,
      ¬ ((spiWriteReadIter w data inA outA s k).1 < data.length
        ∧ (spiWriteReadIter w data inA outA s k).2.2.errcnt = s.errcnt)
      ∧ ∀ j < k, (spiWriteReadIter w data inA outA s j).1 < data.length
        ∧ (spiWriteReadIter w data inA outA s j).2.2.errcnt = s.errcnt :=
    ⟨Nat.find hex, Nat.find_spec hex, fun j hj => not_not.mp (Nat.find_min hex hj)⟩
  have hcond := hmin
  have hkle : k ≤ (data.length + 55) / 56 := by
    by_contra hgt
    have hc := spiWriteReadIter_counter w data inA outA s ((data.length + 55) / 56)
      (fun j hj => (hcond j (by omega)).1)
    have := (hcond ((data.length + 55) / 56) (by omega)).1
    omega
  have hkN : k ≤ data.length := by omega
  have hloop : ∀ fuel, k ≤ fuel →
      spiWriteReadLoop w data inA outA s.errcnt fuel 0 [] s
        = ((spiWriteReadIter w data inA outA s k).2.1,
            (spiWriteReadIter w data inA outA s k).2.2) := by
    intro fuel hf
    rw [spiWriteReadLoop_unroll w data inA outA s k fuel hf hcond]
    apply spiWriteReadLoop_stop
    intro hh
    exact hspec ⟨hh.1, hh.2.symm⟩
  have hres : spiWriteRead w data inA outA s
      = ((spiWriteReadIter w data inA outA s k).2.1,
          (spiWriteReadIter w data inA outA s k).2.2) := hloop data.length hkN
  refine ⟨k, hkle, ?_, hspec, hres, fun fuel hf => (hloop fuel hf).trans hres.symm⟩
  intro j hj
  have hlt := (hcond j hj).1
  have hstep : (spiWriteReadIter w data inA outA s (j + 1)).1
      = (spiWriteReadIter w data inA outA s j).1
        + min 56 (data.length - (spiWriteReadIter w data inA outA s j).1) := by
    rw [spiWriteReadIter_succ]
    exact spiWriteReadBody_fst w data inA outA _ _ _ hlt
  refine ⟨hlt, (hcond j hj).2, ?_, ?_, ?_⟩ <;> omega

/-! ## Endpoint resolution -/

/-- The result of `getEndpointInAddr` in terms of the priority byte read. -/
theorem getEndpointInAddr_fst (w : World) (s : State) :
    (getEndpointInAddr w s).1 = if (getTransferPriority w s).1 = 0x01 then 0x82 else 0x81 :=
  rfl

/-- The result of `getEndpointOutAddr` in terms of the priority byte read. -/
theorem getEndpointOutAddr_fst (w : World) (s : State) :
    (getEndpointOutAddr w s).1 = if (getTransferPriority w s).1 = 0x01 then 0x01 else 0x02 :=
  rfl

/-- C21 (as amended): when the device reports the same transfer-priority byte to both
calls, the pair (`getEndpointInAddr`, `getEndpointOutAddr`) is `(0x82, 0x01)` or
`(0x81, 0x02)`: the first for the byte `0x01`, the second for every other byte. -/
theorem endpoint_pair (w : World) (s1 s2 : State)
    (hp : (getTransferPriority w s1).1 = (getTransferPriority w s2).1) :
    (((getEndpointInAddr w s1).1, (getEndpointOutAddr w s2).1) = (0x82, 0x01)
        ∨ ((getEndpointInAddr w s1).1, (getEndpointOutAddr w s2).1) = (0x81, 0x02))
      ∧ (((getEndpointInAddr w s1).1, (getEndpointOutAddr w s2).1) = (0x82, 0x01)
        ↔ (getTransferPriority w s1).1 = 0x01) := by
  rw [getEndpointInAddr_fst, getEndpointOutAddr_fst, ← hp]
  by_cases h : (getTransferPriority w s1).1 = 0x01
  · rw [if_pos h, if_pos h]
    exact ⟨Or.inl rfl, fun _ => h, fun _ => rfl⟩
  · rw [if_neg h, if_neg h]
    refine ⟨Or.inr rfl, fun hh => ?_, fun hh => absurd hh h⟩
    exact absurd (congrArg Prod.fst hh) (by decide)

theorem endpoint_pair_witness :
    ((getEndpointInAddr (promWorld GET_USB_CONFIG [[0, 0, 0, 0, 0, 0, 0, 0, 0x01]])
          State.opened).1,
        (getEndpointOutAddr (promWorld GET_USB_CONFIG [[0, 0, 0, 0, 0, 0, 0, 0, 0x01]])
          State.opened).1) = (0x82, 0x01)
      ∧ ((getEndpointInAddr (promWorld GET_USB_CONFIG [[0, 0, 0, 0, 0, 0, 0, 0, 0x00]])
          State.opened).1,
        (getEndpointOutAddr (promWorld GET_USB_CONFIG [[0, 0, 0, 0, 0, 0, 0, 0, 0x00]])
          State.opened).1) = (0x81, 0x02) :=
  ⟨(endpoint_pair (promWorld GET_USB_CONFIG [[0, 0, 0, 0, 0, 0, 0, 0, 0x01]]) State.opened
      State.opened rfl).2.mpr (by decide),
    ((endpoint_pair (promWorld GET_USB_CONFIG [[0, 0, 0, 0, 0, 0, 0, 0, 0x00]]) State.opened
      State.opened rfl).1).resolve_left (by decide)⟩

/-- C21 (as stated) fails: a device reporting the priority byte `0x01` on an open
session gives the pair `(0x82, 0x01)`, and one reporting `0x00` gives `(0x81, 0x02)`;
neither is `(0x81, 0x01)` or `(0x82, 0x02)`. -/
theorem endpoint_pair_counterexample :
    (getTransferPriority (promWorld GET_USB_CONFIG [[0, 0, 0, 0, 0, 0, 0, 0, 0x01]])
        State.opened).1 = 0x01
      ∧ ((getEndpointInAddr (promWorld GET_USB_CONFIG [[0, 0, 0, 0, 0, 0, 0, 0, 0x01]])
            State.opened).1,
          (getEndpointOutAddr (promWorld GET_USB_CONFIG [[0, 0, 0, 0, 0, 0, 0, 0, 0x01]])
            State.opened).1) = (0x82, 0x01)
      ∧ ((0x82, 0x01) : Nat × Nat) ≠ (0x81, 0x01)
      ∧ ((0x82, 0x01) : Nat × Nat) ≠ (0x82, 0x02) := by
  decide

/-- C29: with `p` the transfer-priority byte read, `getEndpointInAddr` returns `0x82`
and `getEndpointOutAddr` returns `0x01` when `p = 0x01`, and they return `0x81` and
`0x02` for every other value of `p`; the IN address has bit 7 set, the OUT address has
bit 7 clear, and for the same `p` the two endpoint numbers differ. Every byte `p` is
reported by some device. -/
theorem endpoint_mapping (w : World) (s : State) :
    ((getTransferPriority w s).1 = 0x01 →
        (getEndpointInAddr w s).1 = 0x82 ∧ (getEndpointOutAddr w s).1 = 0x01)
      ∧ ((getTransferPriority w s).1 ≠ 0x01 →
        (getEndpointInAddr w s).1 = 0x81 ∧ (getEndpointOutAddr w s).1 = 0x02)
      ∧ (getEndpointInAddr w s).1 &&& 0x80 ≠ 0
      ∧ (getEndpointOutAddr w s).1 &&& 0x80 = 0
      ∧ (∀ s2, (getTransferPriority w s2).1 = (getTransferPriority w s).1 →
          (getEndpointInAddr w s).1 &&& 0x0f ≠ (getEndpointOutAddr w s2).1 &&& 0x0f)
      ∧ (∀ p, p < 256 →
          (getTransferPriority (promWorld GET_USB_CONFIG [[0, 0, 0, 0, 0, 0, 0, 0, p]])
            State.opened).1 = p) := by
  refine ⟨?_, ?_, ?_, ?_, ?_, ?_⟩
  · intro h
    rw [getEndpointInAddr_fst, getEndpointOutAddr_fst, if_pos h, if_pos h]
    exact ⟨rfl, rfl⟩
  · intro h
    rw [getEndpointInAddr_fst, getEndpointOutAddr_fst, if_neg h, if_neg h]
    exact ⟨rfl, rfl⟩
  · rw [getEndpointInAddr_fst]
    split_ifs <;> decide
  · rw [getEndpointOutAddr_fst]
    split_ifs <;> decide
  · intro s2 h
    rw [getEndpointInAddr_fst, getEndpointOutAddr_fst, h]
    split_ifs <;> decide
  · intro p hp
    have hget : GET &&& 0x80 ≠ 0 := by decide
    unfold getTransferPriority getUSBConfig
    dsimp only
    rw [controlTransfer_fst_in (promWorld GET_USB_CONFIG [[0, 0, 0, 0, 0, 0, 0, 0, p]])
      GET GET_USB_CONFIG 0 0 _ _ State.opened rfl hget,
      received_getD _ _ _ 8 (by simp [uninitBuffer, GET_USB_CONFIG_WLEN])
        (by simp [promWorld, GET_USB_CONFIG_WLEN])]
    simp [promWorld, GET_USB_CONFIG, Nat.mod_eq_of_lt hp]

/-! ## The endpoint-free overloads -/

theorem getUSBConfig_open (w : World) (s : State) (ho : isOpen s = true) :
    (getUSBConfig w s).2.trace
        = s.trace ++ [UsbCall.control GET GET_USB_CONFIG 0 0
            (uninitBuffer w s GET_USB_CONFIG_WLEN) GET_USB_CONFIG_WLEN]
      ∧ isOpen (getUSBConfig w s).2 = true :=
  controlTransfer_open w GET GET_USB_CONFIG 0 0 (uninitBuffer w s GET_USB_CONFIG_WLEN)
    GET_USB_CONFIG_WLEN s ho

/-- The two priority queries made to resolve both endpoint addresses. -/
theorem endpointArgs_open (w : World) (s : State) (ho : isOpen s = true) :
    (∃ c1 c2, (endpointArgs w s).2.2.trace = s.trace ++ [c1, c2]
        ∧ controlHeader c1 = some (0xc0, 0x60, 0, 0, 9)
        ∧ controlHeader c2 = some (0xc0, 0x60, 0, 0, 9))
      ∧ isOpen (endpointArgs w s).2.2 = true := by
  have h1 := getUSBConfig_open w s ho
  have h2 := getUSBConfig_open w (getUSBConfig w s).2 h1.2
  have htr : (getUSBConfig w (getUSBConfig w s).2).2.trace
      = s.trace ++ [UsbCall.control GET GET_USB_CONFIG 0 0
            (uninitBuffer w s GET_USB_CONFIG_WLEN) GET_USB_CONFIG_WLEN,
          UsbCall.control GET GET_USB_CONFIG 0 0
            (uninitBuffer w (getUSBConfig w s).2 GET_USB_CONFIG_WLEN) GET_USB_CONFIG_WLEN] := by
    rw [h2.1, h1.1, List.append_assoc]
    rfl
  unfold endpointArgs
  split
  · exact ⟨⟨_, _, htr, rfl, rfl⟩, h2.2⟩
  · exact ⟨⟨_, _, htr, rfl, rfl⟩, h2.2⟩

/-- The transfers of `spiRead` on an open session are two bulk transfers. -/
theorem spiRead_bulk_only (w : World) (n a b : Nat) (s : State) (ho : isOpen s = true) :
    ∃ calls, (spiRead w n a b s).2.trace = s.trace ++ calls
      ∧ calls.filterMap controlHeader = [] := by
  have h1 := bulkTransfer_open w b (commandHeader READ n) 8 (bytesWrittenArg w s) s ho
  have h2 := bulkTransfer_open w a
    (uninitBuffer w (bulkTransfer w b (commandHeader READ n) 8 (bytesWrittenArg w s) s).2.2 n)
    (toInt32 n) (some 0) _ h1.2
  have htr : (spiRead w n a b s).2.trace
      = s.trace ++ [UsbCall.bulk b (commandHeader READ n) 8 (bytesWrittenArg w s).isSome,
          UsbCall.bulk a (uninitBuffer w
            (bulkTransfer w b (commandHeader READ n) 8 (bytesWrittenArg w s) s).2.2 n)
            (toInt32 n) true] := by
    show (bulkTransfer w a _ (toInt32 n) (some 0) _).2.2.trace = _
    rw [h2.1, h1.1, List.append_assoc]
    rfl
  exact ⟨_, htr, rfl⟩

/-- The transfers of the loop of `spiWriteRead` are bulk transfers. -/
theorem spiWriteReadLoop_bulk_only (w : World) (data : List Nat) (a b : Nat) (prev : Int)
    (fuel : Nat) : ∀ (bp : Nat) (ret : List Nat) (s : State),
      ∃ calls, (spiWriteReadLoop w data a b prev fuel bp ret s).2.trace = s.trace ++ calls
        ∧ calls.filterMap controlHeader = [] := by
  induction fuel with
  | zero =>
    intro bp ret s
    exact ⟨[], by simp [spiWriteReadLoop], rfl⟩
  | succ fuel ih =>
    intro bp ret s
    by_cases hc : bp < data.length ∧ prev = s.errcnt
    · rw [spiWriteReadLoop_step w data a b prev fuel bp ret s hc]
      obtain ⟨calls, h1, h2⟩ := ih (spiWriteReadBody w data a b bp ret s).1
        (spiWriteReadBody w data a b bp ret s).2.1 (spiWriteReadBody w data a b bp ret s).2.2
      rcases Bool.eq_false_or_eq_true (isOpen s) with ho | ho
      · obtain ⟨buf, wc, htr, _⟩ := spiWriteReadBody_open w data a b bp ret s hc.1 ho
        have htr2 : (spiWriteReadLoop w data a b prev fuel
            (spiWriteReadBody w data a b bp ret s).1 (spiWriteReadBody w data a b bp ret s).2.1
            (spiWriteReadBody w data a b bp ret s).2.2).2.trace
            = s.trace ++ (UsbCall.bulk b (commandHeader WRITEREAD (min 56 (data.length - bp))
                ++ (data.drop bp).take (min 56 (data.length - bp)))
                ((min 56 (data.length - bp) + 8 : Nat) : Int) wc
              :: UsbCall.bulk a buf ((min 56 (data.length - bp) : Nat) : Int) true
              :: calls) := by
          rw [h1, htr, List.append_assoc]
          rfl
        exact ⟨_, htr2, h2⟩
      · refine ⟨calls, ?_, h2⟩
        rw [h1, (spiWriteReadBody_closed w data a b bp ret s ho).2.1]
    · rw [spiWriteReadLoop_stop w data a b prev (fuel + 1) bp ret s hc]
      exact ⟨[], by simp, rfl⟩

/-- The transfers of `spiWrite` are bulk transfers. -/
theorem spiWrite_bulk_only (w : World) (data : List Nat) (b : Nat) (s : State)
    (ho : isOpen s = true) :
    ∃ calls, (afterCall (spiWrite w data b s)).trace = s.trace ++ calls
      ∧ calls.filterMap controlHeader = [] := by
  unfold spiWrite
  dsimp only
  split
  · exact ⟨[], by simp [afterCall], rfl⟩
  · exact ⟨_, (bulkTransfer_open w b _ _ _ s ho).1, rfl⟩

/-- C22 (as amended): on an open session the shorthand `spiWrite` issues exactly one
control transfer, the transfer-priority query (`0xc0`, `0x60`, 9 bytes), and the
shorthands `spiRead` and `spiWriteRead` issue exactly two, one for each address they
resolve; the queries come before any other transfer, and the call is the
explicit-address overload called with the resolved addresses in the state the queries
left. -/
theorem shorthand_overloads (w : World) (s : State) (bytesToRead : Nat) (data : List Nat)
    (ho : isOpen s = true) :
    (spiWriteAuto w data s
          = spiWrite w data (getEndpointOutAddr w s).1 (getEndpointOutAddr w s).2
        ∧ ((afterCall (spiWriteAuto w data s)).trace.drop s.trace.length).filterMap
            controlHeader = [(0xc0, 0x60, 0, 0, 9)])
      ∧ (spiReadAuto w bytesToRead s
          = spiRead w bytesToRead (endpointArgs w s).1 (endpointArgs w s).2.1
              (endpointArgs w s).2.2
        ∧ ((spiReadAuto w bytesToRead s).2.trace.drop s.trace.length).filterMap controlHeader
            = [(0xc0, 0x60, 0, 0, 9), (0xc0, 0x60, 0, 0, 9)])
      ∧ (spiWriteReadAuto w data s
          = spiWriteRead w data (endpointArgs w s).1 (endpointArgs w s).2.1
              (endpointArgs w s).2.2
        ∧ ((spiWriteReadAuto w data s).2.trace.drop s.trace.length).filterMap controlHeader
            = [(0xc0, 0x60, 0, 0, 9), (0xc0, 0x60, 0, 0, 9)])
      ∧ ((getEndpointOutAddr w s).2.trace.drop s.trace.length).map controlHeader
          = [some (0xc0, 0x60, 0, 0, 9)]
      ∧ ((endpointArgs w s).2.2.trace.drop s.trace.length).map controlHeader
          = [some (0xc0, 0x60, 0, 0, 9), some (0xc0, 0x60, 0, 0, 9)]
      ∧ ((endpointArgs w s).1 = 0x81 ∨ (endpointArgs w s).1 = 0x82)
      ∧ ((endpointArgs w s).2.1 = 0x01 ∨ (endpointArgs w s).2.1 = 0x02) := by
  have hq := getUSBConfig_open w s ho
  have hq1 : (getEndpointOutAddr w s).2.trace = s.trace ++ [UsbCall.control GET GET_USB_CONFIG
      0 0 (uninitBuffer w s GET_USB_CONFIG_WLEN) GET_USB_CONFIG_WLEN] := hq.1
  have hq2 : isOpen (getEndpointOutAddr w s).2 = true := hq.2
  obtain ⟨⟨c1, c2, he, hc1, hc2⟩, heo⟩ := endpointArgs_open w s ho
  refine ⟨⟨rfl, ?_⟩, ⟨rfl, ?_⟩, ⟨rfl, ?_⟩, ?_, ?_, ?_, ?_⟩
  · obtain ⟨calls, h1, h2⟩ := spiWrite_bulk_only w data (getEndpointOutAddr w s).1 _ hq2
    show ((afterCall (spiWrite w data (getEndpointOutAddr w s).1
      (getEndpointOutAddr w s).2)).trace.drop s.trace.length).filterMap controlHeader = _
    rw [h1, hq1, List.append_assoc, List.drop_left, List.filterMap_append, h2]
    rfl
  · obtain ⟨calls, h1, h2⟩ := spiRead_bulk_only w bytesToRead (endpointArgs w s).1
      (endpointArgs w s).2.1 _ heo
    show ((spiRead w bytesToRead (endpointArgs w s).1 (endpointArgs w s).2.1
      (endpointArgs w s).2.2).2.trace.drop s.trace.length).filterMap controlHeader = _
    rw [h1, he, List.append_assoc, List.drop_left, List.filterMap_append, h2]
    simp [List.filterMap_cons, hc1, hc2]
  · obtain ⟨calls, h1, h2⟩ := spiWriteReadLoop_bulk_only w data (endpointArgs w s).1
      (endpointArgs w s).2.1 (endpointArgs w s).2.2.errcnt data.length 0 []
      (endpointArgs w s).2.2
    show ((spiWriteRead w data (endpointArgs w s).1 (endpointArgs w s).2.1
      (endpointArgs w s).2.2).2.trace.drop s.trace.length).filterMap controlHeader = _
    unfold spiWriteRead
    rw [h1, he, List.append_assoc, List.drop_left, List.filterMap_append, h2]
    simp [List.filterMap_cons, hc1, hc2]
  · rw [hq1, List.drop_left]
    rfl
  · rw [he, List.drop_left]
    simp [hc1, hc2]
  · unfold endpointArgs
    split <;> (dsimp only; rw [getEndpointInAddr_fst]; split_ifs <;> simp)
  · unfold endpointArgs
    split <;> (dsimp only; rw [getEndpointOutAddr_fst]; split_ifs <;> simp)

theorem shorthand_overloads_witness :
    ((spiReadAuto countingWorld 2 State.opened).2.trace.drop
        State.opened.trace.length).filterMap controlHeader
        = [(0xc0, 0x60, 0, 0, 9), (0xc0, 0x60, 0, 0, 9)]
      ∧ ((afterCall (spiWriteAuto countingWorld [0xaa] State.opened)).trace.drop
        State.opened.trace.length).filterMap controlHeader = [(0xc0, 0x60, 0, 0, 9)] :=
  ⟨(shorthand_overloads countingWorld State.opened 2 [0xaa] rfl).2.1.2,
    (shorthand_overloads countingWorld State.opened 2 [0xaa] rfl).1.2⟩

/-- C22 (as stated) fails: on an open session the shorthand `spiRead` of two bytes
issues two control transfers before its two bulk transfers, and so does the shorthand
`spiWriteRead` of one byte. -/
theorem shorthand_overloads_counterexample :
    (spiReadAuto countingWorld 2 State.opened).2.trace.map controlHeader
        = [some (0xc0, 0x60, 0, 0, 9), some (0xc0, 0x60, 0, 0, 9), none, none]
      ∧ (spiWriteReadAuto countingWorld [0xaa] State.opened).2.trace.map controlHeader
        = [some (0xc0, 0x60, 0, 0, 9), some (0xc0, 0x60, 0, 0, 9), none, none]
      ∧ ((spiReadAuto countingWorld 2 State.opened).2.trace.filterMap controlHeader).length
        ≠ 1 := by
  refine ⟨by decide, by decide, by decide⟩

/-! ## Argument validation -/

theorem rejected_fail (s : State) (m : String) (hm : IsMessage m) : Rejected s (s.fail m) :=
  ⟨rfl, rfl, ⟨m, hm, rfl⟩, rfl, rfl⟩

/-- The single transfer recorded by a control transfer on an open session. -/
theorem controlTransfer_header (w : World) (a b c d : Nat) (data : List Nat) (n : Nat)
    (s : State) (ho : isOpen s = true) :
    ((controlTransfer w a b c d data n s).2.trace.drop s.trace.length).map controlHeader
      = [some (a, b, c, d, n)] := by
  rw [(controlTransfer_open w a b c d data n s ho).1, List.drop_left]
  rfl

/-- C23: for each operation taking a channel (`configureSPIDelays`, `configureSPIMode`,
`disableCS`, `disableSPIDelays`, `enableCS`, `selectCS`, `getCS`, `getSPIDelays`,
`getSPIMode`) or a pin (`configureGPIO`): a value above 10 raises the error counter by
exactly 1, appends one message and records no transfer, and the getters return the zero
value; a value of at most 10 makes the call the state change of one control transfer,
with no other message, and on an open session exactly one control transfer is
recorded. -/
theorem argument_validation (w : World) (s : State) (v mode : Nat) (value : Bool)
    (delays : SPIDelays) (spimode : SPIMode) :
    (v > 10 →
        Rejected s ( configureGPIO w v mode value s)
        ∧ Rejected s (configureSPIDelays w v delays s)
        ∧ Rejected s (configureSPIMode w v spimode s)
        ∧ Rejected s (disableCS w v s)
        ∧ Rejected s (disableSPIDelays w v s)
        ∧ Rejected s (enableCS w v s)
        ∧ Rejected s (selectCS w v s)
        ∧ Rejected s (getCS w v s).2
        ∧ Rejected s (getSPIDelays w v s).2
        ∧ Rejected s (getSPIMode w v s).2
        ∧ (getCS w v s).1 = false
        ∧ (getSPIMode w v s).1 = (⟨false, 0x00, false, false⟩ : SPIMode)
        ∧ (getSPIDelays w v s).1
            = (⟨false, false, false, false, 0x0000, 0x0000, 0x0000⟩ : SPIDelays))
      ∧ (v ≤ 10 →
        (( configureGPIO w v mode value s)
            = (controlTransfer w 0x40 0x23 0 0 [v, mode, boolToNat value] 3 s).2)
        ∧ (∃ data, (configureSPIDelays w v delays s) = (controlTransfer w 0x40 0x33 0 0 data 8 s).2)
        ∧ (∃ data, (configureSPIMode w v spimode s) = (controlTransfer w 0x40 0x31 0 0 data 2 s).2)
        ∧ ((disableCS w v s) = (controlTransfer w 0x40 0x25 0 0 [v, 0x00] 2 s).2)
        ∧ ((disableSPIDelays w v s)
            = (controlTransfer w 0x40 0x33 0 0 [v, 0x00, 0x00, 0x00, 0x00, 0x00, 0x00, 0x00] 8 s).2)
        ∧ ((enableCS w v s) = (controlTransfer w 0x40 0x25 0 0 [v, 0x01] 2 s).2)
        ∧ ((selectCS w v s) = (controlTransfer w 0x40 0x25 0 0 [v, 0x02] 2 s).2)
        ∧ ((getCS w v s).2 = (controlTransfer w 0xc0 0x24 0 0 (uninitBuffer w s 4) 4 s).2)
        ∧ ((getSPIDelays w v s).2 = (controlTransfer w 0xc0 0x32 0 v (uninitBuffer w s 8) 8 s).2)
        ∧ ((getSPIMode w v s).2 = (controlTransfer w 0xc0 0x30 0 0 (uninitBuffer w s 11) 11 s).2))
      ∧ (v ≤ 10 → isOpen s = true →
        (( configureGPIO w v mode value s).trace.drop s.trace.length).map controlHeader
            = [some (0x40, 0x23, 0, 0, 3)]
        ∧ ((configureSPIDelays w v delays s).trace.drop s.trace.length).map controlHeader
            = [some (0x40, 0x33, 0, 0, 8)]
        ∧ ((configureSPIMode w v spimode s).trace.drop s.trace.length).map controlHeader
            = [some (0x40, 0x31, 0, 0, 2)]
        ∧ ((disableCS w v s).trace.drop s.trace.length).map controlHeader
            = [some (0x40, 0x25, 0, 0, 2)]
        ∧ ((disableSPIDelays w v s).trace.drop s.trace.length).map controlHeader
            = [some (0x40, 0x33, 0, 0, 8)]
        ∧ ((enableCS w v s).trace.drop s.trace.length).map controlHeader
            = [some (0x40, 0x25, 0, 0, 2)]
        ∧ ((selectCS w v s).trace.drop s.trace.length).map controlHeader
            = [some (0x40, 0x25, 0, 0, 2)]
        ∧ ((getCS w v s).2.trace.drop s.trace.length).map controlHeader
            = [some (0xc0, 0x24, 0, 0, 4)]
        ∧ ((getSPIDelays w v s).2.trace.drop s.trace.length).map controlHeader
            = [some (0xc0, 0x32, 0, v, 8)]
        ∧ ((getSPIMode w v s).2.trace.drop s.trace.length).map controlHeader
            = [some (0xc0, 0x30, 0, 0, 11)]) := by
  refine ⟨fun hv => ?_, fun hv => ?_, fun hv ho => ?_⟩
  · have hv1 : v > 10 := hv
    refine ⟨?_, ?_, ?_, ?_, ?_, ?_, ?_, ?_, ?_, ?_, ?_, ?_, ?_⟩
    · unfold CP2130.configureGPIO
      rw [if_pos hv1]
      exact rejected_fail s _ (by decide)
    · unfold CP2130.configureSPIDelays
      rw [if_pos hv1]
      exact rejected_fail s _ (by decide)
    · unfold CP2130.configureSPIMode
      rw [if_pos hv1]
      exact rejected_fail s _ (by decide)
    · unfold CP2130.disableCS
      rw [if_pos hv1]
      exact rejected_fail s _ (by decide)
    · unfold CP2130.disableSPIDelays
      rw [if_pos hv1]
      exact rejected_fail s _ (by decide)
    · unfold CP2130.enableCS
      rw [if_pos hv1]
      exact rejected_fail s _ (by decide)
    · unfold CP2130.selectCS
      rw [if_pos hv1]
      exact rejected_fail s _ (by decide)
    · unfold CP2130.getCS
      rw [if_pos hv1]
      exact rejected_fail s _ (by decide)
    · unfold CP2130.getSPIDelays
      rw [if_pos hv1]
      exact rejected_fail s _ (by decide)
    · unfold CP2130.getSPIMode
      rw [if_pos hv1]
      exact rejected_fail s _ (by decide)
    · unfold CP2130.getCS
      rw [if_pos hv1]
    · unfold CP2130.getSPIMode
      rw [if_pos hv1]
    · unfold CP2130.getSPIDelays
      rw [if_pos hv1]
  · have hv1 : ¬ v > 10 := Nat.not_lt.mpr hv
    refine ⟨?_, ?_, ?_, ?_, ?_, ?_, ?_, ?_, ?_, ?_⟩
    · unfold CP2130.configureGPIO
      rw [if_neg hv1]
      rfl
    · unfold CP2130.configureSPIDelays
      rw [if_neg hv1]
      exact ⟨_, rfl⟩
    · unfold CP2130.configureSPIMode
      rw [if_neg hv1]
      exact ⟨_, rfl⟩
    · unfold CP2130.disableCS
      rw [if_neg hv1]
      rfl
    · unfold CP2130.disableSPIDelays
      rw [if_neg hv1]
      rfl
    · unfold CP2130.enableCS
      rw [if_neg hv1]
      rfl
    · unfold CP2130.selectCS
      rw [if_neg hv1]
      rfl
    · unfold CP2130.getCS
      rw [if_neg hv1]
      rfl
    · unfold CP2130.getSPIDelays
      rw [if_neg hv1]
      rfl
    · unfold CP2130.getSPIMode
      rw [if_neg hv1]
      rfl
  · have hv1 : ¬ v > 10 := Nat.not_lt.mpr hv
    refine ⟨?_, ?_, ?_, ?_, ?_, ?_, ?_, ?_, ?_, ?_⟩
    · unfold CP2130.configureGPIO
      rw [if_neg hv1]
      exact controlTransfer_header w _ _ _ _ _ _ s ho
    · unfold CP2130.configureSPIDelays
      rw [if_neg hv1]
      exact controlTransfer_header w _ _ _ _ _ _ s ho
    · unfold CP2130.configureSPIMode
      rw [if_neg hv1]
      exact controlTransfer_header w _ _ _ _ _ _ s ho
    · unfold CP2130.disableCS
      rw [if_neg hv1]
      exact controlTransfer_header w _ _ _ _ _ _ s ho
    · unfold CP2130.disableSPIDelays
      rw [if_neg hv1]
      exact controlTransfer_header w _ _ _ _ _ _ s ho
    · unfold CP2130.enableCS
      rw [if_neg hv1]
      exact controlTransfer_header w _ _ _ _ _ _ s ho
    · unfold CP2130.selectCS
      rw [if_neg hv1]
      exact controlTransfer_header w _ _ _ _ _ _ s ho
    · unfold CP2130.getCS
      rw [if_neg hv1]
      exact controlTransfer_header w _ _ _ _ _ _ s ho
    · unfold CP2130.getSPIDelays
      rw [if_neg hv1]
      exact controlTransfer_header w _ _ _ _ _ _ s ho
    · unfold CP2130.getSPIMode
      rw [if_neg hv1]
      exact controlTransfer_header w _ _ _ _ _ _ s ho

/-! ## Short reads in `spiWriteRead` -/

theorem copyLoop_append (ret : List Nat) (n : Nat) (src : Nat → Nat) :
    copyLoop ret.length n src (ret ++ List.replicate n 0) = ret ++ (List.range n).map src := by
  apply list_ext_getD
  · simp [copyLoop_length]
  · intro k hk
    rw [copyLoop_length, List.length_append, List.length_replicate] at hk
    rw [copyLoop_getD, List.length_append, List.length_replicate]
    by_cases hk1 : k < ret.length
    · rw [if_neg (by omega), getD_append_left _ _ _ hk1, getD_append_left _ _ _ hk1]
    · rw [if_pos (by omega), getD_append_right _ _ _ (by omega), List.getD_eq_getElem?_getD,
        List.getElem?_map, List.getElem?_range (by omega)]
      rfl

theorem map_getD_take (l : List Nat) (n : Nat) (h : n ≤ l.length) :
    (List.range n).map (fun i => l.getD i 0) = l.take n := by
  apply list_ext_getD
  · rw [List.length_map, List.length_range, List.length_take, Nat.min_eq_left h]
  · intro k hk
    rw [List.length_map, List.length_range] at hk
    rw [getD_take l n k hk, List.getD_eq_getElem?_getD, List.getElem?_map,
      List.getElem?_range hk]
    rfl

/-- An iteration of the loop in terms of its IN transfer. -/
theorem spiWriteReadBody_chunk (w : World) (data : List Nat) (a b bp : Nat) (ret : List Nat)
    (s : State) :
    (spiWriteReadBody w data a b bp ret s).2.1
        = ret ++ (List.range (chunkBytesRead w data a b bp s)).map
            (fun i => (chunkRead w data a b bp s).1.getD i 0)
      ∧ (spiWriteReadBody w data a b bp ret s).2.2 = (chunkRead w data a b bp s).2.2 :=
  ⟨copyLoop_append ret _ _, rfl⟩

theorem bulkTransfer_errcnt_le (w : World) (a : Nat) (data : List Nat) (n : Int)
    (tr : Option Int) (s : State) :
    (bulkTransfer w a data n tr s).2.2.errcnt ≤ s.errcnt + 1 := by
  unfold bulkTransfer
  dsimp only
  split_ifs <;> simp only [State.fail] <;> omega

/-- The count and the buffer of the IN transfer of an iteration. -/
theorem chunkRead_count (w : World) (data : List Nat) (a b bp : Nat) (s : State)
    (h : bp < data.length) :
    chunkBytesRead w data a b bp s ≤ min 56 (data.length - bp)
      ∧ (chunkRead w data a b bp s).1.length = min 56 (data.length - bp)
      ∧ (chunkBytesRead w data a b bp s ≠ min 56 (data.length - bp) →
          s.errcnt < (chunkRead w data a b bp s).2.2.errcnt)
      ∧ (chunkRead w data a b bp s).2.2.errcnt ≤ s.errcnt + 2 := by
  obtain ⟨hp, hp1, hp56, hpn⟩ := payload_eq data.length bp h
  unfold chunkBytesRead chunkRead
  simp only [hp]
  rw [toInt32_small (min 56 (data.length - bp)) (by omega)]
  generalize hfr : copyLoop 8 (min 56 (data.length - bp)) (fun i => data.getD (bp + i) 0)
    (commandHeader WRITEREAD (min 56 (data.length - bp))
      ++ List.replicate ((toInt32 (min 56 (data.length - bp) + 8)).toNat - 8) 0) = frame
  generalize hs1 : (bulkTransfer w b frame (toInt32 (min 56 (data.length - bp) + 8))
    (bytesWrittenArg w s) s).2.2 = s1
  have hadv : Advances s s1 := by rw [← hs1]; exact Advances.bulk ..
  have hle1 : s1.errcnt ≤ s.errcnt + 1 := by rw [← hs1]; exact bulkTransfer_errcnt_le ..
  have hge1 := hadv.errcnt_le
  have hbl : (uninitBuffer w s1 (min 56 (data.length - bp))).length
      = min 56 (data.length - bp) := by simp [uninitBuffer]
  have hle2 := bulkTransfer_errcnt_le w a (uninitBuffer w s1 (min 56 (data.length - bp)))
    ((min 56 (data.length - bp) : Nat) : Int) (some 0) s1
  refine ⟨?_, by rw [bulkTransfer_fst_length, hbl], ?_, by omega⟩
  · rcases Bool.eq_false_or_eq_true (isOpen s1) with ho | ho
    · rw [bulkTransfer_count w a _ _ _ s1 ho]
      simp only [Option.map_some', Option.getD_some, Int.toNat_ofNat]
      exact Nat.min_le_right _ _
    · rw [bulkTransfer_closed w a _ _ _ s1 ho]
      simp
  · intro hne
    rcases Bool.eq_false_or_eq_true (isOpen s1) with ho | ho
    · rw [bulkTransfer_count w a _ _ _ s1 ho] at hne
      simp only [Option.map_some', Option.getD_some, Int.toNat_ofNat,
        Option.isSome_some] at hne
      rw [bulkTransfer_err w a (uninitBuffer w s1 (min 56 (data.length - bp)))
        ((min 56 (data.length - bp) : Nat) : Int) (some 0) s1 ho (Or.inr ⟨rfl, by
          simp only [Option.isSome_some]
          intro hh
          exact hne (by exact_mod_cast hh)⟩)]
      show s.errcnt < s1.errcnt + 1
      omega
    · rw [bulkTransfer_closed w a _ _ _ s1 ho]
      show s.errcnt < s1.errcnt + 1
      omega

/-- While the loop keeps running, every iteration appended 56 bytes. -/
theorem spiWriteReadIter_full (w : World) (data : List Nat) (a b : Nat) (s : State) (j : Nat)
    (h : ∀ i ≤ j, (spiWriteReadIter w data a b s i).1 < data.length
      ∧ (spiWriteReadIter w data a b s i).2.2.errcnt = s.errcnt) :
    (spiWriteReadIter w data a b s j).2.1.length = 56 * j := by
  induction j with
  | zero => rfl
  | succ j ih =>
    have hj := ih (fun i hi => h i (Nat.le_succ_of_le hi))
    have hc := h j (Nat.le_succ j)
    have hn := h (j + 1) (Nat.le_refl _)
    rw [spiWriteReadIter_succ] at hn
    obtain ⟨h1, h2, h3, _⟩ := chunkRead_count w data a b _ (spiWriteReadIter w data a b s j).2.2
      hc.1
    have hb := spiWriteReadBody_chunk w data a b (spiWriteReadIter w data a b s j).1
      (spiWriteReadIter w data a b s j).2.1 (spiWriteReadIter w data a b s j).2.2
    have hfst := spiWriteReadBody_fst w data a b (spiWriteReadIter w data a b s j).1
      (spiWriteReadIter w data a b s j).2.1 (spiWriteReadIter w data a b s j).2.2 hc.1
    have hfull : chunkBytesRead w data a b (spiWriteReadIter w data a b s j).1
        (spiWriteReadIter w data a b s j).2.2
        = min 56 (data.length - (spiWriteReadIter w data a b s j).1) := by
      by_contra hne
      have := h3 hne
      rw [← hb.2, hn.2, hc.2] at this
      exact absurd this (lt_irrefl _)
    rw [spiWriteReadIter_succ, hb.1, List.length_append, List.length_map, List.length_range,
      hj, hfull]
    have := hn.1
    rw [hfst] at this
    omega

/-- C26: in each iteration of the loop of `spiWriteRead` the bytes appended to the
result are the first `bytesRead` bytes of the input buffer, `bytesRead` being the count
the IN transfer reports, while the processed counter advances by the chunk length
`min(56, N - processed)`; a count different from the chunk length raises the error
counter. So when the iterations `0 .. j` are executed and the count `r` of iteration
`j` differs from its chunk length, the loop condition fails after it, the call returns
the loop state reached then, and the result has `56 j + r` bytes. -/
theorem short_read (w : World) (data : List Nat) (inA outA : Nat) (s : State) :
    (∀ bp ret st, bp < data.length →
        (spiWriteReadBody w data inA outA bp ret st).2.1
            = ret ++ (chunkRead w data inA outA bp st).1.take
                (chunkBytesRead w data inA outA bp st)
          ∧ (spiWriteReadBody w data inA outA bp ret st).1 = bp + min 56 (data.length - bp)
          ∧ chunkBytesRead w data inA outA bp st ≤ min 56 (data.length - bp)
          ∧ (chunkBytesRead w data inA outA bp st ≠ min 56 (data.length - bp) →
              st.errcnt < (spiWriteReadBody w data inA outA bp ret st).2.2.errcnt))
      ∧ (∀ j, (∀ i ≤ j, (spiWriteReadIter w data inA outA s i).1 < data.length
            ∧ (spiWriteReadIter w data inA outA s i).2.2.errcnt = s.errcnt) →
          chunkBytesRead w data inA outA (spiWriteReadIter w data inA outA s j).1
              (spiWriteReadIter w data inA outA s j).2.2
            ≠ min 56 (data.length - (spiWriteReadIter w data inA outA s j).1) →
          (spiWriteReadIter w data inA outA s (j + 1)).2.2.errcnt ≠ s.errcnt
            ∧ spiWriteRead w data inA outA s
                = ((spiWriteReadIter w data inA outA s (j + 1)).2.1,
                    (spiWriteReadIter w data inA outA s (j + 1)).2.2)
            ∧ (spiWriteRead w data inA outA s).1.length
                = 56 * j + chunkBytesRead w data inA outA
                    (spiWriteReadIter w data inA outA s j).1
                    (spiWriteReadIter w data inA outA s j).2.2) := by
  constructor
  · intro bp ret st hbp
    obtain ⟨h1, h2, h3, _⟩ := chunkRead_count w data inA outA bp st hbp
    have hb := spiWriteReadBody_chunk w data inA outA bp ret st
    refine ⟨?_, spiWriteReadBody_fst w data inA outA bp ret st hbp, h1, ?_⟩
    · rw [hb.1, map_getD_take _ _ (by rw [h2]; exact h1)]
    · intro hne
      rw [hb.2]
      exact h3 hne
  · intro j hrun hshort
    have hc := hrun j (Nat.le_refl _)
    obtain ⟨h1, h2, h3, _⟩ := chunkRead_count w data inA outA _
      (spiWriteReadIter w data inA outA s j).2.2 hc.1
    have hb := spiWriteReadBody_chunk w data inA outA (spiWriteReadIter w data inA outA s j).1
      (spiWriteReadIter w data inA outA s j).2.1 (spiWriteReadIter w data inA outA s j).2.2
    have herr : (spiWriteReadIter w data inA outA s (j + 1)).2.2.errcnt ≠ s.errcnt := by
      rw [spiWriteReadIter_succ, hb.2]
      have := h3 hshort
      rw [hc.2] at this
      omega
    have hprog := spiWriteReadIter_progress w data inA outA s j
      (fun i hi => (hrun i (Nat.le_of_lt hi)).1)
    have hres : spiWriteRead w data inA outA s
        = ((spiWriteReadIter w data inA outA s (j + 1)).2.1,
            (spiWriteReadIter w data inA outA s (j + 1)).2.2) := by
      unfold spiWriteRead
      rw [spiWriteReadLoop_unroll w data inA outA s (j + 1) data.length (by omega)
        (fun i hi => hrun i (Nat.le_of_lt_succ hi))]
      apply spiWriteReadLoop_stop
      intro hh
      exact herr hh.2.symm
    refine ⟨herr, hres, ?_⟩
    rw [hres]
    show (spiWriteReadIter w data inA outA s (j + 1)).2.1.length = _
    rw [spiWriteReadIter_succ, hb.1, List.length_append, List.length_map, List.length_range,
      spiWriteReadIter_full w data inA outA s j hrun]

theorem short_read_witness :
    (spiWriteRead (shortWorld 1) (List.replicate 60 0xaa) 0x81 0x02 State.opened).1.length
        = 56 * 1 + 3
      ∧ (spiWriteRead (shortWorld 1) (List.replicate 60 0xaa) 0x81 0x02 State.opened).1
        = List.range 56 ++ List.range 3 :=
  have h := (short_read (shortWorld 1) (List.replicate 60 0xaa) 0x81 0x02 State.opened).2 1
    (by decide) (by decide)
  ⟨h.2.2.trans (by decide), h.2.1.symm ▸ (by decide)⟩

/-! ## Empty vectors, closed sessions and the size of the result of `spiWriteRead` -/

theorem spiWriteReadBody_errcnt_le (w : World) (data : List Nat) (a b bp : Nat)
    (ret : List Nat) (s : State) :
    s.errcnt ≤ (spiWriteReadBody w data a b bp ret s).2.2.errcnt
      ∧ (spiWriteReadBody w data a b bp ret s).2.2.errcnt ≤ s.errcnt + 2 := by
  unfold spiWriteReadBody
  dsimp only
  generalize hs1 : (bulkTransfer w b _ _ (bytesWrittenArg w s) s).2.2 = s1
  have hadv : Advances s s1 := by rw [← hs1]; exact Advances.bulk ..
  have hle1 : s1.errcnt ≤ s.errcnt + 1 := by rw [← hs1]; exact bulkTransfer_errcnt_le ..
  have hge1 := hadv.errcnt_le
  have hge2 := (Advances.bulk w a (uninitBuffer w s1
    ((if data.length - bp > 56 then 56 else data.length - bp) % 2 ^ 32))
    (toInt32 ((if data.length - bp > 56 then 56 else data.length - bp) % 2 ^ 32)) (some 0)
    s1).errcnt_le
  have hle2 := bulkTransfer_errcnt_le w a (uninitBuffer w s1
    ((if data.length - bp > 56 then 56 else data.length - bp) % 2 ^ 32))
    (toInt32 ((if data.length - bp > 56 then 56 else data.length - bp) % 2 ^ 32)) (some 0) s1
  constructor <;> omega

/-- The loop of `spiWriteRead` raises the error counter by at most 2. -/
theorem spiWriteReadLoop_errcnt_le (w : World) (data : List Nat) (a b : Nat) (prev : Int)
    (fuel : Nat) : ∀ (bp : Nat) (ret : List Nat) (s : State), s.errcnt = prev →
      prev ≤ (spiWriteReadLoop w data a b prev fuel bp ret s).2.errcnt
        ∧ (spiWriteReadLoop w data a b prev fuel bp ret s).2.errcnt ≤ prev + 2 := by
  induction fuel with
  | zero =>
    intro bp ret s hs
    show prev ≤ s.errcnt ∧ s.errcnt ≤ prev + 2
    omega
  | succ fuel ih =>
    intro bp ret s hs
    by_cases hc : bp < data.length ∧ prev = s.errcnt
    · rw [spiWriteReadLoop_step w data a b prev fuel bp ret s hc]
      have hb := spiWriteReadBody_errcnt_le w data a b bp ret s
      by_cases he : (spiWriteReadBody w data a b bp ret s).2.2.errcnt = prev
      · exact ih _ _ _ he
      · rw [spiWriteReadLoop_stop w data a b prev fuel _ _ _ (fun hh => he hh.2.symm)]
        show prev ≤ (spiWriteReadBody w data a b bp ret s).2.2.errcnt
          ∧ (spiWriteReadBody w data a b bp ret s).2.2.errcnt ≤ prev + 2
        omega
    · rw [spiWriteReadLoop_stop w data a b prev (fuel + 1) bp ret s hc]
      show prev ≤ s.errcnt ∧ s.errcnt ≤ prev + 2
      omega

/-- C30: `spiWriteRead` of the empty vector returns the empty vector and leaves the
state as it was, whatever the session; for a non-empty vector on a session that is not
open it returns the empty vector, records no transfer and adds exactly two failures,
the two `In bulkTransfer(): device is not open.` messages of the first iteration; and no
call raises the error counter by more than 2. -/
theorem spiWriteRead_empty_closed (w : World) (data : List Nat) (inA outA : Nat) (s : State) :
    spiWriteRead w [] inA outA s = ([], s)
      ∧ (data ≠ [] → isOpen s = false →
          (spiWriteRead w data inA outA s).1 = []
          ∧ (spiWriteRead w data inA outA s).2.errcnt = s.errcnt + 2
          ∧ (spiWriteRead w data inA outA s).2.errstr
              = s.errstr ++ "In bulkTransfer(): device is not open.\n"
                ++ "In bulkTransfer(): device is not open.\n"
          ∧ (spiWriteRead w data inA outA s).2.trace = s.trace)
      ∧ s.errcnt ≤ (spiWriteRead w data inA outA s).2.errcnt
      ∧ (spiWriteRead w data inA outA s).2.errcnt ≤ s.errcnt + 2 := by
  refine ⟨rfl, ?_, (spiWriteReadLoop_errcnt_le w data inA outA s.errcnt data.length 0 [] s
    rfl).1, (spiWriteReadLoop_errcnt_le w data inA outA s.errcnt data.length 0 [] s rfl).2⟩
  intro hd hcl
  have hpos : 0 < data.length := List.length_pos.mpr hd
  obtain ⟨n, hn⟩ : ∃ n, data.length = n + 1 := ⟨data.length - 1, by omega⟩
  have hb := spiWriteReadBody_closed w data inA outA 0 [] s hcl
  have hcl1 : isOpen (s.fail "In bulkTransfer(): device is not open.\n") = false := hcl
  have hstate : (spiWriteReadBody w data inA outA 0 [] s).2.2
      = (s.fail "In bulkTransfer(): device is not open.\n").fail
          "In bulkTransfer(): device is not open.\n" := by
    unfold spiWriteReadBody
    simp only [bulkTransfer_closed w _ _ _ _ s hcl, bulkTransfer_closed w _ _ _ _ _ hcl1]
  have hrun : spiWriteRead w data inA outA s
      = ((spiWriteReadBody w data inA outA 0 [] s).2.1,
          (spiWriteReadBody w data inA outA 0 [] s).2.2) := by
    unfold spiWriteRead
    rw [hn, spiWriteReadLoop_step w data inA outA s.errcnt n 0 [] s ⟨hpos, rfl⟩]
    apply spiWriteReadLoop_stop
    intro hh
    have := hh.2
    rw [hb.1] at this
    omega
  rw [hrun]
  refine ⟨hb.2.2, hb.1, ?_, hb.2.1⟩
  show (spiWriteReadBody w data inA outA 0 [] s).2.2.errstr = _
  rw [hstate]
  rfl

/-- When the error counter is unchanged at the end, the loop of `spiWriteRead` has
appended as many bytes as were left to process. -/
theorem spiWriteReadLoop_length (w : World) (data : List Nat) (a b : Nat) (prev : Int)
    (fuel : Nat) : ∀ (bp : Nat) (ret : List Nat) (s : State), data.length - bp ≤ fuel →
      s.errcnt = prev → (spiWriteReadLoop w data a b prev fuel bp ret s).2.errcnt = prev →
      (spiWriteReadLoop w data a b prev fuel bp ret s).1.length
        = ret.length + (data.length - bp) := by
  induction fuel with
  | zero =>
    intro bp ret s hf _ _
    show ret.length = _
    omega
  | succ fuel ih =>
    intro bp ret s hf hs hfin
    by_cases hc : bp < data.length ∧ prev = s.errcnt
    · rw [spiWriteReadLoop_step w data a b prev fuel bp ret s hc] at hfin ⊢
      have hfst := spiWriteReadBody_fst w data a b bp ret s hc.1
      have hb := spiWriteReadBody_chunk w data a b bp ret s
      obtain ⟨h1, _, h3, _⟩ := chunkRead_count w data a b bp s hc.1
      by_cases he : (spiWriteReadBody w data a b bp ret s).2.2.errcnt = prev
      · have hfull : chunkBytesRead w data a b bp s = min 56 (data.length - bp) := by
          by_contra hne
          have := h3 hne
          rw [← hb.2, he, hs] at this
          exact absurd this (lt_irrefl _)
        rw [ih _ _ _ (by rw [hfst]; omega) he hfin, hb.1, List.length_append, List.length_map,
          List.length_range, hfull, hfst]
        omega
      · rw [spiWriteReadLoop_stop w data a b prev fuel _ _ _ (fun hh => he hh.2.symm)] at hfin
        exact absurd hfin he
    · rw [spiWriteReadLoop_stop w data a b prev (fuel + 1) bp ret s hc]
      show ret.length = _
      have : ¬ bp < data.length := fun hlt => hc ⟨hlt, hs.symm⟩
      omega

/-- C24 (as amended): for every vector, every pair of endpoint addresses and every
device behaviour, when no error is recorded during the call (the error counter after
the call is the counter before it), `spiWriteRead` returns a vector of the same size as
the one given. -/
theorem spiWriteRead_size (w : World) (data : List Nat) (inA outA : Nat) (s : State)
    (h : (spiWriteRead w data inA outA s).2.errcnt = s.errcnt) :
    (spiWriteRead w data inA outA s).1.length = data.length := by
  have hl := spiWriteReadLoop_length w data inA outA s.errcnt data.length 0 [] s
    (Nat.le_of_eq (Nat.sub_zero _)) rfl h
  rw [List.length_nil, Nat.zero_add, Nat.sub_zero] at hl
  exact hl

theorem spiWriteRead_size_witness :
    (spiWriteRead echoWorld (List.replicate 60 0xaa) 0x81 0x02 State.opened).2.errcnt
        = State.opened.errcnt
      ∧ (spiWriteRead echoWorld (List.replicate 60 0xaa) 0x81 0x02 State.opened).1.length
        = (List.replicate 60 0xaa).length :=
  ⟨by decide,
    spiWriteRead_size echoWorld (List.replicate 60 0xaa) 0x81 0x02 State.opened (by decide)⟩

/-- C24 (as stated) fails: with a device that answers the read one byte short, the call
for the one-byte vector `[0x01]` on an open session records one error and returns the
empty vector, and the call for three bytes returns two. -/
theorem spiWriteRead_size_counterexample :
    (spiWriteRead (shortWorld 0) [0x01] 0x81 0x02 State.opened).1 = []
      ∧ (spiWriteRead (shortWorld 0) [0x01] 0x81 0x02 State.opened).1.length
          ≠ ([0x01] : List Nat).length
      ∧ (spiWriteRead (shortWorld 0) [0x01, 0x02, 0x03] 0x81 0x02 State.opened).1.length = 2
      ∧ (spiWriteRead (shortWorld 0) [0x01] 0x81 0x02 State.opened).2.errcnt = 1 := by
  refine ⟨by decide, by decide, by decide, by decide⟩

/-! ## The round trip with null units -/

/-- C27: for a manufacturer or product string of at most 62 code units, or a serial
string of at most 30, written on an open session: if every GET of table `i` returns the
64 bytes `writeDescGeneric` sent for table `i`, then `getDescGeneric` returns the string
with every `0x0000` unit removed and the other units in their order; so it returns the
string exactly when the string has no `0x0000` unit. -/
theorem round_trip_null_units (w : World) (s0 s1 : State) (descriptor : List Nat)
    (command : Nat)
    (hfield : ((command = SET_MANUFACTURING_STRING_1 ∨ command = SET_PRODUCT_STRING_1)
        ∧ descriptor.length ≤ 62) ∨ (command = SET_SERIAL_STRING ∧ descriptor.length ≤ 30))
    (hu : ∀ c ∈ descriptor, c < 65536)
    (ho0 : isOpen s0 = true) (ho1 : isOpen s1 = true)
    (hget : ∀ i table,
      (sentTables s0.trace.length (writeDescGeneric w descriptor command s0).trace)[i]?
        = some table →
      ∀ hist buf, s1.trace <+: hist →
        (w.reply hist (UsbCall.control GET (command - 1 + 2 * i) 0 0 buf DESC_TBLSIZE)).result = 64
        ∧ 64 ≤ (w.reply hist
            (UsbCall.control GET (command - 1 + 2 * i) 0 0 buf DESC_TBLSIZE)).transferred
        ∧ ∀ j < 64, (w.reply hist
            (UsbCall.control GET (command - 1 + 2 * i) 0 0 buf DESC_TBLSIZE)).data j
              = table.getD j 0) :
    (getDescGeneric w (command - 1) s1).1 = descriptor.filter (fun c => decide (c ≠ 0x0000))
      ∧ ((getDescGeneric w (command - 1) s1).1 = descriptor ↔ ∀ c ∈ descriptor, c ≠ 0x0000) := by
  have h := roundtrip_filter w s0 s1 descriptor command hfield hu ho0 ho1 hget
  refine ⟨h, ?_⟩
  rw [h, List.filter_eq_self]
  simp

theorem round_trip_null_units_witness :
    (getDescGeneric
      (promWorld GET_MANUFACTURING_STRING_1
        ((List.range 2).map (sentTable [0x0041, 0x0000, 0x0042])))
      (SET_MANUFACTURING_STRING_1 - 1)
      (writeDescGeneric
        (promWorld GET_MANUFACTURING_STRING_1
          ((List.range 2).map (sentTable [0x0041, 0x0000, 0x0042])))
        [0x0041, 0x0000, 0x0042] SET_MANUFACTURING_STRING_1 State.opened)).1
      = [0x0041, 0x0042] :=
  (round_trip_null_units _ State.opened _ [0x0041, 0x0000, 0x0042] SET_MANUFACTURING_STRING_1
    (Or.inl ⟨Or.inl rfl, by decide⟩) (by decide) rfl (by decide)
    (fun i table h hist buf _ => by
      rw [sentTables_writeDescGeneric _ _ _ State.opened rfl] at h
      exact promWorld_reply GET_MANUFACTURING_STRING_1 _ i table h hist buf)).1

/-! ## The decoder against its reference definition -/

theorem controlTransfer_fst_length (w : World) (a b c d : Nat) (data : List Nat) (n : Nat)
    (s : State) : (controlTransfer w a b c d data n s).1.length = data.length := by
  unfold controlTransfer
  dsimp only
  split_ifs <;> simp only [received_length]

theorem firstTable_length (w : World) (command : Nat) (s : State) :
    (firstTable w command s).1.length = 64 := by
  unfold firstTable
  rw [controlTransfer_fst_length]
  simp [uninitBuffer, DESC_TBLSIZE]

/-- The kept units of a table are its units at the positions, without the zero ones. -/
theorem keptUnits_eq (buf : List Nat) (positions : List Nat) :
    keptUnits buf positions
      = (positions.map (unitLE buf)).filter (fun c => decide (c ≠ 0)) := by
  unfold keptUnits
  rw [List.filter_map]
  congr 1
  apply List.filter_congr
  intro i _
  simp only [Function.comp, unitLE, decide_eq_decide]
  omega

/-- The bytes of the stream `B` that come from the first table. -/
theorem stream_getD_left (t0 t1 : List Nat) (n j : Nat) (hl : n + 2 ≤ t0.length) (hj : j < n) :
    ((t0.drop 2).take n ++ t1).getD j 0 = t0.getD (2 + j) 0 := by
  rw [getD_append_left _ _ _ (by rw [List.length_take, List.length_drop]; omega),
    getD_drop_take t0 2 n j hj]

/-- The bytes of the stream `B` that come from the second table. -/
theorem stream_getD_right (t0 t1 : List Nat) (j : Nat) (hl : t0.length = 64) (hj : j < 63) :
    ((t0.drop 2).take 61 ++ t1.take 63).getD (61 + j) 0 = t1.getD j 0 := by
  have hlen : ((t0.drop 2).take 61).length = 61 := by
    rw [List.length_take, List.length_drop]; omega
  rw [getD_append_right _ _ _ (by omega), hlen, Nat.add_sub_cancel_left, getD_take t1 63 j hj]

theorem map_filter_congr (f g : Nat → Nat) (n : Nat) (h : ∀ k < n, f k = g k) :
    ((List.range n).map f).filter (fun c => decide (c ≠ 0))
      = ((List.range n).map g).filter (fun c => decide (c ≠ 0)) := by
  congr 1
  apply List.map_congr_left
  intro k hk
  exact h k (List.mem_range.mp hk)

/-- The first loop of the decoder in terms of the stream `B`. -/
theorem decode_first_stream (t0 t1 : List Nat) (width n : Nat) (hl : width + 2 ≤ t0.length)
    (hn : 2 * n ≤ width) :
    keptUnits t0 ((List.range n).map (fun k => 2 + 2 * k))
      = ((List.range n).map (fun k => unitLE ((t0.drop 2).take width ++ t1) (2 * k))).filter
          (fun c => decide (c ≠ 0)) := by
  rw [keptUnits_eq, List.map_map]
  apply map_filter_congr
  intro k hk
  show unitLE t0 (2 + 2 * k) = _
  unfold unitLE
  rw [stream_getD_left t0 t1 width (2 * k) hl (by omega),
    stream_getD_left t0 t1 width (2 * k + 1) hl (by omega)]
  rfl

/-- C25: with `L` byte 0 of the first table: when `L ≤ 62`, `getDescGeneric` returns the
reference decoding of the first table, whatever stands for the second; for a
manufacturer or product GET command with `62 < L ≤ 126` it returns the reference
decoding of the two tables received; for any other command with `L > 62` it returns
the first 30 units of the bytes 2 to 61 of the first table, without the zero units. -/
theorem decode_reference (w : World) (command : Nat) (s : State) :
    ((firstTable w command s).1.getD 0 0 ≤ 62 → ∀ table1,
        (getDescGeneric w command s).1
          = referenceDecode ((firstTable w command s).1.getD 0 0) (firstTable w command s).1
              table1)
      ∧ (command = 0x62 ∨ command = 0x66 → 62 < (firstTable w command s).1.getD 0 0 →
          (firstTable w command s).1.getD 0 0 ≤ 126 →
          (getDescGeneric w command s).1
            = referenceDecode ((firstTable w command s).1.getD 0 0) (firstTable w command s).1
                (secondTable w command s).1)
      ∧ (¬ (command = 0x62 ∨ command = 0x66) → 62 < (firstTable w command s).1.getD 0 0 →
          (getDescGeneric w command s).1
            = ((List.range 30).map
                (fun k => unitLE (((firstTable w command s).1.drop 2).take 60) (2 * k))).filter
                  (fun c => decide (c ≠ 0))) := by
  have hM : DESC_MAXIDX = 62 := rfl
  have hI : DESC_IDXINCR = 63 := rfl
  have hlen := firstTable_length w command s
  have h30 : (62 - 1) / 2 = 30 := rfl
  refine ⟨?_, ?_, ?_⟩
  · intro hL table1
    rw [getDescGeneric_fst, hM, if_neg (fun hh => absurd hh.2 (Nat.not_lt.mpr hL)),
      Nat.min_eq_left hL, forRange_two_two]
    have e : ((firstTable w command s).1.getD 0 0 - 1) / 2
        = ((firstTable w command s).1.getD 0 0 - 2 + 1) / 2 := by omega
    rw [e]
    exact decode_first_stream _ (table1.take 63) 61 _ (by omega) (by omega)
  · intro hcmd hlo hhi
    have hcond : (command = GET_MANUFACTURING_STRING_1 ∨ command = GET_PRODUCT_STRING_1)
        ∧ (firstTable w command s).1.getD 0 0 > 62 := ⟨hcmd, hlo⟩
    rw [getDescGeneric_fst, hM, hI, if_pos hcond, Nat.min_eq_right (Nat.le_of_lt hlo),
      forRange_two_two, forRange_one_two, h30]
    unfold referenceDecode
    have e : ((firstTable w command s).1.getD 0 0 - 2 + 1) / 2
        = 30 + (1 + ((firstTable w command s).1.getD 0 0 - 63) / 2) := by omega
    have hm : ((firstTable w command s).1.getD 0 0 - 63) / 2 ≤ 31 := by omega
    rw [e, range_split, range_split, List.filter_append, List.filter_append,
      ← List.append_assoc]
    congr 1
    · congr 1
      · exact decode_first_stream _ ((secondTable w command s).1.take 63) 61 30 (by omega)
          (by omega)
      · have r1 : List.range 1 = [0] := rfl
        rw [r1, List.map_singleton]
        have hmid : unitLE (((firstTable w command s).1.drop 2).take 61
            ++ (secondTable w command s).1.take 63) (2 * (30 + 0))
            = (firstTable w command s).1.getD 62 0
              + 256 * (secondTable w command s).1.getD 0 0 := by
          unfold unitLE
          rw [stream_getD_left _ _ 61 60 (by omega) (by omega)]
          rw [show 2 * (30 + 0) + 1 = 61 + 0 from rfl,
            stream_getD_right _ _ 0 hlen (by omega)]
        rw [hmid]
        split_ifs with hz
        · rw [List.filter_cons_of_pos (p := fun c => decide (c ≠ 0)) (decide_eq_true hz),
            List.filter_nil]
        · rw [List.filter_cons_of_neg (p := fun c => decide (c ≠ 0))
            (by rw [decide_eq_true_eq]; exact hz), List.filter_nil]
    · rw [keptUnits_eq, List.map_map]
      apply map_filter_congr
      intro k hk
      show unitLE (secondTable w command s).1 (1 + 2 * k) = _
      unfold unitLE
      rw [show 2 * (30 + (1 + k)) = 61 + (1 + 2 * k) by omega,
        show 61 + (1 + 2 * k) + 1 = 61 + (1 + 2 * k + 1) by omega,
        stream_getD_right _ _ (1 + 2 * k) hlen (by omega),
        stream_getD_right _ _ (1 + 2 * k + 1) hlen (by omega)]
  · intro hcmd hlo
    have hcond : ¬ ((command = GET_MANUFACTURING_STRING_1 ∨ command = GET_PRODUCT_STRING_1)
        ∧ (firstTable w command s).1.getD 0 0 > 62) := fun hh => hcmd hh.1
    rw [getDescGeneric_fst, hM, if_neg hcond, Nat.min_eq_right (Nat.le_of_lt hlo),
      forRange_two_two, h30]
    have h := decode_first_stream (firstTable w command s).1 [] 60 30 (by omega) (by omega)
    rw [List.append_nil] at h
    exact h

/-! ## Index safety of the decoder -/

theorem mem_pairs (positions : List Nat) (k : Nat) :
    k ∈ (positions.map (fun i => [i, i + 1])).flatten
      ↔ ∃ i ∈ positions, k = i ∨ k = i + 1 := by
  simp only [List.mem_flatten, List.mem_map]
  constructor
  · rintro ⟨l, ⟨i, hi, rfl⟩, hk⟩
    exact ⟨i, hi, by simpa using hk⟩
  · rintro ⟨i, hi, hk⟩
    exact ⟨[i, i + 1], ⟨i, hi, rfl⟩, by simpa using hk⟩

/-- The indices read, in terms of the first table. -/
theorem getDescGenericReads_eq (w : World) (command : Nat) (s : State) :
    getDescGenericReads w command s
      = if (command = 0x62 ∨ command = 0x66) ∧ (firstTable w command s).1.getD 0 0 > 62 then
          [0] ++ ((forRange 2 (min ((firstTable w command s).1.getD 0 0) 62) 2).map
              (fun i => [i, i + 1])).flatten
            ++ [62, 0]
            ++ ((forRange 1 ((firstTable w command s).1.getD 0 0 - 63) 2).map
              (fun i => [i, i + 1])).flatten
        else
          [0] ++ ((forRange 2 (min ((firstTable w command s).1.getD 0 0) 62) 2).map
            (fun i => [i, i + 1])).flatten := by
  have hend : (if (firstTable w command s).1.getD 0 0 > DESC_MAXIDX then DESC_MAXIDX
      else (firstTable w command s).1.getD 0 0)
      = min ((firstTable w command s).1.getD 0 0) 62 := by
    have hM : DESC_MAXIDX = 62 := rfl
    rw [hM]
    split_ifs with h
    · exact (Nat.min_eq_right (Nat.le_of_lt h)).symm
    · exact (Nat.min_eq_left (Nat.le_of_not_lt h)).symm
  unfold firstTable at hend ⊢
  unfold getDescGenericReads
  dsimp only
  rw [hend]
  rfl

/-- C28: every index `getDescGeneric` reads in the 64-byte buffer is below 64, for every
table content, when the command is not a manufacturer or product GET command; for such
a command this holds exactly when the declared length byte is at most 126, and with a
declared length of 127 or more the second loop reads index 64. -/
theorem index_safety (w : World) (command : Nat) (s : State) :
    (¬ (command = 0x62 ∨ command = 0x66) → ∀ k ∈ getDescGenericReads w command s, k < 64)
      ∧ (command = 0x62 ∨ command = 0x66 →
          ((∀ k ∈ getDescGenericReads w command s, k < 64)
            ↔ (firstTable w command s).1.getD 0 0 ≤ 126))
      ∧ (command = 0x62 ∨ command = 0x66 → 127 ≤ (firstTable w command s).1.getD 0 0 →
          63 ∈ forRange 1 ((firstTable w command s).1.getD 0 0 - 63) 2
          ∧ 64 ∈ getDescGenericReads w command s) := by
  have hfirst : ∀ k ∈ [0] ++ ((forRange 2 (min ((firstTable w command s).1.getD 0 0) 62) 2).map
      (fun i => [i, i + 1])).flatten, k < 64 := by
    intro k hk
    rw [List.mem_append, mem_pairs] at hk
    rcases hk with hk | ⟨i, hi, hk⟩
    · rw [List.mem_singleton] at hk
      omega
    · rw [mem_forRange] at hi
      omega
  have hbad : command = 0x62 ∨ command = 0x66 → 127 ≤ (firstTable w command s).1.getD 0 0 →
      63 ∈ forRange 1 ((firstTable w command s).1.getD 0 0 - 63) 2
      ∧ 64 ∈ getDescGenericReads w command s := by
    intro hcmd hL
    have h63 : 63 ∈ forRange 1 ((firstTable w command s).1.getD 0 0 - 63) 2 := by
      rw [mem_forRange]
      omega
    refine ⟨h63, ?_⟩
    rw [getDescGenericReads_eq, if_pos ⟨hcmd, by omega⟩, List.mem_append]
    right
    rw [mem_pairs]
    exact ⟨63, h63, Or.inr rfl⟩
  refine ⟨?_, ?_, hbad⟩
  · intro hcmd k hk
    rw [getDescGenericReads_eq, if_neg (fun hh => hcmd hh.1)] at hk
    exact hfirst k hk
  · intro hcmd
    constructor
    · intro hall
      by_contra hL
      have := hall 64 (hbad hcmd (by omega)).2
      omega
    · intro hL k hk
      rw [getDescGenericReads_eq] at hk
      split_ifs at hk with hc
      · rw [List.mem_append, List.mem_append, mem_pairs] at hk
        rcases hk with (hk | hk) | ⟨i, hi, hk⟩
        · exact hfirst k hk
        · simp only [List.mem_cons, List.mem_singleton, List.not_mem_nil, or_false] at hk
          omega
        · rw [mem_forRange] at hi
          omega
      · exact hfirst k hk

theorem index_safety_witness :
    64 ∈ getDescGenericReads (promWorld GET_MANUFACTURING_STRING_1 [[127, 0x03]])
        GET_MANUFACTURING_STRING_1 State.opened
      ∧ ∀ k ∈ getDescGenericReads (promWorld GET_SERIAL_STRING [[255, 0x03]])
          GET_SERIAL_STRING State.opened, k < 64 :=
  ⟨((index_safety (promWorld GET_MANUFACTURING_STRING_1 [[127, 0x03]])
      GET_MANUFACTURING_STRING_1 State.opened).2.2 (Or.inl rfl) (by decide)).2,
    (index_safety (promWorld GET_SERIAL_STRING [[255, 0x03]]) GET_SERIAL_STRING
      State.opened).1 (by decide)⟩

end CP2130
